import Mathlib

/-!
Thimbleweed Park .so loader: `src/loader/main.c`

A shallow embedding of the host side of the loader: the import table
`default_dynlib`, the hook sites of `patch_game`, and `main` as the sequence
of calls it makes, given the results of the calls it depends on.
-/

namespace Thimbleweed

/-- An entry of a `so_default_dynlib` table: the symbol string and the host
function whose address is bound to it (named, since addresses are not fixed
before link time). -/
structure so_default_dynlib where
  symbol : String
  func : String
deriving DecidableEq, Repr

/-- The table `default_dynlib` of main.c, lines 800-1399, in source order;
entries inside comments are not part of the table. -/
def default_dynlib : List so_default_dynlib := [
  so_default_dynlib.mk "glTexParameteri" "glTexParameteri",
  so_default_dynlib.mk "glGetError" "ret0",
  so_default_dynlib.mk "glReadPixels" "glReadPixels_hook",
  so_default_dynlib.mk "glShaderSource" "glShaderSource",
  so_default_dynlib.mk "glGetUniformLocation" "glGetUniformLocation_fake",
  so_default_dynlib.mk "glBindAttribLocation" "glBindAttribLocation_fake",
  so_default_dynlib.mk "SDL_GetPlatform" "SDL_GetPlatform",
  so_default_dynlib.mk "sincosf" "sincosf",
  so_default_dynlib.mk "opendir" "opendir_fake",
  so_default_dynlib.mk "readdir" "readdir_fake",
  so_default_dynlib.mk "closedir" "closedir_fake",
  so_default_dynlib.mk "g_SDL_BufferGeometry_w" "g_SDL_BufferGeometry_w",
  so_default_dynlib.mk "g_SDL_BufferGeometry_h" "g_SDL_BufferGeometry_h",
  so_default_dynlib.mk "__aeabi_memclr" "sceClibMemclr",
  so_default_dynlib.mk "__aeabi_memclr4" "sceClibMemclr",
  so_default_dynlib.mk "__aeabi_memclr8" "sceClibMemclr",
  so_default_dynlib.mk "__aeabi_memcpy4" "sceClibMemcpy",
  so_default_dynlib.mk "__aeabi_memcpy8" "sceClibMemcpy",
  so_default_dynlib.mk "__aeabi_memmove4" "memmove",
  so_default_dynlib.mk "__aeabi_memmove8" "memmove",
  so_default_dynlib.mk "__aeabi_memcpy" "sceClibMemcpy",
  so_default_dynlib.mk "__aeabi_memmove" "memmove",
  so_default_dynlib.mk "__aeabi_memset" "sceClibMemset2",
  so_default_dynlib.mk "__aeabi_memset4" "sceClibMemset2",
  so_default_dynlib.mk "__aeabi_memset8" "sceClibMemset2",
  so_default_dynlib.mk "__aeabi_atexit" "__aeabi_atexit",
  so_default_dynlib.mk "__aeabi_uidiv" "__aeabi_uidiv",
  so_default_dynlib.mk "__aeabi_uidivmod" "__aeabi_uidivmod",
  so_default_dynlib.mk "__aeabi_ldivmod" "__aeabi_ldivmod",
  so_default_dynlib.mk "__aeabi_idivmod" "__aeabi_idivmod",
  so_default_dynlib.mk "__aeabi_idiv" "__aeabi_idiv",
  so_default_dynlib.mk "__aeabi_ddiv" "__aeabi_ddiv",
  so_default_dynlib.mk "__aeabi_dmul" "__aeabi_dmul",
  so_default_dynlib.mk "__aeabi_dadd" "__aeabi_dadd",
  so_default_dynlib.mk "__aeabi_i2d" "__aeabi_i2d",
  so_default_dynlib.mk "__android_log_print" "__android_log_print",
  so_default_dynlib.mk "__android_log_vprint" "__android_log_vprint",
  so_default_dynlib.mk "__android_log_write" "__android_log_write",
  so_default_dynlib.mk "__cxa_atexit" "__cxa_atexit",
  so_default_dynlib.mk "__cxa_call_unexpected" "__cxa_call_unexpected",
  so_default_dynlib.mk "__cxa_guard_acquire" "__cxa_guard_acquire",
  so_default_dynlib.mk "__cxa_guard_release" "__cxa_guard_release",
  so_default_dynlib.mk "__cxa_finalize" "__cxa_finalize",
  so_default_dynlib.mk "__errno" "__errno",
  so_default_dynlib.mk "__strlen_chk" "__strlen_chk",
  so_default_dynlib.mk "__gnu_unwind_frame" "__gnu_unwind_frame",
  so_default_dynlib.mk "__gnu_Unwind_Find_exidx" "ret0",
  so_default_dynlib.mk "dl_unwind_find_exidx" "ret0",
  so_default_dynlib.mk "__sF" "__sF_fake",
  so_default_dynlib.mk "__stack_chk_fail" "__stack_chk_fail",
  so_default_dynlib.mk "__stack_chk_guard" "__stack_chk_guard_fake",
  so_default_dynlib.mk "_ctype_" "BIONIC_ctype_",
  so_default_dynlib.mk "_tolower_tab_" "BIONIC_tolower_tab_",
  so_default_dynlib.mk "_toupper_tab_" "BIONIC_toupper_tab_",
  so_default_dynlib.mk "abort" "abort_hook",
  so_default_dynlib.mk "access" "access",
  so_default_dynlib.mk "acos" "acos",
  so_default_dynlib.mk "acosh" "acosh",
  so_default_dynlib.mk "asctime" "asctime",
  so_default_dynlib.mk "acosf" "acosf",
  so_default_dynlib.mk "asin" "asin",
  so_default_dynlib.mk "asinh" "asinh",
  so_default_dynlib.mk "asinf" "asinf",
  so_default_dynlib.mk "atan" "atan",
  so_default_dynlib.mk "atanh" "atanh",
  so_default_dynlib.mk "atan2" "atan2",
  so_default_dynlib.mk "atan2f" "atan2f",
  so_default_dynlib.mk "atanf" "atanf",
  so_default_dynlib.mk "atoi" "atoi",
  so_default_dynlib.mk "atol" "atol",
  so_default_dynlib.mk "atoll" "atoll",
  so_default_dynlib.mk "basename" "basename",
  so_default_dynlib.mk "bsd_signal" "ret0",
  so_default_dynlib.mk "bsearch" "bsearch",
  so_default_dynlib.mk "btowc" "btowc",
  so_default_dynlib.mk "calloc" "calloc",
  so_default_dynlib.mk "ceil" "ceil",
  so_default_dynlib.mk "ceilf" "ceilf",
  so_default_dynlib.mk "chdir" "chdir_hook",
  so_default_dynlib.mk "clearerr" "clearerr",
  so_default_dynlib.mk "clock" "clock",
  so_default_dynlib.mk "clock_gettime" "clock_gettime_hook",
  so_default_dynlib.mk "close" "close",
  so_default_dynlib.mk "cos" "cos",
  so_default_dynlib.mk "cosf" "cosf",
  so_default_dynlib.mk "cosh" "cosh",
  so_default_dynlib.mk "crc32" "crc32",
  so_default_dynlib.mk "deflate" "deflate",
  so_default_dynlib.mk "deflateEnd" "deflateEnd",
  so_default_dynlib.mk "deflateInit_" "deflateInit_",
  so_default_dynlib.mk "deflateInit2_" "deflateInit2_",
  so_default_dynlib.mk "deflateReset" "deflateReset",
  so_default_dynlib.mk "dlopen" "ret0",
  so_default_dynlib.mk "exit" "exit",
  so_default_dynlib.mk "exp" "exp",
  so_default_dynlib.mk "exp2" "exp2",
  so_default_dynlib.mk "expf" "expf",
  so_default_dynlib.mk "fabsf" "fabsf",
  so_default_dynlib.mk "fclose" "fclose",
  so_default_dynlib.mk "fcntl" "ret0",
  so_default_dynlib.mk "ferror" "ferror",
  so_default_dynlib.mk "fflush" "fflush",
  so_default_dynlib.mk "fgets" "fgets",
  so_default_dynlib.mk "floor" "floor",
  so_default_dynlib.mk "fileno" "fileno",
  so_default_dynlib.mk "floorf" "floorf",
  so_default_dynlib.mk "fmod" "fmod",
  so_default_dynlib.mk "fmodf" "fmodf",
  so_default_dynlib.mk "fopen" "fopen_hook",
  so_default_dynlib.mk "open" "open_hook",
  so_default_dynlib.mk "fprintf" "fprintf",
  so_default_dynlib.mk "fputc" "fputc",
  so_default_dynlib.mk "fread" "fread",
  so_default_dynlib.mk "free" "free",
  so_default_dynlib.mk "frexp" "frexp",
  so_default_dynlib.mk "frexpf" "frexpf",
  so_default_dynlib.mk "fseek" "fseek",
  so_default_dynlib.mk "fseeko" "fseeko",
  so_default_dynlib.mk "fstat" "fstat_hook",
  so_default_dynlib.mk "ftell" "ftell",
  so_default_dynlib.mk "ftello" "ftello",
  so_default_dynlib.mk "fwrite" "fwrite",
  so_default_dynlib.mk "getc" "getc",
  so_default_dynlib.mk "getpid" "ret0",
  so_default_dynlib.mk "getcwd" "getcwd_hook",
  so_default_dynlib.mk "getenv" "ret0",
  so_default_dynlib.mk "getwc" "getwc",
  so_default_dynlib.mk "gettimeofday" "gettimeofday",
  so_default_dynlib.mk "gzopen" "gzopen",
  so_default_dynlib.mk "inflate" "inflate",
  so_default_dynlib.mk "inflateEnd" "inflateEnd",
  so_default_dynlib.mk "inflateInit_" "inflateInit_",
  so_default_dynlib.mk "inflateInit2_" "inflateInit2_",
  so_default_dynlib.mk "inflateReset" "inflateReset",
  so_default_dynlib.mk "isascii" "isascii",
  so_default_dynlib.mk "isalnum" "isalnum",
  so_default_dynlib.mk "isalpha" "isalpha",
  so_default_dynlib.mk "iscntrl" "iscntrl",
  so_default_dynlib.mk "isdigit" "isdigit",
  so_default_dynlib.mk "islower" "islower",
  so_default_dynlib.mk "ispunct" "ispunct",
  so_default_dynlib.mk "isprint" "isprint",
  so_default_dynlib.mk "isspace" "isspace",
  so_default_dynlib.mk "isupper" "isupper",
  so_default_dynlib.mk "iswalpha" "iswalpha",
  so_default_dynlib.mk "iswcntrl" "iswcntrl",
  so_default_dynlib.mk "iswctype" "iswctype",
  so_default_dynlib.mk "iswdigit" "iswdigit",
  so_default_dynlib.mk "iswdigit" "iswdigit",
  so_default_dynlib.mk "iswlower" "iswlower",
  so_default_dynlib.mk "iswprint" "iswprint",
  so_default_dynlib.mk "iswpunct" "iswpunct",
  so_default_dynlib.mk "iswspace" "iswspace",
  so_default_dynlib.mk "iswupper" "iswupper",
  so_default_dynlib.mk "iswxdigit" "iswxdigit",
  so_default_dynlib.mk "isxdigit" "isxdigit",
  so_default_dynlib.mk "ldexp" "ldexp",
  so_default_dynlib.mk "ldexpf" "ldexpf",
  so_default_dynlib.mk "localtime" "localtime",
  so_default_dynlib.mk "localtime_r" "localtime_r",
  so_default_dynlib.mk "log" "log",
  so_default_dynlib.mk "logf" "logf",
  so_default_dynlib.mk "log10" "log10",
  so_default_dynlib.mk "log10f" "log10f",
  so_default_dynlib.mk "longjmp" "longjmp",
  so_default_dynlib.mk "lrand48" "lrand48",
  so_default_dynlib.mk "lrint" "lrint",
  so_default_dynlib.mk "lrintf" "lrintf",
  so_default_dynlib.mk "lseek" "lseek",
  so_default_dynlib.mk "lseek64" "lseek64",
  so_default_dynlib.mk "malloc" "malloc",
  so_default_dynlib.mk "mbrtowc" "mbrtowc",
  so_default_dynlib.mk "memalign" "memalign",
  so_default_dynlib.mk "memchr" "sceClibMemchr",
  so_default_dynlib.mk "memcmp" "memcmp",
  so_default_dynlib.mk "memcpy" "sceClibMemcpy",
  so_default_dynlib.mk "memmove" "memmove",
  so_default_dynlib.mk "memset" "sceClibMemset",
  so_default_dynlib.mk "mkdir" "mkdir",
  so_default_dynlib.mk "modf" "modf",
  so_default_dynlib.mk "modff" "modff",
  so_default_dynlib.mk "pow" "pow",
  so_default_dynlib.mk "powf" "powf",
  so_default_dynlib.mk "printf" "ret0",
  so_default_dynlib.mk "pthread_attr_destroy" "pthread_attr_destroy_soloader",
  so_default_dynlib.mk "pthread_attr_getstack" "pthread_attr_getstack_soloader",
  so_default_dynlib.mk "pthread_attr_init" "pthread_attr_init_soloader",
  so_default_dynlib.mk "pthread_attr_setdetachstate" "pthread_attr_setdetachstate_soloader",
  so_default_dynlib.mk "pthread_attr_setschedparam" "pthread_attr_setschedparam_soloader",
  so_default_dynlib.mk "pthread_attr_setstack" "pthread_attr_setstack_soloader",
  so_default_dynlib.mk "pthread_attr_setstacksize" "pthread_attr_setstacksize_soloader",
  so_default_dynlib.mk "pthread_cond_broadcast" "pthread_cond_broadcast_soloader",
  so_default_dynlib.mk "pthread_cond_destroy" "pthread_cond_destroy_soloader",
  so_default_dynlib.mk "pthread_cond_init" "pthread_cond_init_soloader",
  so_default_dynlib.mk "pthread_cond_signal" "pthread_cond_signal_soloader",
  so_default_dynlib.mk "pthread_cond_timedwait" "pthread_cond_timedwait_soloader",
  so_default_dynlib.mk "pthread_cond_wait" "pthread_cond_wait_soloader",
  so_default_dynlib.mk "pthread_create" "pthread_create_soloader",
  so_default_dynlib.mk "pthread_detach" "pthread_detach_soloader",
  so_default_dynlib.mk "pthread_equal" "pthread_equal_soloader",
  so_default_dynlib.mk "pthread_exit" "pthread_exit",
  so_default_dynlib.mk "pthread_getattr_np" "pthread_getattr_np_soloader",
  so_default_dynlib.mk "pthread_getschedparam" "pthread_getschedparam_soloader",
  so_default_dynlib.mk "pthread_getspecific" "pthread_getspecific",
  so_default_dynlib.mk "pthread_key_create" "pthread_key_create",
  so_default_dynlib.mk "pthread_key_delete" "pthread_key_delete",
  so_default_dynlib.mk "pthread_mutex_destroy" "pthread_mutex_destroy_soloader",
  so_default_dynlib.mk "pthread_mutex_init" "pthread_mutex_init_soloader",
  so_default_dynlib.mk "pthread_mutex_lock" "pthread_mutex_lock_soloader",
  so_default_dynlib.mk "pthread_mutex_trylock" "pthread_mutex_trylock_soloader",
  so_default_dynlib.mk "pthread_mutex_unlock" "pthread_mutex_unlock_soloader",
  so_default_dynlib.mk "pthread_mutexattr_destroy" "pthread_mutexattr_destroy_soloader",
  so_default_dynlib.mk "pthread_mutexattr_init" "pthread_mutexattr_init_soloader",
  so_default_dynlib.mk "pthread_mutexattr_setpshared" "pthread_mutexattr_setpshared_soloader",
  so_default_dynlib.mk "pthread_mutexattr_settype" "pthread_mutexattr_settype_soloader",
  so_default_dynlib.mk "pthread_once" "pthread_once",
  so_default_dynlib.mk "pthread_self" "pthread_self_soloader",
  so_default_dynlib.mk "pthread_setschedparam" "pthread_setschedparam_soloader",
  so_default_dynlib.mk "pthread_setspecific" "pthread_setspecific",
  so_default_dynlib.mk "sched_get_priority_min" "ret0",
  so_default_dynlib.mk "sched_get_priority_max" "ret99",
  so_default_dynlib.mk "putc" "putc",
  so_default_dynlib.mk "puts" "puts",
  so_default_dynlib.mk "putwc" "putwc",
  so_default_dynlib.mk "qsort" "qsort",
  so_default_dynlib.mk "rand" "rand",
  so_default_dynlib.mk "read" "read",
  so_default_dynlib.mk "realpath" "realpath",
  so_default_dynlib.mk "realloc" "realloc",
  so_default_dynlib.mk "roundf" "roundf",
  so_default_dynlib.mk "rint" "rint",
  so_default_dynlib.mk "rintf" "rintf",
  so_default_dynlib.mk "setenv" "ret0",
  so_default_dynlib.mk "setjmp" "setjmp",
  so_default_dynlib.mk "setlocale" "ret0",
  so_default_dynlib.mk "setvbuf" "setvbuf",
  so_default_dynlib.mk "sin" "sin",
  so_default_dynlib.mk "sinf" "sinf",
  so_default_dynlib.mk "sinh" "sinh",
  so_default_dynlib.mk "snprintf" "snprintf",
  so_default_dynlib.mk "sprintf" "sprintf",
  so_default_dynlib.mk "sqrt" "sqrt",
  so_default_dynlib.mk "sqrtf" "sqrtf",
  so_default_dynlib.mk "srand" "srand",
  so_default_dynlib.mk "srand48" "srand48",
  so_default_dynlib.mk "sscanf" "sscanf",
  so_default_dynlib.mk "stat" "stat_hook",
  so_default_dynlib.mk "strcasecmp" "strcasecmp",
  so_default_dynlib.mk "strcasestr" "strstr",
  so_default_dynlib.mk "strcat" "strcat",
  so_default_dynlib.mk "strchr" "strchr",
  so_default_dynlib.mk "strcmp" "sceClibStrcmp",
  so_default_dynlib.mk "strcoll" "strcoll",
  so_default_dynlib.mk "strcpy" "strcpy",
  so_default_dynlib.mk "strcspn" "strcspn",
  so_default_dynlib.mk "strdup" "strdup",
  so_default_dynlib.mk "strerror" "strerror",
  so_default_dynlib.mk "strftime" "strftime",
  so_default_dynlib.mk "strlcpy" "strlcpy",
  so_default_dynlib.mk "strlen" "strlen",
  so_default_dynlib.mk "strncasecmp" "sceClibStrncasecmp",
  so_default_dynlib.mk "strncat" "sceClibStrncat",
  so_default_dynlib.mk "strncmp" "sceClibStrncmp",
  so_default_dynlib.mk "strncpy" "sceClibStrncpy",
  so_default_dynlib.mk "strpbrk" "strpbrk",
  so_default_dynlib.mk "strrchr" "sceClibStrrchr",
  so_default_dynlib.mk "strstr" "sceClibStrstr",
  so_default_dynlib.mk "strtod" "strtod",
  so_default_dynlib.mk "strtol" "strtol",
  so_default_dynlib.mk "strtoul" "strtoul",
  so_default_dynlib.mk "strtoll" "strtoll",
  so_default_dynlib.mk "strtoull" "strtoull",
  so_default_dynlib.mk "strtok" "strtok",
  so_default_dynlib.mk "strxfrm" "strxfrm",
  so_default_dynlib.mk "sysconf" "ret0",
  so_default_dynlib.mk "tan" "tan",
  so_default_dynlib.mk "tanf" "tanf",
  so_default_dynlib.mk "tanh" "tanh",
  so_default_dynlib.mk "time" "time",
  so_default_dynlib.mk "tolower" "tolower",
  so_default_dynlib.mk "toupper" "toupper",
  so_default_dynlib.mk "towlower" "towlower",
  so_default_dynlib.mk "towupper" "towupper",
  so_default_dynlib.mk "ungetc" "ungetc",
  so_default_dynlib.mk "ungetwc" "ungetwc",
  so_default_dynlib.mk "usleep" "usleep",
  so_default_dynlib.mk "vfprintf" "vfprintf",
  so_default_dynlib.mk "vprintf" "vprintf",
  so_default_dynlib.mk "vsnprintf" "vsnprintf",
  so_default_dynlib.mk "vsscanf" "vsscanf",
  so_default_dynlib.mk "vsprintf" "vsprintf",
  so_default_dynlib.mk "vswprintf" "vswprintf",
  so_default_dynlib.mk "wcrtomb" "wcrtomb",
  so_default_dynlib.mk "wcscoll" "wcscoll",
  so_default_dynlib.mk "wcscmp" "wcscmp",
  so_default_dynlib.mk "wcsncpy" "wcsncpy",
  so_default_dynlib.mk "wcsftime" "wcsftime",
  so_default_dynlib.mk "wcslen" "wcslen",
  so_default_dynlib.mk "wcsxfrm" "wcsxfrm",
  so_default_dynlib.mk "wctob" "wctob",
  so_default_dynlib.mk "wctype" "wctype",
  so_default_dynlib.mk "wmemchr" "wmemchr",
  so_default_dynlib.mk "wmemcmp" "wmemcmp",
  so_default_dynlib.mk "wmemcpy" "wmemcpy",
  so_default_dynlib.mk "wmemmove" "wmemmove",
  so_default_dynlib.mk "wmemset" "wmemset",
  so_default_dynlib.mk "write" "write",
  so_default_dynlib.mk "sigaction" "ret0",
  so_default_dynlib.mk "zlibVersion" "zlibVersion",
  so_default_dynlib.mk "unlink" "unlink",
  so_default_dynlib.mk "SDL_AndroidGetActivityClass" "ret0",
  so_default_dynlib.mk "SDL_IsTextInputActive" "SDL_IsTextInputActive",
  so_default_dynlib.mk "SDL_GameControllerEventState" "SDL_GameControllerEventState",
  so_default_dynlib.mk "SDL_WarpMouseInWindow" "SDL_WarpMouseInWindow",
  so_default_dynlib.mk "SDL_AndroidGetExternalStoragePath" "SDL_AndroidGetExternalStoragePath",
  so_default_dynlib.mk "SDL_AndroidGetInternalStoragePath" "SDL_AndroidGetInternalStoragePath",
  so_default_dynlib.mk "SDL_Android_Init" "ret1",
  so_default_dynlib.mk "SDL_AddTimer" "SDL_AddTimer",
  so_default_dynlib.mk "SDL_CondSignal" "SDL_CondSignal",
  so_default_dynlib.mk "SDL_CondWait" "SDL_CondWait",
  so_default_dynlib.mk "SDL_ConvertSurfaceFormat" "SDL_ConvertSurfaceFormat",
  so_default_dynlib.mk "SDL_CreateCond" "SDL_CreateCond",
  so_default_dynlib.mk "SDL_CreateMutex" "SDL_CreateMutex",
  so_default_dynlib.mk "SDL_CreateRenderer" "SDL_CreateRenderer",
  so_default_dynlib.mk "SDL_CreateRGBSurface" "SDL_CreateRGBSurface",
  so_default_dynlib.mk "SDL_CreateTexture" "SDL_CreateTexture",
  so_default_dynlib.mk "SDL_CreateTextureFromSurface" "SDL_CreateTextureFromSurface",
  so_default_dynlib.mk "SDL_CreateThread" "SDL_CreateThread",
  so_default_dynlib.mk "SDL_CreateWindow" "SDL_CreateWindow_hook",
  so_default_dynlib.mk "SDL_Delay" "SDL_Delay",
  so_default_dynlib.mk "SDL_DestroyMutex" "SDL_DestroyMutex",
  so_default_dynlib.mk "SDL_DestroyRenderer" "SDL_DestroyRenderer",
  so_default_dynlib.mk "SDL_DestroyTexture" "SDL_DestroyTexture",
  so_default_dynlib.mk "SDL_DestroyWindow" "SDL_DestroyWindow",
  so_default_dynlib.mk "SDL_FillRect" "SDL_FillRect",
  so_default_dynlib.mk "SDL_FreeSurface" "SDL_FreeSurface",
  so_default_dynlib.mk "SDL_GetCurrentDisplayMode" "SDL_GetCurrentDisplayMode",
  so_default_dynlib.mk "SDL_GetDisplayMode" "SDL_GetDisplayMode",
  so_default_dynlib.mk "SDL_GetError" "SDL_GetError",
  so_default_dynlib.mk "SDL_GetModState" "SDL_GetModState",
  so_default_dynlib.mk "SDL_GetMouseState" "SDL_GetMouseState",
  so_default_dynlib.mk "SDL_GetRGBA" "SDL_GetRGBA",
  so_default_dynlib.mk "SDL_GameControllerAddMappingsFromRW" "SDL_GameControllerAddMappingsFromRW",
  so_default_dynlib.mk "SDL_GetNumDisplayModes" "SDL_GetNumDisplayModes",
  so_default_dynlib.mk "SDL_GetRendererInfo" "SDL_GetRendererInfo",
  so_default_dynlib.mk "SDL_GetTextureBlendMode" "SDL_GetTextureBlendMode",
  so_default_dynlib.mk "SDL_GetPrefPath" "SDL_GetPrefPath",
  so_default_dynlib.mk "SDL_GetTextureColorMod" "SDL_GetTextureColorMod",
  so_default_dynlib.mk "SDL_GetTicks" "SDL_GetTicks",
  so_default_dynlib.mk "SDL_GetVersion" "SDL_GetVersion_fake",
  so_default_dynlib.mk "SDL_GL_BindTexture" "SDL_GL_BindTexture",
  so_default_dynlib.mk "SDL_GL_GetCurrentContext" "SDL_GL_GetCurrentContext",
  so_default_dynlib.mk "SDL_GL_MakeCurrent" "SDL_GL_MakeCurrent",
  so_default_dynlib.mk "SDL_GL_SetAttribute" "SDL_GL_SetAttribute",
  so_default_dynlib.mk "SDL_Init" "SDL_Init",
  so_default_dynlib.mk "SDL_InitSubSystem" "SDL_InitSubSystem",
  so_default_dynlib.mk "SDL_IntersectRect" "SDL_IntersectRect",
  so_default_dynlib.mk "SDL_LockMutex" "SDL_LockMutex",
  so_default_dynlib.mk "SDL_LockSurface" "SDL_LockSurface",
  so_default_dynlib.mk "SDL_Log" "ret0",
  so_default_dynlib.mk "SDL_LogError" "ret0",
  so_default_dynlib.mk "SDL_LogSetPriority" "ret0",
  so_default_dynlib.mk "SDL_MapRGB" "SDL_MapRGB",
  so_default_dynlib.mk "SDL_JoystickInstanceID" "SDL_JoystickInstanceID",
  so_default_dynlib.mk "SDL_GameControllerGetAxis" "SDL_GameControllerGetAxis",
  so_default_dynlib.mk "SDL_MinimizeWindow" "SDL_MinimizeWindow",
  so_default_dynlib.mk "SDL_PeepEvents" "SDL_PeepEvents",
  so_default_dynlib.mk "SDL_PumpEvents" "SDL_PumpEvents",
  so_default_dynlib.mk "SDL_PushEvent" "SDL_PushEvent",
  so_default_dynlib.mk "SDL_PollEvent" "SDL_PollEvent",
  so_default_dynlib.mk "SDL_QueryTexture" "SDL_QueryTexture",
  so_default_dynlib.mk "SDL_Quit" "SDL_Quit",
  so_default_dynlib.mk "SDL_RemoveTimer" "SDL_RemoveTimer",
  so_default_dynlib.mk "SDL_RenderClear" "SDL_RenderClear",
  so_default_dynlib.mk "SDL_RenderCopy" "SDL_RenderCopy",
  so_default_dynlib.mk "SDL_RenderFillRect" "SDL_RenderFillRect",
  so_default_dynlib.mk "SDL_RenderPresent" "SDL_RenderPresent",
  so_default_dynlib.mk "SDL_RWFromFile" "SDL_RWFromFile_hook",
  so_default_dynlib.mk "SDL_RWread" "SDL_RWread",
  so_default_dynlib.mk "SDL_RWwrite" "SDL_RWwrite",
  so_default_dynlib.mk "SDL_RWclose" "SDL_RWclose",
  so_default_dynlib.mk "SDL_RWsize" "SDL_RWsize",
  so_default_dynlib.mk "SDL_RWFromMem" "SDL_RWFromMem",
  so_default_dynlib.mk "SDL_SetColorKey" "SDL_SetColorKey",
  so_default_dynlib.mk "SDL_SetEventFilter" "SDL_SetEventFilter",
  so_default_dynlib.mk "SDL_SetHint" "SDL_SetHint",
  so_default_dynlib.mk "SDL_SetMainReady_REAL" "SDL_SetMainReady",
  so_default_dynlib.mk "SDL_SetRenderDrawBlendMode" "SDL_SetRenderDrawBlendMode",
  so_default_dynlib.mk "SDL_SetRenderDrawColor" "SDL_SetRenderDrawColor",
  so_default_dynlib.mk "SDL_SetRenderTarget" "SDL_SetRenderTarget",
  so_default_dynlib.mk "SDL_SetTextureBlendMode" "SDL_SetTextureBlendMode",
  so_default_dynlib.mk "SDL_SetTextureColorMod" "SDL_SetTextureColorMod",
  so_default_dynlib.mk "SDL_ShowCursor" "SDL_ShowCursor",
  so_default_dynlib.mk "SDL_ShowSimpleMessageBox" "SDL_ShowSimpleMessageBox",
  so_default_dynlib.mk "SDL_StartTextInput" "SDL_StartTextInput",
  so_default_dynlib.mk "SDL_StopTextInput" "SDL_StopTextInput",
  so_default_dynlib.mk "SDL_strdup" "SDL_strdup",
  so_default_dynlib.mk "SDL_UnlockMutex" "SDL_UnlockMutex",
  so_default_dynlib.mk "SDL_UnlockSurface" "SDL_UnlockSurface",
  so_default_dynlib.mk "SDL_UpdateTexture" "SDL_UpdateTexture",
  so_default_dynlib.mk "SDL_UpperBlit" "SDL_UpperBlit",
  so_default_dynlib.mk "SDL_WaitThread" "SDL_WaitThread",
  so_default_dynlib.mk "SDL_GetKeyFromScancode" "SDL_GetKeyFromScancode",
  so_default_dynlib.mk "SDL_GetNumVideoDisplays" "SDL_GetNumVideoDisplays",
  so_default_dynlib.mk "SDL_GetDisplayBounds" "SDL_GetDisplayBounds",
  so_default_dynlib.mk "SDL_UnionRect" "SDL_UnionRect",
  so_default_dynlib.mk "SDL_GetKeyboardFocus" "SDL_GetKeyboardFocus",
  so_default_dynlib.mk "SDL_GetRelativeMouseMode" "SDL_GetRelativeMouseMode",
  so_default_dynlib.mk "SDL_NumJoysticks" "SDL_NumJoysticks",
  so_default_dynlib.mk "SDL_GL_GetDrawableSize" "SDL_GL_GetDrawableSize",
  so_default_dynlib.mk "SDL_GameControllerOpen" "SDL_GameControllerOpen",
  so_default_dynlib.mk "SDL_GameControllerGetJoystick" "SDL_GameControllerGetJoystick",
  so_default_dynlib.mk "SDL_HapticOpenFromJoystick" "SDL_HapticOpenFromJoystick",
  so_default_dynlib.mk "SDL_GetPerformanceFrequency" "SDL_GetPerformanceFrequency",
  so_default_dynlib.mk "SDL_GetPerformanceCounter" "SDL_GetPerformanceCounter",
  so_default_dynlib.mk "SDL_GetMouseFocus" "SDL_GetMouseFocus",
  so_default_dynlib.mk "SDL_ShowMessageBox" "SDL_ShowMessageBox",
  so_default_dynlib.mk "SDL_RaiseWindow" "SDL_RaiseWindow",
  so_default_dynlib.mk "SDL_GL_GetAttribute" "SDL_GL_GetAttribute",
  so_default_dynlib.mk "SDL_GL_CreateContext" "SDL_GL_CreateContext",
  so_default_dynlib.mk "SDL_GL_GetProcAddress" "SDL_GL_GetProcAddress_fake",
  so_default_dynlib.mk "SDL_GL_DeleteContext" "SDL_GL_DeleteContext",
  so_default_dynlib.mk "SDL_GetDesktopDisplayMode" "SDL_GetDesktopDisplayMode",
  so_default_dynlib.mk "SDL_SetWindowData" "SDL_SetWindowData",
  so_default_dynlib.mk "SDL_GetWindowFlags" "SDL_GetWindowFlags",
  so_default_dynlib.mk "SDL_GetWindowSize" "SDL_GetWindowSize",
  so_default_dynlib.mk "SDL_GetWindowDisplayIndex" "SDL_GetWindowDisplayIndex",
  so_default_dynlib.mk "SDL_SetWindowFullscreen" "SDL_SetWindowFullscreen",
  so_default_dynlib.mk "SDL_SetWindowSize" "SDL_SetWindowSize",
  so_default_dynlib.mk "SDL_SetWindowPosition" "SDL_SetWindowPosition",
  so_default_dynlib.mk "SDL_GL_GetCurrentWindow" "SDL_GL_GetCurrentWindow",
  so_default_dynlib.mk "SDL_GetWindowData" "SDL_GetWindowData",
  so_default_dynlib.mk "SDL_GetWindowTitle" "SDL_GetWindowTitle",
  so_default_dynlib.mk "SDL_ResetKeyboard" "SDL_ResetKeyboard",
  so_default_dynlib.mk "SDL_SetWindowTitle" "SDL_SetWindowTitle",
  so_default_dynlib.mk "SDL_GetWindowPosition" "SDL_GetWindowPosition",
  so_default_dynlib.mk "SDL_GL_SetSwapInterval" "ret0",
  so_default_dynlib.mk "SDL_IsGameController" "SDL_IsGameController",
  so_default_dynlib.mk "SDL_JoystickGetDeviceGUID" "SDL_JoystickGetDeviceGUID",
  so_default_dynlib.mk "SDL_GameControllerNameForIndex" "SDL_GameControllerNameForIndex",
  so_default_dynlib.mk "SDL_GetWindowFromID" "SDL_GetWindowFromID",
  so_default_dynlib.mk "SDL_GL_SwapWindow" "SDL_GL_SwapWindow",
  so_default_dynlib.mk "SDL_SetMainReady" "SDL_SetMainReady",
  so_default_dynlib.mk "SDL_NumAccelerometers" "ret0",
  so_default_dynlib.mk "SDL_AndroidGetJNIEnv" "Android_JNI_GetEnv",
  so_default_dynlib.mk "Android_JNI_GetEnv" "Android_JNI_GetEnv",
  so_default_dynlib.mk "SDL_RWFromConstMem" "SDL_RWFromConstMem",
  so_default_dynlib.mk "SDL_ConvertSurface" "SDL_ConvertSurface",
  so_default_dynlib.mk "SDL_SetError" "SDL_SetError",
  so_default_dynlib.mk "SDL_MapRGBA" "SDL_MapRGBA",
  so_default_dynlib.mk "SDL_EventState" "SDL_EventState",
  so_default_dynlib.mk "SDL_SetSurfaceBlendMode" "SDL_SetSurfaceBlendMode",
  so_default_dynlib.mk "SDL_UpperBlitScaled" "SDL_UpperBlitScaled",
  so_default_dynlib.mk "SDL_FreeRW" "SDL_FreeRW",
  so_default_dynlib.mk "SDL_GetKeyboardState" "SDL_GetKeyboardState",
  so_default_dynlib.mk "SDL_JoystickNumAxes" "ret4",
  so_default_dynlib.mk "SDL_JoystickUpdate" "SDL_JoystickUpdate",
  so_default_dynlib.mk "SDL_JoystickGetAxis" "SDL_JoystickGetAxis",
  so_default_dynlib.mk "SDL_JoystickGetButton" "SDL_JoystickGetButton",
  so_default_dynlib.mk "SDL_GetScancodeFromKey" "SDL_GetScancodeFromKey",
  so_default_dynlib.mk "SDL_GetKeyName" "SDL_GetKeyName",
  so_default_dynlib.mk "SDL_GetScancodeName" "SDL_GetScancodeName",
  so_default_dynlib.mk "SDL_JoystickGetHat" "SDL_JoystickGetHat",
  so_default_dynlib.mk "SDL_JoystickClose" "SDL_JoystickClose",
  so_default_dynlib.mk "SDL_JoystickOpen" "SDL_JoystickOpen",
  so_default_dynlib.mk "SDL_JoystickEventState" "SDL_JoystickEventState",
  so_default_dynlib.mk "SDL_LogSetAllPriority" "SDL_LogSetAllPriority",
  so_default_dynlib.mk "SDL_LogMessageV" "SDL_LogMessageV",
  so_default_dynlib.mk "SDL_RWtell" "SDL_RWtell",
  so_default_dynlib.mk "SDL_AndroidGetActivity" "ret0",
  so_default_dynlib.mk "SDL_free" "SDL_free",
  so_default_dynlib.mk "SDL_AtomicAdd" "SDL_AtomicAdd",
  so_default_dynlib.mk "SDL_AtomicSet" "SDL_AtomicSet",
  so_default_dynlib.mk "SDL_CreateSystemCursor" "SDL_CreateSystemCursor",
  so_default_dynlib.mk "SDL_OpenAudio" "SDL_OpenAudio",
  so_default_dynlib.mk "SDL_CloseAudio" "SDL_CloseAudio",
  so_default_dynlib.mk "SDL_PauseAudio" "SDL_PauseAudio",
  so_default_dynlib.mk "SDL_CreateCursor" "SDL_CreateCursor",
  so_default_dynlib.mk "SDL_SetCursor" "SDL_SetCursor",
  so_default_dynlib.mk "SDL_GameControllerClose" "SDL_GameControllerClose",
  so_default_dynlib.mk "SDL_FreeCursor" "SDL_FreeCursor",
  so_default_dynlib.mk "SDL_CreateColorCursor" "SDL_CreateColorCursor",
  so_default_dynlib.mk "IMG_Init" "IMG_Init",
  so_default_dynlib.mk "IMG_Quit" "IMG_Quit",
  so_default_dynlib.mk "Mix_PauseMusic" "Mix_PauseMusic",
  so_default_dynlib.mk "Mix_ResumeMusic" "Mix_ResumeMusic",
  so_default_dynlib.mk "Mix_VolumeMusic" "Mix_VolumeMusic",
  so_default_dynlib.mk "Mix_LoadMUS" "Mix_LoadMUS_hook",
  so_default_dynlib.mk "Mix_PlayMusic" "Mix_PlayMusic",
  so_default_dynlib.mk "Mix_FreeMusic" "ret0",
  so_default_dynlib.mk "Mix_RewindMusic" "Mix_RewindMusic",
  so_default_dynlib.mk "Mix_SetMusicPosition" "Mix_SetMusicPosition",
  so_default_dynlib.mk "Mix_CloseAudio" "Mix_CloseAudio",
  so_default_dynlib.mk "Mix_OpenAudio" "Mix_OpenAudio_hook",
  so_default_dynlib.mk "Mix_RegisterEffect" "Mix_RegisterEffect",
  so_default_dynlib.mk "Mix_Resume" "Mix_Resume",
  so_default_dynlib.mk "Mix_AllocateChannels" "Mix_AllocateChannels",
  so_default_dynlib.mk "Mix_ChannelFinished" "Mix_ChannelFinished",
  so_default_dynlib.mk "Mix_LoadWAV_RW" "Mix_LoadWAV_RW",
  so_default_dynlib.mk "Mix_FreeChunk" "Mix_FreeChunk",
  so_default_dynlib.mk "Mix_PausedMusic" "Mix_PausedMusic",
  so_default_dynlib.mk "Mix_Paused" "Mix_Paused",
  so_default_dynlib.mk "Mix_PlayingMusic" "Mix_PlayingMusic",
  so_default_dynlib.mk "Mix_Playing" "Mix_Playing",
  so_default_dynlib.mk "Mix_Volume" "Mix_Volume",
  so_default_dynlib.mk "Mix_SetDistance" "Mix_SetDistance",
  so_default_dynlib.mk "Mix_SetPanning" "Mix_SetPanning",
  so_default_dynlib.mk "Mix_QuerySpec" "Mix_QuerySpec",
  so_default_dynlib.mk "Mix_UnregisterEffect" "Mix_UnregisterEffect",
  so_default_dynlib.mk "Mix_HaltMusic" "Mix_HaltMusic",
  so_default_dynlib.mk "Mix_HaltChannel" "Mix_HaltChannel",
  so_default_dynlib.mk "Mix_LoadMUS_RW" "Mix_LoadMUS_RW",
  so_default_dynlib.mk "Mix_PlayChannelTimed" "Mix_PlayChannelTimed",
  so_default_dynlib.mk "Mix_Pause" "Mix_Pause",
  so_default_dynlib.mk "Mix_Init" "Mix_Init",
  so_default_dynlib.mk "IMG_Load" "IMG_Load_hook",
  so_default_dynlib.mk "IMG_Load_RW" "IMG_Load_RW",
  so_default_dynlib.mk "raise" "raise",
  so_default_dynlib.mk "posix_memalign" "posix_memalign",
  so_default_dynlib.mk "swprintf" "swprintf",
  so_default_dynlib.mk "wcscpy" "wcscpy",
  so_default_dynlib.mk "wcscat" "wcscat",
  so_default_dynlib.mk "wcstombs" "wcstombs",
  so_default_dynlib.mk "wcsstr" "wcsstr",
  so_default_dynlib.mk "compress" "compress",
  so_default_dynlib.mk "uncompress" "uncompress",
  so_default_dynlib.mk "atof" "atof",
  so_default_dynlib.mk "SDLNet_FreePacket" "SDLNet_FreePacket",
  so_default_dynlib.mk "SDLNet_Quit" "SDLNet_Quit",
  so_default_dynlib.mk "SDLNet_GetError" "SDLNet_GetError",
  so_default_dynlib.mk "SDLNet_Init" "SDLNet_Init",
  so_default_dynlib.mk "SDLNet_AllocPacket" "SDLNet_AllocPacket",
  so_default_dynlib.mk "SDLNet_UDP_Recv" "SDLNet_UDP_Recv",
  so_default_dynlib.mk "SDLNet_UDP_Send" "SDLNet_UDP_Send",
  so_default_dynlib.mk "SDLNet_GetLocalAddresses" "SDLNet_GetLocalAddresses",
  so_default_dynlib.mk "SDLNet_UDP_Close" "SDLNet_UDP_Close",
  so_default_dynlib.mk "SDLNet_ResolveHost" "SDLNet_ResolveHost",
  so_default_dynlib.mk "SDLNet_UDP_Open" "SDLNet_UDP_Open",
  so_default_dynlib.mk "remove" "remove",
  so_default_dynlib.mk "IMG_SavePNG" "IMG_SavePNG",
  so_default_dynlib.mk "SDL_DetachThread" "SDL_DetachThread",
  so_default_dynlib.mk "SDL_strlen" "SDL_strlen",
  so_default_dynlib.mk "SDL_LogDebug" "ret0",
  so_default_dynlib.mk "SDL_HasEvents" "SDL_HasEvents",
  so_default_dynlib.mk "SDL_RWseek" "SDL_RWseek",
  so_default_dynlib.mk "SDL_JoystickNameForIndex" "SDL_JoystickNameForIndex",
  so_default_dynlib.mk "SDL_JoystickNumButtons" "SDL_JoystickNumButtons",
  so_default_dynlib.mk "SDL_JoystickGetGUID" "SDL_JoystickGetGUID",
  so_default_dynlib.mk "SDL_JoystickGetGUIDString" "SDL_JoystickGetGUIDString",
  so_default_dynlib.mk "SDL_JoystickNumHats" "SDL_JoystickNumHats",
  so_default_dynlib.mk "SDL_JoystickNumBalls" "SDL_JoystickNumBalls",
  so_default_dynlib.mk "SDL_JoystickName" "SDL_JoystickName_fake",
  so_default_dynlib.mk "SDL_GetNumRenderDrivers" "SDL_GetNumRenderDrivers",
  so_default_dynlib.mk "SDL_GetRenderDriverInfo" "SDL_GetRenderDriverInfo",
  so_default_dynlib.mk "SDL_GetNumVideoDrivers" "SDL_GetNumVideoDrivers",
  so_default_dynlib.mk "SDL_GetVideoDriver" "SDL_GetVideoDriver",
  so_default_dynlib.mk "SDL_GetBasePath" "SDL_GetBasePath_hook",
  so_default_dynlib.mk "SDL_RenderReadPixels" "SDL_RenderReadPixels",
  so_default_dynlib.mk "SDL_CreateRGBSurfaceFrom" "SDL_CreateRGBSurfaceFrom",
  so_default_dynlib.mk "SDL_SetWindowBordered" "SDL_SetWindowBordered",
  so_default_dynlib.mk "SDL_RestoreWindow" "SDL_RestoreWindow",
  so_default_dynlib.mk "SDL_sqrt" "SDL_sqrt",
  so_default_dynlib.mk "SDL_ThreadID" "SDL_ThreadID",
  so_default_dynlib.mk "__system_property_get" "ret0",
  so_default_dynlib.mk "strnlen" "strnlen"]

/-- One statement `hook_addr(so_symbol(&thimbleweed_mod, symbol), (uintptr_t)&dst)`
of patch_game: the symbol looked up and the replacement installed. -/
structure HookSite where
  symbol : String
  dst : String
deriving DecidableEq, Repr

/-- The first hook of patch_game (line 1673), whose result is kept in
`dataFromFilename_hook`. -/
def dataFromFilename_site : HookSite :=
  ⟨"_ZN17GGPackfileManager16dataFromFilenameEP8GGStringb", "dataFromFilename"⟩

/-- The remaining `hook_addr` statements of patch_game, lines 1677-3074, in
source order; commented-out statements are not part of the function. -/
def patch_game_table : List HookSite := [
  HookSite.mk "_Z11GGErrorFuncPKcz" "ret0",
  HookSite.mk "_ZN6GGCurl13httpPostASyncEP8GGStringP12GGDictionary" "ret0",
  HookSite.mk "_ZN9Analytics6uploadEv" "ret0",
  HookSite.mk "_Z11InitObbPathv" "InitObbPath",
  HookSite.mk "IMG_Linked_Version" "IMG_Linked_Version",
  HookSite.mk "IMG_Init" "IMG_Init",
  HookSite.mk "IMG_Quit" "IMG_Quit",
  HookSite.mk "IMG_LoadTyped_RW" "IMG_LoadTyped_RW",
  HookSite.mk "IMG_Load" "IMG_Load_hook",
  HookSite.mk "IMG_Load_RW" "IMG_Load_RW",
  HookSite.mk "IMG_LoadTexture" "IMG_LoadTexture",
  HookSite.mk "IMG_LoadTexture_RW" "IMG_LoadTexture_RW",
  HookSite.mk "IMG_LoadTextureTyped_RW" "IMG_LoadTextureTyped_RW",
  HookSite.mk "IMG_isXPM" "IMG_isXPM",
  HookSite.mk "IMG_LoadXPM_RW" "IMG_LoadXPM_RW",
  HookSite.mk "IMG_ReadXPMFromArray" "IMG_ReadXPMFromArray",
  HookSite.mk "IMG_isPNG" "IMG_isPNG",
  HookSite.mk "IMG_LoadPNG_RW" "IMG_LoadPNG_RW",
  HookSite.mk "IMG_SavePNG_RW" "IMG_SavePNG_RW",
  HookSite.mk "IMG_SavePNG" "IMG_SavePNG",
  HookSite.mk "IMG_isJPG" "IMG_isJPG",
  HookSite.mk "IMG_LoadJPG_RW" "IMG_LoadJPG_RW",
  HookSite.mk "IMG_isBMP" "IMG_isBMP",
  HookSite.mk "IMG_isICO" "IMG_isICO",
  HookSite.mk "IMG_isCUR" "IMG_isCUR",
  HookSite.mk "IMG_LoadBMP_RW" "IMG_LoadBMP_RW",
  HookSite.mk "IMG_LoadICO_RW" "IMG_LoadICO_RW",
  HookSite.mk "IMG_LoadCUR_RW" "IMG_LoadCUR_RW",
  HookSite.mk "IMG_isPCX" "IMG_isPCX",
  HookSite.mk "IMG_LoadPCX_RW" "IMG_LoadPCX_RW",
  HookSite.mk "IMG_LoadWEBP_RW" "IMG_LoadWEBP_RW",
  HookSite.mk "IMG_isXCF" "IMG_isXCF",
  HookSite.mk "IMG_LoadXCF_RW" "IMG_LoadXCF_RW",
  HookSite.mk "IMG_isGIF" "IMG_isGIF",
  HookSite.mk "IMG_LoadGIF_RW" "IMG_LoadGIF_RW",
  HookSite.mk "IMG_LoadTGA_RW" "IMG_LoadTGA_RW",
  HookSite.mk "IMG_isTIF" "IMG_isTIF",
  HookSite.mk "IMG_LoadTIF_RW" "IMG_LoadTIF_RW",
  HookSite.mk "IMG_isPNM" "IMG_isPNM",
  HookSite.mk "IMG_LoadPNM_RW" "IMG_LoadPNM_RW",
  HookSite.mk "IMG_isLBM" "IMG_isLBM",
  HookSite.mk "IMG_LoadLBM_RW" "IMG_LoadLBM_RW",
  HookSite.mk "IMG_isXV" "IMG_isXV",
  HookSite.mk "IMG_LoadXV_RW" "IMG_LoadXV_RW",
  HookSite.mk "SDL_AddEventWatch" "SDL_AddEventWatch",
  HookSite.mk "SDL_AddTimer" "SDL_AddTimer",
  HookSite.mk "SDL_AllocFormat" "SDL_AllocFormat",
  HookSite.mk "SDL_AllocPalette" "SDL_AllocPalette",
  HookSite.mk "SDL_AllocRW" "SDL_AllocRW",
  HookSite.mk "SDL_AndroidGetActivity" "ret0",
  HookSite.mk "SDL_AndroidGetActivity_REAL" "ret0",
  HookSite.mk "SDL_AndroidGetExternalCachePath" "SDL_AndroidGetExternalStoragePath",
  HookSite.mk "SDL_AndroidGetExternalStoragePath" "SDL_AndroidGetExternalStoragePath",
  HookSite.mk "SDL_AndroidGetExternalStorageState" "ret0",
  HookSite.mk "SDL_AndroidGetInternalStoragePath" "SDL_AndroidGetInternalStoragePath",
  HookSite.mk "SDL_AndroidGetInternalStoragePath_REAL" "SDL_AndroidGetInternalStoragePath",
  HookSite.mk "SDL_AndroidGetJNIEnv" "Android_JNI_GetEnv",
  HookSite.mk "Android_JNI_GetEnv" "Android_JNI_GetEnv",
  HookSite.mk "SDL_Android_Init" "ret0",
  HookSite.mk "SDL_AtomicCAS" "SDL_AtomicCAS",
  HookSite.mk "SDL_AtomicCASPtr" "SDL_AtomicCASPtr",
  HookSite.mk "SDL_AtomicLock" "SDL_AtomicLock",
  HookSite.mk "SDL_AtomicTryLock" "SDL_AtomicTryLock",
  HookSite.mk "SDL_AtomicUnlock" "SDL_AtomicUnlock",
  HookSite.mk "SDL_AudioInit" "SDL_AudioInit",
  HookSite.mk "SDL_AudioQuit" "SDL_AudioQuit",
  HookSite.mk "SDL_BuildAudioCVT" "SDL_BuildAudioCVT",
  HookSite.mk "SDL_ClearError" "SDL_ClearError",
  HookSite.mk "SDL_ClearHints" "SDL_ClearHints",
  HookSite.mk "SDL_CloseAudio" "SDL_CloseAudio",
  HookSite.mk "SDL_CloseAudioDevice" "SDL_CloseAudioDevice",
  HookSite.mk "SDL_CondBroadcast" "SDL_CondBroadcast",
  HookSite.mk "SDL_CondSignal" "SDL_CondSignal",
  HookSite.mk "SDL_CondWait" "SDL_CondWait",
  HookSite.mk "SDL_CondWaitTimeout" "SDL_CondWaitTimeout",
  HookSite.mk "SDL_ConvertAudio" "SDL_ConvertAudio",
  HookSite.mk "SDL_ConvertPixels" "SDL_ConvertPixels",
  HookSite.mk "SDL_ConvertSurface" "SDL_ConvertSurface",
  HookSite.mk "SDL_ConvertSurfaceFormat" "SDL_ConvertSurfaceFormat",
  HookSite.mk "SDL_CreateColorCursor" "SDL_CreateColorCursor",
  HookSite.mk "SDL_CreateCond" "SDL_CreateCond",
  HookSite.mk "SDL_CreateCursor" "SDL_CreateCursor",
  HookSite.mk "SDL_CreateMutex" "SDL_CreateMutex",
  HookSite.mk "SDL_CreateRGBSurface" "SDL_CreateRGBSurface",
  HookSite.mk "SDL_CreateRGBSurfaceFrom" "SDL_CreateRGBSurfaceFrom",
  HookSite.mk "SDL_CreateRenderer" "SDL_CreateRenderer",
  HookSite.mk "SDL_CreateSemaphore" "SDL_CreateSemaphore",
  HookSite.mk "SDL_CreateShapedWindow" "SDL_CreateShapedWindow",
  HookSite.mk "SDL_CreateSoftwareRenderer" "SDL_CreateSoftwareRenderer",
  HookSite.mk "SDL_CreateSystemCursor" "SDL_CreateSystemCursor",
  HookSite.mk "SDL_CreateTexture" "SDL_CreateTexture",
  HookSite.mk "SDL_CreateTextureFromSurface" "SDL_CreateTextureFromSurface",
  HookSite.mk "SDL_CreateThread" "SDL_CreateThread",
  HookSite.mk "SDL_CreateWindow" "SDL_CreateWindow",
  HookSite.mk "SDL_CreateWindowAndRenderer" "SDL_CreateWindowAndRenderer",
  HookSite.mk "SDL_CreateWindowFrom" "SDL_CreateWindowFrom",
  HookSite.mk "SDL_DelEventWatch" "SDL_DelEventWatch",
  HookSite.mk "SDL_Delay" "SDL_Delay",
  HookSite.mk "SDL_DestroyCond" "SDL_DestroyCond",
  HookSite.mk "SDL_DestroyMutex" "SDL_DestroyMutex",
  HookSite.mk "SDL_DestroyRenderer" "SDL_DestroyRenderer",
  HookSite.mk "SDL_DestroySemaphore" "SDL_DestroySemaphore",
  HookSite.mk "SDL_DestroyTexture" "SDL_DestroyTexture",
  HookSite.mk "SDL_DestroyWindow" "SDL_DestroyWindow",
  HookSite.mk "SDL_DisableScreenSaver" "SDL_DisableScreenSaver",
  HookSite.mk "SDL_EnableScreenSaver" "SDL_EnableScreenSaver",
  HookSite.mk "SDL_EnclosePoints" "SDL_EnclosePoints",
  HookSite.mk "SDL_Error" "SDL_Error",
  HookSite.mk "SDL_EventState" "SDL_EventState",
  HookSite.mk "SDL_FillRect" "SDL_FillRect",
  HookSite.mk "SDL_FillRects" "SDL_FillRects",
  HookSite.mk "SDL_FilterEvents" "SDL_FilterEvents",
  HookSite.mk "SDL_FlushEvent" "SDL_FlushEvent",
  HookSite.mk "SDL_FlushEvents" "SDL_FlushEvents",
  HookSite.mk "SDL_FreeCursor" "SDL_FreeCursor",
  HookSite.mk "SDL_FreeFormat" "SDL_FreeFormat",
  HookSite.mk "SDL_FreePalette" "SDL_FreePalette",
  HookSite.mk "SDL_FreeRW" "SDL_FreeRW",
  HookSite.mk "SDL_FreeSurface" "SDL_FreeSurface",
  HookSite.mk "SDL_FreeWAV" "SDL_FreeWAV",
  HookSite.mk "SDL_GL_BindTexture" "SDL_GL_BindTexture",
  HookSite.mk "SDL_GL_CreateContext" "SDL_GL_CreateContext",
  HookSite.mk "SDL_GL_DeleteContext" "SDL_GL_DeleteContext",
  HookSite.mk "SDL_GL_ExtensionSupported" "SDL_GL_ExtensionSupported",
  HookSite.mk "SDL_GL_GetAttribute" "SDL_GL_GetAttribute",
  HookSite.mk "SDL_GL_GetProcAddress" "SDL_GL_GetProcAddress",
  HookSite.mk "SDL_GL_GetSwapInterval" "SDL_GL_GetSwapInterval",
  HookSite.mk "SDL_GL_LoadLibrary" "SDL_GL_LoadLibrary",
  HookSite.mk "SDL_GL_MakeCurrent" "SDL_GL_MakeCurrent",
  HookSite.mk "SDL_GL_SetAttribute" "SDL_GL_SetAttribute",
  HookSite.mk "SDL_GL_SetSwapInterval" "SDL_GL_SetSwapInterval",
  HookSite.mk "SDL_GL_SwapWindow" "SDL_GL_SwapWindow",
  HookSite.mk "SDL_GL_UnbindTexture" "SDL_GL_UnbindTexture",
  HookSite.mk "SDL_GL_UnloadLibrary" "SDL_GL_UnloadLibrary",
  HookSite.mk "SDL_GameControllerAddMapping" "SDL_GameControllerAddMapping",
  HookSite.mk "SDL_GameControllerClose" "SDL_GameControllerClose",
  HookSite.mk "SDL_GameControllerEventState" "SDL_GameControllerEventState",
  HookSite.mk "SDL_GameControllerGetAttached" "SDL_GameControllerGetAttached",
  HookSite.mk "SDL_GameControllerGetAxis" "SDL_GameControllerGetAxis",
  HookSite.mk "SDL_GameControllerGetAxisFromString" "SDL_GameControllerGetAxisFromString",
  HookSite.mk "SDL_GameControllerGetBindForAxis" "SDL_GameControllerGetBindForAxis",
  HookSite.mk "SDL_GameControllerGetBindForButton" "SDL_GameControllerGetBindForButton",
  HookSite.mk "SDL_GameControllerGetButton" "SDL_GameControllerGetButton",
  HookSite.mk "SDL_GameControllerGetButtonFromString" "SDL_GameControllerGetButtonFromString",
  HookSite.mk "SDL_GameControllerGetJoystick" "SDL_GameControllerGetJoystick",
  HookSite.mk "SDL_GameControllerGetStringForAxis" "SDL_GameControllerGetStringForAxis",
  HookSite.mk "SDL_GameControllerGetStringForButton" "SDL_GameControllerGetStringForButton",
  HookSite.mk "SDL_GameControllerMapping" "SDL_GameControllerMapping",
  HookSite.mk "SDL_GameControllerMappingForGUID" "SDL_GameControllerMappingForGUID",
  HookSite.mk "SDL_GameControllerName" "SDL_GameControllerName",
  HookSite.mk "SDL_GameControllerNameForIndex" "SDL_GameControllerNameForIndex",
  HookSite.mk "SDL_GameControllerOpen" "SDL_GameControllerOpen",
  HookSite.mk "SDL_GameControllerUpdate" "SDL_GameControllerUpdate",
  HookSite.mk "SDL_GetAssertionReport" "SDL_GetAssertionReport",
  HookSite.mk "SDL_GetAudioDeviceName" "SDL_GetAudioDeviceName",
  HookSite.mk "SDL_GetAudioDeviceStatus" "SDL_GetAudioDeviceStatus",
  HookSite.mk "SDL_GetAudioDriver" "SDL_GetAudioDriver",
  HookSite.mk "SDL_GetAudioStatus" "SDL_GetAudioStatus",
  HookSite.mk "SDL_GetCPUCacheLineSize" "SDL_GetCPUCacheLineSize",
  HookSite.mk "SDL_GetCPUCount" "SDL_GetCPUCount",
  HookSite.mk "SDL_GetClipRect" "SDL_GetClipRect",
  HookSite.mk "SDL_GetClipboardText" "SDL_GetClipboardText",
  HookSite.mk "SDL_GetClosestDisplayMode" "SDL_GetClosestDisplayMode",
  HookSite.mk "SDL_GetColorKey" "SDL_GetColorKey",
  HookSite.mk "SDL_GetCurrentAudioDriver" "SDL_GetCurrentAudioDriver",
  HookSite.mk "SDL_GetCurrentDisplayMode" "SDL_GetCurrentDisplayMode",
  HookSite.mk "SDL_GetCurrentVideoDriver" "SDL_GetCurrentVideoDriver",
  HookSite.mk "SDL_GetCursor" "SDL_GetCursor",
  HookSite.mk "SDL_GetDesktopDisplayMode" "SDL_GetDesktopDisplayMode",
  HookSite.mk "SDL_GetDisplayBounds" "SDL_GetDisplayBounds",
  HookSite.mk "SDL_GetDisplayMode" "SDL_GetDisplayMode",
  HookSite.mk "SDL_GetDisplayName" "SDL_GetDisplayName",
  HookSite.mk "SDL_GetError" "SDL_GetError",
  HookSite.mk "SDL_GetEventFilter" "SDL_GetEventFilter",
  HookSite.mk "SDL_GetHint" "SDL_GetHint",
  HookSite.mk "SDL_GetKeyFromName" "SDL_GetKeyFromName",
  HookSite.mk "SDL_GetKeyFromScancode" "SDL_GetKeyFromScancode",
  HookSite.mk "SDL_GetKeyName" "SDL_GetKeyName",
  HookSite.mk "SDL_GetKeyboardFocus" "SDL_GetKeyboardFocus",
  HookSite.mk "SDL_GetKeyboardState" "SDL_GetKeyboardState",
  HookSite.mk "SDL_GetModState" "SDL_GetModState",
  HookSite.mk "SDL_GetMouseFocus" "SDL_GetMouseFocus",
  HookSite.mk "SDL_GetMouseState" "SDL_GetMouseState",
  HookSite.mk "SDL_GetNumAudioDevices" "SDL_GetNumAudioDevices",
  HookSite.mk "SDL_GetNumAudioDrivers" "SDL_GetNumAudioDrivers",
  HookSite.mk "SDL_GetNumDisplayModes" "SDL_GetNumDisplayModes",
  HookSite.mk "SDL_GetNumRenderDrivers" "SDL_GetNumRenderDrivers",
  HookSite.mk "SDL_GetNumTouchDevices" "SDL_GetNumTouchDevices",
  HookSite.mk "SDL_GetNumTouchFingers" "SDL_GetNumTouchFingers",
  HookSite.mk "SDL_GetNumVideoDisplays" "SDL_GetNumVideoDisplays",
  HookSite.mk "SDL_GetNumVideoDrivers" "SDL_GetNumVideoDrivers",
  HookSite.mk "SDL_GetPerformanceCounter" "SDL_GetPerformanceCounter",
  HookSite.mk "SDL_GetPerformanceFrequency" "SDL_GetPerformanceFrequency",
  HookSite.mk "SDL_GetPixelFormatName" "SDL_GetPixelFormatName",
  HookSite.mk "SDL_GetPlatform" "SDL_GetPlatform",
  HookSite.mk "SDL_GetPowerInfo" "SDL_GetPowerInfo",
  HookSite.mk "SDL_GetPrefPath" "SDL_GetPrefPath_hook",
  HookSite.mk "SDL_GetPrefPath_REAL" "SDL_GetPrefPath_hook",
  HookSite.mk "SDL_GetRGB" "SDL_GetRGB",
  HookSite.mk "SDL_GetRGBA" "SDL_GetRGBA",
  HookSite.mk "SDL_GetRelativeMouseMode" "SDL_GetRelativeMouseMode",
  HookSite.mk "SDL_GetRelativeMouseState" "SDL_GetRelativeMouseState",
  HookSite.mk "SDL_GetRenderDrawBlendMode" "SDL_GetRenderDrawBlendMode",
  HookSite.mk "SDL_GetRenderDrawColor" "SDL_GetRenderDrawColor",
  HookSite.mk "SDL_GetRenderDriverInfo" "SDL_GetRenderDriverInfo",
  HookSite.mk "SDL_GetRenderTarget" "SDL_GetRenderTarget",
  HookSite.mk "SDL_GetRenderer" "SDL_GetRenderer",
  HookSite.mk "SDL_GetRendererInfo" "SDL_GetRendererInfo",
  HookSite.mk "SDL_GetRevision" "SDL_GetRevision",
  HookSite.mk "SDL_GetRevisionNumber" "SDL_GetRevisionNumber",
  HookSite.mk "SDL_GetScancodeFromKey" "SDL_GetScancodeFromKey",
  HookSite.mk "SDL_GetScancodeFromName" "SDL_GetScancodeFromName",
  HookSite.mk "SDL_GetScancodeName" "SDL_GetScancodeName",
  HookSite.mk "SDL_GetShapedWindowMode" "SDL_GetShapedWindowMode",
  HookSite.mk "SDL_GetSurfaceAlphaMod" "SDL_GetSurfaceAlphaMod",
  HookSite.mk "SDL_GetSurfaceBlendMode" "SDL_GetSurfaceBlendMode",
  HookSite.mk "SDL_GetSurfaceColorMod" "SDL_GetSurfaceColorMod",
  HookSite.mk "SDL_GetTextureAlphaMod" "SDL_GetTextureAlphaMod",
  HookSite.mk "SDL_GetTextureBlendMode" "SDL_GetTextureBlendMode",
  HookSite.mk "SDL_GetTextureColorMod" "SDL_GetTextureColorMod",
  HookSite.mk "SDL_GetThreadID" "SDL_GetThreadID",
  HookSite.mk "SDL_GetThreadName" "SDL_GetThreadName",
  HookSite.mk "SDL_GetTicks" "SDL_GetTicks",
  HookSite.mk "SDL_GetTouchDevice" "SDL_GetTouchDevice",
  HookSite.mk "SDL_GetTouchFinger" "SDL_GetTouchFinger",
  HookSite.mk "SDL_GetVersion" "SDL_GetVersion",
  HookSite.mk "SDL_GetVideoDriver" "SDL_GetVideoDriver",
  HookSite.mk "SDL_GetWindowBrightness" "SDL_GetWindowBrightness",
  HookSite.mk "SDL_GetWindowData" "SDL_GetWindowData",
  HookSite.mk "SDL_GetWindowDisplayIndex" "SDL_GetWindowDisplayIndex",
  HookSite.mk "SDL_GetWindowDisplayMode" "SDL_GetWindowDisplayMode",
  HookSite.mk "SDL_GetWindowFlags" "SDL_GetWindowFlags",
  HookSite.mk "SDL_GetWindowFromID" "SDL_GetWindowFromID",
  HookSite.mk "SDL_GetWindowGammaRamp" "SDL_GetWindowGammaRamp",
  HookSite.mk "SDL_GetWindowGrab" "SDL_GetWindowGrab",
  HookSite.mk "SDL_GetWindowID" "SDL_GetWindowID",
  HookSite.mk "SDL_GetWindowMaximumSize" "SDL_GetWindowMaximumSize",
  HookSite.mk "SDL_GetWindowMinimumSize" "SDL_GetWindowMinimumSize",
  HookSite.mk "SDL_GetWindowPixelFormat" "SDL_GetWindowPixelFormat",
  HookSite.mk "SDL_GetWindowPosition" "SDL_GetWindowPosition",
  HookSite.mk "SDL_GetWindowSize" "SDL_GetWindowSize",
  HookSite.mk "SDL_GetWindowSurface" "SDL_GetWindowSurface",
  HookSite.mk "SDL_GetWindowTitle" "SDL_GetWindowTitle",
  HookSite.mk "SDL_HapticClose" "SDL_HapticClose",
  HookSite.mk "SDL_HapticDestroyEffect" "SDL_HapticDestroyEffect",
  HookSite.mk "SDL_HapticEffectSupported" "SDL_HapticEffectSupported",
  HookSite.mk "SDL_HapticGetEffectStatus" "SDL_HapticGetEffectStatus",
  HookSite.mk "SDL_HapticIndex" "SDL_HapticIndex",
  HookSite.mk "SDL_HapticName" "SDL_HapticName",
  HookSite.mk "SDL_HapticNewEffect" "SDL_HapticNewEffect",
  HookSite.mk "SDL_HapticNumAxes" "SDL_HapticNumAxes",
  HookSite.mk "SDL_HapticNumEffects" "SDL_HapticNumEffects",
  HookSite.mk "SDL_HapticNumEffectsPlaying" "SDL_HapticNumEffectsPlaying",
  HookSite.mk "SDL_HapticOpen" "SDL_HapticOpen",
  HookSite.mk "SDL_HapticOpenFromJoystick" "SDL_HapticOpenFromJoystick",
  HookSite.mk "SDL_HapticOpenFromMouse" "SDL_HapticOpenFromMouse",
  HookSite.mk "SDL_HapticOpened" "SDL_HapticOpened",
  HookSite.mk "SDL_HapticPause" "SDL_HapticPause",
  HookSite.mk "SDL_HapticQuery" "SDL_HapticQuery",
  HookSite.mk "SDL_HapticRumbleInit" "SDL_HapticRumbleInit",
  HookSite.mk "SDL_HapticRumblePlay" "SDL_HapticRumblePlay",
  HookSite.mk "SDL_HapticRumbleStop" "SDL_HapticRumbleStop",
  HookSite.mk "SDL_HapticRumbleSupported" "SDL_HapticRumbleSupported",
  HookSite.mk "SDL_HapticRunEffect" "SDL_HapticRunEffect",
  HookSite.mk "SDL_HapticSetAutocenter" "SDL_HapticSetAutocenter",
  HookSite.mk "SDL_HapticSetGain" "SDL_HapticSetGain",
  HookSite.mk "SDL_HapticStopAll" "SDL_HapticStopAll",
  HookSite.mk "SDL_HapticStopEffect" "SDL_HapticStopEffect",
  HookSite.mk "SDL_HapticUnpause" "SDL_HapticUnpause",
  HookSite.mk "SDL_HapticUpdateEffect" "SDL_HapticUpdateEffect",
  HookSite.mk "SDL_Has3DNow" "SDL_Has3DNow",
  HookSite.mk "SDL_HasAltiVec" "SDL_HasAltiVec",
  HookSite.mk "SDL_HasClipboardText" "SDL_HasClipboardText",
  HookSite.mk "SDL_HasEvent" "SDL_HasEvent",
  HookSite.mk "SDL_HasEvents" "SDL_HasEvents",
  HookSite.mk "SDL_HasIntersection" "SDL_HasIntersection",
  HookSite.mk "SDL_HasMMX" "SDL_HasMMX",
  HookSite.mk "SDL_HasRDTSC" "SDL_HasRDTSC",
  HookSite.mk "SDL_HasSSE" "SDL_HasSSE",
  HookSite.mk "SDL_HasSSE2" "SDL_HasSSE2",
  HookSite.mk "SDL_HasSSE3" "SDL_HasSSE3",
  HookSite.mk "SDL_HasSSE41" "SDL_HasSSE41",
  HookSite.mk "SDL_HasSSE42" "SDL_HasSSE42",
  HookSite.mk "SDL_HasScreenKeyboardSupport" "SDL_HasScreenKeyboardSupport",
  HookSite.mk "SDL_HideWindow" "SDL_HideWindow",
  HookSite.mk "SDL_Init" "SDL_Init",
  HookSite.mk "SDL_InitSubSystem" "SDL_InitSubSystem",
  HookSite.mk "SDL_IntersectRect" "SDL_IntersectRect",
  HookSite.mk "SDL_IntersectRectAndLine" "SDL_IntersectRectAndLine",
  HookSite.mk "SDL_IsGameController" "SDL_IsGameController",
  HookSite.mk "SDL_IsScreenKeyboardShown" "SDL_IsScreenKeyboardShown",
  HookSite.mk "SDL_IsScreenSaverEnabled" "SDL_IsScreenSaverEnabled",
  HookSite.mk "SDL_IsShapedWindow" "SDL_IsShapedWindow",
  HookSite.mk "SDL_IsTextInputActive" "SDL_IsTextInputActive",
  HookSite.mk "SDL_JoystickClose" "SDL_JoystickClose",
  HookSite.mk "SDL_JoystickEventState" "SDL_JoystickEventState",
  HookSite.mk "SDL_JoystickGetAttached" "SDL_JoystickGetAttached",
  HookSite.mk "SDL_JoystickGetAxis" "SDL_JoystickGetAxis",
  HookSite.mk "SDL_JoystickGetBall" "SDL_JoystickGetBall",
  HookSite.mk "SDL_JoystickGetButton" "SDL_JoystickGetButton",
  HookSite.mk "SDL_JoystickGetDeviceGUID" "SDL_JoystickGetDeviceGUID",
  HookSite.mk "SDL_JoystickGetGUID" "SDL_JoystickGetGUID",
  HookSite.mk "SDL_JoystickGetGUIDFromString" "SDL_JoystickGetGUIDFromString",
  HookSite.mk "SDL_JoystickGetGUIDString" "SDL_JoystickGetGUIDString",
  HookSite.mk "SDL_JoystickGetHat" "SDL_JoystickGetHat",
  HookSite.mk "SDL_JoystickInstanceID" "SDL_JoystickInstanceID",
  HookSite.mk "SDL_JoystickIsHaptic" "SDL_JoystickIsHaptic",
  HookSite.mk "SDL_JoystickName" "SDL_JoystickName",
  HookSite.mk "SDL_JoystickNameForIndex" "SDL_JoystickNameForIndex",
  HookSite.mk "SDL_JoystickNumAxes" "SDL_JoystickNumAxes",
  HookSite.mk "SDL_JoystickNumBalls" "SDL_JoystickNumBalls",
  HookSite.mk "SDL_JoystickNumButtons" "SDL_JoystickNumButtons",
  HookSite.mk "SDL_JoystickNumHats" "SDL_JoystickNumHats",
  HookSite.mk "SDL_JoystickOpen" "SDL_JoystickOpen",
  HookSite.mk "SDL_JoystickUpdate" "SDL_JoystickUpdate",
  HookSite.mk "SDL_LoadBMP_RW" "SDL_LoadBMP_RW",
  HookSite.mk "SDL_LoadDollarTemplates" "SDL_LoadDollarTemplates",
  HookSite.mk "SDL_LoadFunction" "SDL_LoadFunction",
  HookSite.mk "SDL_LoadObject" "SDL_LoadObject",
  HookSite.mk "SDL_LoadWAV_RW" "SDL_LoadWAV_RW",
  HookSite.mk "SDL_LockAudio" "SDL_LockAudio",
  HookSite.mk "SDL_LockAudioDevice" "SDL_LockAudioDevice",
  HookSite.mk "SDL_LockMutex" "SDL_LockMutex",
  HookSite.mk "SDL_LockSurface" "SDL_LockSurface",
  HookSite.mk "SDL_LockTexture" "SDL_LockTexture",
  HookSite.mk "SDL_Log" "ret0",
  HookSite.mk "SDL_LogCritical" "ret0",
  HookSite.mk "SDL_LogDebug" "ret0",
  HookSite.mk "SDL_LogError" "ret0",
  HookSite.mk "SDL_LogGetOutputFunction" "ret0",
  HookSite.mk "SDL_LogGetPriority" "ret0",
  HookSite.mk "SDL_LogInfo" "ret0",
  HookSite.mk "SDL_LogMessage" "ret0",
  HookSite.mk "SDL_LogMessageV" "ret0",
  HookSite.mk "SDL_LogResetPriorities" "ret0",
  HookSite.mk "SDL_LogSetAllPriority" "ret0",
  HookSite.mk "SDL_LogSetOutputFunction" "ret0",
  HookSite.mk "SDL_LogSetPriority" "ret0",
  HookSite.mk "SDL_LogVerbose" "ret0",
  HookSite.mk "SDL_LogWarn" "ret0",
  HookSite.mk "SDL_LowerBlit" "SDL_LowerBlit",
  HookSite.mk "SDL_LowerBlitScaled" "SDL_LowerBlitScaled",
  HookSite.mk "SDL_MapRGB" "SDL_MapRGB",
  HookSite.mk "SDL_MapRGBA" "SDL_MapRGBA",
  HookSite.mk "SDL_MasksToPixelFormatEnum" "SDL_MasksToPixelFormatEnum",
  HookSite.mk "SDL_MaximizeWindow" "SDL_MaximizeWindow",
  HookSite.mk "SDL_MinimizeWindow" "SDL_MinimizeWindow",
  HookSite.mk "SDL_MixAudio" "SDL_MixAudio",
  HookSite.mk "SDL_MixAudioFormat" "SDL_MixAudioFormat",
  HookSite.mk "SDL_MouseIsHaptic" "SDL_MouseIsHaptic",
  HookSite.mk "SDL_NumHaptics" "SDL_NumHaptics",
  HookSite.mk "SDL_NumJoysticks" "SDL_NumJoysticks",
  HookSite.mk "SDL_OpenAudio" "SDL_OpenAudio_fake",
  HookSite.mk "SDL_OpenAudioDevice" "SDL_OpenAudioDevice",
  HookSite.mk "SDL_PauseAudio" "SDL_PauseAudio",
  HookSite.mk "SDL_PauseAudioDevice" "SDL_PauseAudioDevice",
  HookSite.mk "SDL_PeepEvents" "SDL_PeepEvents",
  HookSite.mk "SDL_PixelFormatEnumToMasks" "SDL_PixelFormatEnumToMasks",
  HookSite.mk "SDL_PollEvent" "SDL_PollEvent",
  HookSite.mk "SDL_PumpEvents" "SDL_PumpEvents",
  HookSite.mk "SDL_PushEvent" "SDL_PushEvent",
  HookSite.mk "SDL_QueryTexture" "SDL_QueryTexture",
  HookSite.mk "SDL_Quit" "SDL_Quit",
  HookSite.mk "SDL_QuitSubSystem" "SDL_QuitSubSystem",
  HookSite.mk "SDL_RWFromConstMem" "SDL_RWFromConstMem",
  HookSite.mk "SDL_RWFromFP" "SDL_RWFromFP",
  HookSite.mk "SDL_RWFromFile" "SDL_RWFromFile_hook",
  HookSite.mk "SDL_RWFromMem" "SDL_RWFromMem",
  HookSite.mk "SDL_RaiseWindow" "SDL_RaiseWindow",
  HookSite.mk "SDL_ReadBE16" "SDL_ReadBE16",
  HookSite.mk "SDL_ReadBE32" "SDL_ReadBE32",
  HookSite.mk "SDL_ReadBE64" "SDL_ReadBE64",
  HookSite.mk "SDL_ReadLE16" "SDL_ReadLE16",
  HookSite.mk "SDL_ReadLE32" "SDL_ReadLE32",
  HookSite.mk "SDL_ReadLE64" "SDL_ReadLE64",
  HookSite.mk "SDL_ReadU8" "SDL_ReadU8",
  HookSite.mk "SDL_RecordGesture" "SDL_RecordGesture",
  HookSite.mk "SDL_RegisterEvents" "SDL_RegisterEvents",
  HookSite.mk "SDL_RemoveTimer" "SDL_RemoveTimer",
  HookSite.mk "SDL_RenderClear" "SDL_RenderClear",
  HookSite.mk "SDL_RenderCopy" "SDL_RenderCopy",
  HookSite.mk "SDL_RenderCopyEx" "SDL_RenderCopyEx",
  HookSite.mk "SDL_RenderDrawLine" "SDL_RenderDrawLine",
  HookSite.mk "SDL_RenderDrawLines" "SDL_RenderDrawLines",
  HookSite.mk "SDL_RenderDrawPoint" "SDL_RenderDrawPoint",
  HookSite.mk "SDL_RenderDrawPoints" "SDL_RenderDrawPoints",
  HookSite.mk "SDL_RenderDrawRect" "SDL_RenderDrawRect",
  HookSite.mk "SDL_RenderDrawRects" "SDL_RenderDrawRects",
  HookSite.mk "SDL_RenderFillRect" "SDL_RenderFillRect",
  HookSite.mk "SDL_RenderFillRects" "SDL_RenderFillRects",
  HookSite.mk "SDL_RenderGetLogicalSize" "SDL_RenderGetLogicalSize",
  HookSite.mk "SDL_RenderGetScale" "SDL_RenderGetScale",
  HookSite.mk "SDL_RenderGetViewport" "SDL_RenderGetViewport",
  HookSite.mk "SDL_RenderPresent" "SDL_RenderPresent",
  HookSite.mk "SDL_RenderReadPixels" "SDL_RenderReadPixels",
  HookSite.mk "SDL_RenderSetLogicalSize" "SDL_RenderSetLogicalSize",
  HookSite.mk "SDL_RenderSetScale" "SDL_RenderSetScale",
  HookSite.mk "SDL_RenderSetViewport" "SDL_RenderSetViewport",
  HookSite.mk "SDL_RenderTargetSupported" "SDL_RenderTargetSupported",
  HookSite.mk "SDL_ResetAssertionReport" "SDL_ResetAssertionReport",
  HookSite.mk "SDL_RestoreWindow" "SDL_RestoreWindow",
  HookSite.mk "SDL_SaveAllDollarTemplates" "SDL_SaveAllDollarTemplates",
  HookSite.mk "SDL_SaveBMP_RW" "SDL_SaveBMP_RW",
  HookSite.mk "SDL_SaveDollarTemplate" "SDL_SaveDollarTemplate",
  HookSite.mk "SDL_SemPost" "SDL_SemPost",
  HookSite.mk "SDL_SemTryWait" "SDL_SemTryWait",
  HookSite.mk "SDL_SemValue" "SDL_SemValue",
  HookSite.mk "SDL_SemWait" "SDL_SemWait",
  HookSite.mk "SDL_SemWaitTimeout" "SDL_SemWaitTimeout",
  HookSite.mk "SDL_SetAssertionHandler" "SDL_SetAssertionHandler",
  HookSite.mk "SDL_SetClipRect" "SDL_SetClipRect",
  HookSite.mk "SDL_SetClipboardText" "SDL_SetClipboardText",
  HookSite.mk "SDL_SetColorKey" "SDL_SetColorKey",
  HookSite.mk "SDL_SetCursor" "SDL_SetCursor",
  HookSite.mk "SDL_SetError" "SDL_SetError",
  HookSite.mk "SDL_SetEventFilter" "SDL_SetEventFilter",
  HookSite.mk "SDL_SetHint" "SDL_SetHint",
  HookSite.mk "SDL_SetHintWithPriority" "SDL_SetHintWithPriority",
  HookSite.mk "SDL_SetModState" "SDL_SetModState",
  HookSite.mk "SDL_SetPaletteColors" "SDL_SetPaletteColors",
  HookSite.mk "SDL_SetPixelFormatPalette" "SDL_SetPixelFormatPalette",
  HookSite.mk "SDL_SetRelativeMouseMode" "SDL_SetRelativeMouseMode",
  HookSite.mk "SDL_SetRenderDrawBlendMode" "SDL_SetRenderDrawBlendMode",
  HookSite.mk "SDL_SetRenderDrawColor" "SDL_SetRenderDrawColor",
  HookSite.mk "SDL_SetRenderTarget" "SDL_SetRenderTarget",
  HookSite.mk "SDL_SetSurfaceAlphaMod" "SDL_SetSurfaceAlphaMod",
  HookSite.mk "SDL_SetSurfaceBlendMode" "SDL_SetSurfaceBlendMode",
  HookSite.mk "SDL_SetSurfaceColorMod" "SDL_SetSurfaceColorMod",
  HookSite.mk "SDL_SetSurfacePalette" "SDL_SetSurfacePalette",
  HookSite.mk "SDL_SetSurfaceRLE" "SDL_SetSurfaceRLE",
  HookSite.mk "SDL_SetTextInputRect" "SDL_SetTextInputRect",
  HookSite.mk "SDL_SetTextureAlphaMod" "SDL_SetTextureAlphaMod",
  HookSite.mk "SDL_SetTextureBlendMode" "SDL_SetTextureBlendMode",
  HookSite.mk "SDL_SetTextureColorMod" "SDL_SetTextureColorMod",
  HookSite.mk "SDL_SetThreadPriority" "SDL_SetThreadPriority",
  HookSite.mk "SDL_SetWindowBordered" "SDL_SetWindowBordered",
  HookSite.mk "SDL_SetWindowBrightness" "SDL_SetWindowBrightness",
  HookSite.mk "SDL_SetWindowData" "SDL_SetWindowData",
  HookSite.mk "SDL_SetWindowDisplayMode" "SDL_SetWindowDisplayMode",
  HookSite.mk "SDL_SetWindowFullscreen" "SDL_SetWindowFullscreen",
  HookSite.mk "SDL_SetWindowGammaRamp" "SDL_SetWindowGammaRamp",
  HookSite.mk "SDL_SetWindowGrab" "SDL_SetWindowGrab",
  HookSite.mk "SDL_SetWindowIcon" "SDL_SetWindowIcon",
  HookSite.mk "SDL_SetWindowMaximumSize" "SDL_SetWindowMaximumSize",
  HookSite.mk "SDL_SetWindowMinimumSize" "SDL_SetWindowMinimumSize",
  HookSite.mk "SDL_SetWindowPosition" "SDL_SetWindowPosition",
  HookSite.mk "SDL_SetWindowShape" "SDL_SetWindowShape",
  HookSite.mk "SDL_SetWindowSize" "SDL_SetWindowSize",
  HookSite.mk "SDL_SetWindowTitle" "SDL_SetWindowTitle",
  HookSite.mk "SDL_ShowCursor" "SDL_ShowCursor",
  HookSite.mk "SDL_ShowMessageBox" "SDL_ShowMessageBox",
  HookSite.mk "SDL_ShowSimpleMessageBox" "SDL_ShowSimpleMessageBox",
  HookSite.mk "SDL_ShowWindow" "SDL_ShowWindow",
  HookSite.mk "SDL_SoftStretch" "SDL_SoftStretch",
  HookSite.mk "SDL_StartTextInput" "SDL_StartTextInput",
  HookSite.mk "SDL_StopTextInput" "SDL_StopTextInput",
  HookSite.mk "SDL_ThreadID" "SDL_ThreadID",
  HookSite.mk "SDL_TryLockMutex" "SDL_TryLockMutex",
  HookSite.mk "SDL_UnionRect" "SDL_UnionRect",
  HookSite.mk "SDL_UnloadObject" "SDL_UnloadObject",
  HookSite.mk "SDL_UnlockAudio" "SDL_UnlockAudio",
  HookSite.mk "SDL_UnlockAudioDevice" "SDL_UnlockAudioDevice",
  HookSite.mk "SDL_UnlockMutex" "SDL_UnlockMutex",
  HookSite.mk "SDL_UnlockSurface" "SDL_UnlockSurface",
  HookSite.mk "SDL_UnlockTexture" "SDL_UnlockTexture",
  HookSite.mk "SDL_UpdateTexture" "SDL_UpdateTexture",
  HookSite.mk "SDL_UpdateWindowSurface" "SDL_UpdateWindowSurface",
  HookSite.mk "SDL_UpdateWindowSurfaceRects" "SDL_UpdateWindowSurfaceRects",
  HookSite.mk "SDL_UpperBlit" "SDL_UpperBlit",
  HookSite.mk "SDL_UpperBlitScaled" "SDL_UpperBlitScaled",
  HookSite.mk "SDL_VideoInit" "SDL_VideoInit",
  HookSite.mk "SDL_VideoQuit" "SDL_VideoQuit",
  HookSite.mk "SDL_WaitEvent" "SDL_WaitEvent",
  HookSite.mk "SDL_WaitEventTimeout" "SDL_WaitEventTimeout",
  HookSite.mk "SDL_WaitThread" "SDL_WaitThread",
  HookSite.mk "SDL_WarpMouseInWindow" "SDL_WarpMouseInWindow",
  HookSite.mk "SDL_WasInit" "SDL_WasInit",
  HookSite.mk "SDL_WriteBE16" "SDL_WriteBE16",
  HookSite.mk "SDL_WriteBE32" "SDL_WriteBE32",
  HookSite.mk "SDL_WriteBE64" "SDL_WriteBE64",
  HookSite.mk "SDL_WriteLE16" "SDL_WriteLE16",
  HookSite.mk "SDL_WriteLE32" "SDL_WriteLE32",
  HookSite.mk "SDL_WriteLE64" "SDL_WriteLE64",
  HookSite.mk "SDL_WriteU8" "SDL_WriteU8",
  HookSite.mk "SDL_abs" "SDL_abs",
  HookSite.mk "SDL_atof" "SDL_atof",
  HookSite.mk "SDL_atoi" "SDL_atoi",
  HookSite.mk "SDL_calloc" "SDL_calloc",
  HookSite.mk "SDL_ceil" "SDL_ceil",
  HookSite.mk "SDL_cosf" "SDL_cosf",
  HookSite.mk "SDL_free" "SDL_free",
  HookSite.mk "SDL_getenv" "SDL_getenv",
  HookSite.mk "SDL_iconv" "SDL_iconv",
  HookSite.mk "SDL_iconv_close" "SDL_iconv_close",
  HookSite.mk "SDL_iconv_open" "SDL_iconv_open",
  HookSite.mk "SDL_iconv_string" "SDL_iconv_string",
  HookSite.mk "SDL_isdigit" "SDL_isdigit",
  HookSite.mk "SDL_isspace" "SDL_isspace",
  HookSite.mk "SDL_itoa" "SDL_itoa",
  HookSite.mk "SDL_lltoa" "SDL_lltoa",
  HookSite.mk "SDL_ltoa" "SDL_ltoa",
  HookSite.mk "SDL_malloc" "SDL_malloc",
  HookSite.mk "SDL_memcmp" "SDL_memcmp",
  HookSite.mk "SDL_memcpy" "SDL_memcpy",
  HookSite.mk "SDL_memmove" "SDL_memmove",
  HookSite.mk "SDL_memset" "SDL_memset",
  HookSite.mk "SDL_qsort" "SDL_qsort",
  HookSite.mk "SDL_realloc" "SDL_realloc",
  HookSite.mk "SDL_setenv" "SDL_setenv",
  HookSite.mk "SDL_sinf" "SDL_sinf",
  HookSite.mk "SDL_snprintf" "SDL_snprintf",
  HookSite.mk "SDL_sscanf" "SDL_sscanf",
  HookSite.mk "SDL_strcasecmp" "SDL_strcasecmp",
  HookSite.mk "SDL_strchr" "SDL_strchr",
  HookSite.mk "SDL_strcmp" "SDL_strcmp",
  HookSite.mk "SDL_strdup" "SDL_strdup",
  HookSite.mk "SDL_strlcat" "SDL_strlcat",
  HookSite.mk "SDL_strlcpy" "SDL_strlcpy",
  HookSite.mk "SDL_strlen" "SDL_strlen",
  HookSite.mk "SDL_strlwr" "SDL_strlwr",
  HookSite.mk "SDL_strncasecmp" "SDL_strncasecmp",
  HookSite.mk "SDL_strncmp" "SDL_strncmp",
  HookSite.mk "SDL_strrchr" "SDL_strrchr",
  HookSite.mk "SDL_strrev" "SDL_strrev",
  HookSite.mk "SDL_strstr" "SDL_strstr",
  HookSite.mk "SDL_strtod" "SDL_strtod",
  HookSite.mk "SDL_strtol" "SDL_strtol",
  HookSite.mk "SDL_strtoll" "SDL_strtoll",
  HookSite.mk "SDL_strtoul" "SDL_strtoul",
  HookSite.mk "SDL_strtoull" "SDL_strtoull",
  HookSite.mk "SDL_strupr" "SDL_strupr",
  HookSite.mk "SDL_tolower" "SDL_tolower",
  HookSite.mk "SDL_toupper" "SDL_toupper",
  HookSite.mk "SDL_uitoa" "SDL_uitoa",
  HookSite.mk "SDL_ulltoa" "SDL_ulltoa",
  HookSite.mk "SDL_ultoa" "SDL_ultoa",
  HookSite.mk "SDL_utf8strlcpy" "SDL_utf8strlcpy",
  HookSite.mk "SDL_vsnprintf" "SDL_vsnprintf",
  HookSite.mk "SDL_wcslcat" "SDL_wcslcat",
  HookSite.mk "SDL_wcslcpy" "SDL_wcslcpy",
  HookSite.mk "SDL_wcslen" "SDL_wcslen",
  HookSite.mk "SDL_AddEventWatch_REAL" "SDL_AddEventWatch",
  HookSite.mk "SDL_AddTimer_REAL" "SDL_AddTimer",
  HookSite.mk "SDL_AllocFormat_REAL" "SDL_AllocFormat",
  HookSite.mk "SDL_AllocPalette_REAL" "SDL_AllocPalette",
  HookSite.mk "SDL_AllocRW_REAL" "SDL_AllocRW",
  HookSite.mk "SDL_AndroidGetActivity_REAL" "ret0",
  HookSite.mk "SDL_AndroidGetExternalCachePath_REAL" "SDL_AndroidGetExternalStoragePath",
  HookSite.mk "SDL_AndroidGetExternalStoragePath_REAL" "SDL_AndroidGetExternalStoragePath",
  HookSite.mk "SDL_AndroidGetExternalStorageState_REAL" "ret0",
  HookSite.mk "SDL_AndroidGetInternalStoragePath_REAL" "SDL_AndroidGetInternalStoragePath",
  HookSite.mk "SDL_AndroidGetJNIEnv_REAL" "Android_JNI_GetEnv",
  HookSite.mk "Android_JNI_GetEnv_REAL" "Android_JNI_GetEnv",
  HookSite.mk "SDL_Android_Init_REAL" "ret0",
  HookSite.mk "SDL_AtomicCAS_REAL" "SDL_AtomicCAS",
  HookSite.mk "SDL_AtomicCASPtr_REAL" "SDL_AtomicCASPtr",
  HookSite.mk "SDL_AtomicLock_REAL" "SDL_AtomicLock",
  HookSite.mk "SDL_AtomicTryLock_REAL" "SDL_AtomicTryLock",
  HookSite.mk "SDL_AtomicUnlock_REAL" "SDL_AtomicUnlock",
  HookSite.mk "SDL_AudioInit_REAL" "SDL_AudioInit",
  HookSite.mk "SDL_AudioQuit_REAL" "SDL_AudioQuit",
  HookSite.mk "SDL_BuildAudioCVT_REAL" "SDL_BuildAudioCVT",
  HookSite.mk "SDL_ClearError_REAL" "SDL_ClearError",
  HookSite.mk "SDL_ClearHints_REAL" "SDL_ClearHints",
  HookSite.mk "SDL_CloseAudio_REAL" "SDL_CloseAudio",
  HookSite.mk "SDL_CloseAudioDevice_REAL" "SDL_CloseAudioDevice",
  HookSite.mk "SDL_CondBroadcast_REAL" "SDL_CondBroadcast",
  HookSite.mk "SDL_CondSignal_REAL" "SDL_CondSignal",
  HookSite.mk "SDL_CondWait_REAL" "SDL_CondWait",
  HookSite.mk "SDL_CondWaitTimeout_REAL" "SDL_CondWaitTimeout",
  HookSite.mk "SDL_ConvertAudio_REAL" "SDL_ConvertAudio",
  HookSite.mk "SDL_ConvertPixels_REAL" "SDL_ConvertPixels",
  HookSite.mk "SDL_ConvertSurface_REAL" "SDL_ConvertSurface",
  HookSite.mk "SDL_ConvertSurfaceFormat_REAL" "SDL_ConvertSurfaceFormat",
  HookSite.mk "SDL_CreateColorCursor_REAL" "SDL_CreateColorCursor",
  HookSite.mk "SDL_CreateCond_REAL" "SDL_CreateCond",
  HookSite.mk "SDL_CreateCursor_REAL" "SDL_CreateCursor",
  HookSite.mk "SDL_CreateMutex_REAL" "SDL_CreateMutex",
  HookSite.mk "SDL_CreateRGBSurface_REAL" "SDL_CreateRGBSurface",
  HookSite.mk "SDL_CreateRGBSurfaceFrom_REAL" "SDL_CreateRGBSurfaceFrom",
  HookSite.mk "SDL_CreateRenderer_REAL" "SDL_CreateRenderer",
  HookSite.mk "SDL_CreateSemaphore_REAL" "SDL_CreateSemaphore",
  HookSite.mk "SDL_CreateShapedWindow_REAL" "SDL_CreateShapedWindow",
  HookSite.mk "SDL_CreateSoftwareRenderer_REAL" "SDL_CreateSoftwareRenderer",
  HookSite.mk "SDL_CreateSystemCursor_REAL" "SDL_CreateSystemCursor",
  HookSite.mk "SDL_CreateTexture_REAL" "SDL_CreateTexture",
  HookSite.mk "SDL_CreateTextureFromSurface_REAL" "SDL_CreateTextureFromSurface",
  HookSite.mk "SDL_CreateThread_REAL" "SDL_CreateThread",
  HookSite.mk "SDL_CreateWindow_REAL" "SDL_CreateWindow",
  HookSite.mk "SDL_CreateWindowAndRenderer_REAL" "SDL_CreateWindowAndRenderer",
  HookSite.mk "SDL_CreateWindowFrom_REAL" "SDL_CreateWindowFrom",
  HookSite.mk "SDL_DelEventWatch_REAL" "SDL_DelEventWatch",
  HookSite.mk "SDL_Delay_REAL" "SDL_Delay",
  HookSite.mk "SDL_DestroyCond_REAL" "SDL_DestroyCond",
  HookSite.mk "SDL_DestroyMutex_REAL" "SDL_DestroyMutex",
  HookSite.mk "SDL_DestroyRenderer_REAL" "SDL_DestroyRenderer",
  HookSite.mk "SDL_DestroySemaphore_REAL" "SDL_DestroySemaphore",
  HookSite.mk "SDL_DestroyTexture_REAL" "SDL_DestroyTexture",
  HookSite.mk "SDL_DestroyWindow_REAL" "SDL_DestroyWindow",
  HookSite.mk "SDL_DisableScreenSaver_REAL" "SDL_DisableScreenSaver",
  HookSite.mk "SDL_EnableScreenSaver_REAL" "SDL_EnableScreenSaver",
  HookSite.mk "SDL_EnclosePoints_REAL" "SDL_EnclosePoints",
  HookSite.mk "SDL_Error_REAL" "SDL_Error",
  HookSite.mk "SDL_EventState_REAL" "SDL_EventState",
  HookSite.mk "SDL_FillRect_REAL" "SDL_FillRect",
  HookSite.mk "SDL_FillRects_REAL" "SDL_FillRects",
  HookSite.mk "SDL_FilterEvents_REAL" "SDL_FilterEvents",
  HookSite.mk "SDL_FlushEvent_REAL" "SDL_FlushEvent",
  HookSite.mk "SDL_FlushEvents_REAL" "SDL_FlushEvents",
  HookSite.mk "SDL_FreeCursor_REAL" "SDL_FreeCursor",
  HookSite.mk "SDL_FreeFormat_REAL" "SDL_FreeFormat",
  HookSite.mk "SDL_FreePalette_REAL" "SDL_FreePalette",
  HookSite.mk "SDL_FreeRW_REAL" "SDL_FreeRW",
  HookSite.mk "SDL_FreeSurface_REAL" "SDL_FreeSurface",
  HookSite.mk "SDL_FreeWAV_REAL" "SDL_FreeWAV",
  HookSite.mk "SDL_GL_BindTexture_REAL" "SDL_GL_BindTexture",
  HookSite.mk "SDL_GL_CreateContext_REAL" "SDL_GL_CreateContext",
  HookSite.mk "SDL_GL_DeleteContext_REAL" "SDL_GL_DeleteContext",
  HookSite.mk "SDL_GL_ExtensionSupported_REAL" "SDL_GL_ExtensionSupported",
  HookSite.mk "SDL_GL_GetAttribute_REAL" "SDL_GL_GetAttribute",
  HookSite.mk "SDL_GL_GetProcAddress_REAL" "SDL_GL_GetProcAddress",
  HookSite.mk "SDL_GL_GetSwapInterval_REAL" "SDL_GL_GetSwapInterval",
  HookSite.mk "SDL_GL_LoadLibrary_REAL" "SDL_GL_LoadLibrary",
  HookSite.mk "SDL_GL_MakeCurrent_REAL" "SDL_GL_MakeCurrent",
  HookSite.mk "SDL_GL_SetAttribute_REAL" "SDL_GL_SetAttribute",
  HookSite.mk "SDL_GL_SetSwapInterval_REAL" "SDL_GL_SetSwapInterval",
  HookSite.mk "SDL_GL_SwapWindow_REAL" "SDL_GL_SwapWindow",
  HookSite.mk "SDL_GL_UnbindTexture_REAL" "SDL_GL_UnbindTexture",
  HookSite.mk "SDL_GL_UnloadLibrary_REAL" "SDL_GL_UnloadLibrary",
  HookSite.mk "SDL_GameControllerAddMapping_REAL" "SDL_GameControllerAddMapping",
  HookSite.mk "SDL_GameControllerClose_REAL" "SDL_GameControllerClose",
  HookSite.mk "SDL_GameControllerEventState_REAL" "SDL_GameControllerEventState",
  HookSite.mk "SDL_GameControllerGetAttached_REAL" "SDL_GameControllerGetAttached",
  HookSite.mk "SDL_GameControllerGetAxis_REAL" "SDL_GameControllerGetAxis",
  HookSite.mk "SDL_GameControllerGetAxisFromString_REAL" "SDL_GameControllerGetAxisFromString",
  HookSite.mk "SDL_GameControllerGetBindForAxis_REAL" "SDL_GameControllerGetBindForAxis",
  HookSite.mk "SDL_GameControllerGetBindForButton_REAL" "SDL_GameControllerGetBindForButton",
  HookSite.mk "SDL_GameControllerGetButton_REAL" "SDL_GameControllerGetButton",
  HookSite.mk "SDL_GameControllerGetButtonFromString_REAL" "SDL_GameControllerGetButtonFromString",
  HookSite.mk "SDL_GameControllerGetJoystick_REAL" "SDL_GameControllerGetJoystick",
  HookSite.mk "SDL_GameControllerGetStringForAxis_REAL" "SDL_GameControllerGetStringForAxis",
  HookSite.mk "SDL_GameControllerGetStringForButton_REAL" "SDL_GameControllerGetStringForButton",
  HookSite.mk "SDL_GameControllerMapping_REAL" "SDL_GameControllerMapping",
  HookSite.mk "SDL_GameControllerMappingForGUID_REAL" "SDL_GameControllerMappingForGUID",
  HookSite.mk "SDL_GameControllerName_REAL" "SDL_GameControllerName",
  HookSite.mk "SDL_GameControllerNameForIndex_REAL" "SDL_GameControllerNameForIndex",
  HookSite.mk "SDL_GameControllerOpen_REAL" "SDL_GameControllerOpen",
  HookSite.mk "SDL_GameControllerUpdate_REAL" "SDL_GameControllerUpdate",
  HookSite.mk "SDL_GetAssertionReport_REAL" "SDL_GetAssertionReport",
  HookSite.mk "SDL_GetAudioDeviceName_REAL" "SDL_GetAudioDeviceName",
  HookSite.mk "SDL_GetAudioDeviceStatus_REAL" "SDL_GetAudioDeviceStatus",
  HookSite.mk "SDL_GetAudioDriver_REAL" "SDL_GetAudioDriver",
  HookSite.mk "SDL_GetAudioStatus_REAL" "SDL_GetAudioStatus",
  HookSite.mk "SDL_GetCPUCacheLineSize_REAL" "SDL_GetCPUCacheLineSize",
  HookSite.mk "SDL_GetCPUCount_REAL" "SDL_GetCPUCount",
  HookSite.mk "SDL_GetClipRect_REAL" "SDL_GetClipRect",
  HookSite.mk "SDL_GetClipboardText_REAL" "SDL_GetClipboardText",
  HookSite.mk "SDL_GetClosestDisplayMode_REAL" "SDL_GetClosestDisplayMode",
  HookSite.mk "SDL_GetColorKey_REAL" "SDL_GetColorKey",
  HookSite.mk "SDL_GetCurrentAudioDriver_REAL" "SDL_GetCurrentAudioDriver",
  HookSite.mk "SDL_GetCurrentDisplayMode_REAL" "SDL_GetCurrentDisplayMode",
  HookSite.mk "SDL_GetCurrentVideoDriver_REAL" "SDL_GetCurrentVideoDriver",
  HookSite.mk "SDL_GetCursor_REAL" "SDL_GetCursor",
  HookSite.mk "SDL_GetDesktopDisplayMode_REAL" "SDL_GetDesktopDisplayMode",
  HookSite.mk "SDL_GetDisplayBounds_REAL" "SDL_GetDisplayBounds",
  HookSite.mk "SDL_GetDisplayMode_REAL" "SDL_GetDisplayMode",
  HookSite.mk "SDL_GetDisplayName_REAL" "SDL_GetDisplayName",
  HookSite.mk "SDL_GetError_REAL" "SDL_GetError",
  HookSite.mk "SDL_GetEventFilter_REAL" "SDL_GetEventFilter",
  HookSite.mk "SDL_GetHint_REAL" "SDL_GetHint",
  HookSite.mk "SDL_GetKeyFromName_REAL" "SDL_GetKeyFromName",
  HookSite.mk "SDL_GetKeyFromScancode_REAL" "SDL_GetKeyFromScancode",
  HookSite.mk "SDL_GetKeyName_REAL" "SDL_GetKeyName",
  HookSite.mk "SDL_GetKeyboardFocus_REAL" "SDL_GetKeyboardFocus",
  HookSite.mk "SDL_GetKeyboardState_REAL" "SDL_GetKeyboardState",
  HookSite.mk "SDL_GetModState_REAL" "SDL_GetModState",
  HookSite.mk "SDL_GetMouseFocus_REAL" "SDL_GetMouseFocus",
  HookSite.mk "SDL_GetMouseState_REAL" "SDL_GetMouseState",
  HookSite.mk "SDL_GetNumAudioDevices_REAL" "SDL_GetNumAudioDevices",
  HookSite.mk "SDL_GetNumAudioDrivers_REAL" "SDL_GetNumAudioDrivers",
  HookSite.mk "SDL_GetNumDisplayModes_REAL" "SDL_GetNumDisplayModes",
  HookSite.mk "SDL_GetNumRenderDrivers_REAL" "SDL_GetNumRenderDrivers",
  HookSite.mk "SDL_GetNumTouchDevices_REAL" "SDL_GetNumTouchDevices",
  HookSite.mk "SDL_GetNumTouchFingers_REAL" "SDL_GetNumTouchFingers",
  HookSite.mk "SDL_GetNumVideoDisplays_REAL" "SDL_GetNumVideoDisplays",
  HookSite.mk "SDL_GetNumVideoDrivers_REAL" "SDL_GetNumVideoDrivers",
  HookSite.mk "SDL_GetPerformanceCounter_REAL" "SDL_GetPerformanceCounter",
  HookSite.mk "SDL_GetPerformanceFrequency_REAL" "SDL_GetPerformanceFrequency",
  HookSite.mk "SDL_GetPixelFormatName_REAL" "SDL_GetPixelFormatName",
  HookSite.mk "SDL_GetPlatform_REAL" "SDL_GetPlatform",
  HookSite.mk "SDL_GetPowerInfo_REAL" "SDL_GetPowerInfo",
  HookSite.mk "SDL_GetRGB_REAL" "SDL_GetRGB",
  HookSite.mk "SDL_GetRGBA_REAL" "SDL_GetRGBA",
  HookSite.mk "SDL_GetRelativeMouseMode_REAL" "SDL_GetRelativeMouseMode",
  HookSite.mk "SDL_GetRelativeMouseState_REAL" "SDL_GetRelativeMouseState",
  HookSite.mk "SDL_GetRenderDrawBlendMode_REAL" "SDL_GetRenderDrawBlendMode",
  HookSite.mk "SDL_GetRenderDrawColor_REAL" "SDL_GetRenderDrawColor",
  HookSite.mk "SDL_GetRenderDriverInfo_REAL" "SDL_GetRenderDriverInfo",
  HookSite.mk "SDL_GetRenderTarget_REAL" "SDL_GetRenderTarget",
  HookSite.mk "SDL_GetRenderer_REAL" "SDL_GetRenderer",
  HookSite.mk "SDL_GetRendererInfo_REAL" "SDL_GetRendererInfo",
  HookSite.mk "SDL_GetRevision_REAL" "SDL_GetRevision",
  HookSite.mk "SDL_GetRevisionNumber_REAL" "SDL_GetRevisionNumber",
  HookSite.mk "SDL_GetScancodeFromKey_REAL" "SDL_GetScancodeFromKey",
  HookSite.mk "SDL_GetScancodeFromName_REAL" "SDL_GetScancodeFromName",
  HookSite.mk "SDL_GetScancodeName_REAL" "SDL_GetScancodeName",
  HookSite.mk "SDL_GetShapedWindowMode_REAL" "SDL_GetShapedWindowMode",
  HookSite.mk "SDL_GetSurfaceAlphaMod_REAL" "SDL_GetSurfaceAlphaMod",
  HookSite.mk "SDL_GetSurfaceBlendMode_REAL" "SDL_GetSurfaceBlendMode",
  HookSite.mk "SDL_GetSurfaceColorMod_REAL" "SDL_GetSurfaceColorMod",
  HookSite.mk "SDL_GetTextureAlphaMod_REAL" "SDL_GetTextureAlphaMod",
  HookSite.mk "SDL_GetTextureBlendMode_REAL" "SDL_GetTextureBlendMode",
  HookSite.mk "SDL_GetTextureColorMod_REAL" "SDL_GetTextureColorMod",
  HookSite.mk "SDL_GetThreadID_REAL" "SDL_GetThreadID",
  HookSite.mk "SDL_GetThreadName_REAL" "SDL_GetThreadName",
  HookSite.mk "SDL_GetTicks_REAL" "SDL_GetTicks",
  HookSite.mk "SDL_GetTouchDevice_REAL" "SDL_GetTouchDevice",
  HookSite.mk "SDL_GetTouchFinger_REAL" "SDL_GetTouchFinger",
  HookSite.mk "SDL_GetVersion_REAL" "SDL_GetVersion",
  HookSite.mk "SDL_GetVideoDriver_REAL" "SDL_GetVideoDriver",
  HookSite.mk "SDL_GetWindowBrightness_REAL" "SDL_GetWindowBrightness",
  HookSite.mk "SDL_GetWindowData_REAL" "SDL_GetWindowData",
  HookSite.mk "SDL_GetWindowDisplayIndex_REAL" "SDL_GetWindowDisplayIndex",
  HookSite.mk "SDL_GetWindowDisplayMode_REAL" "SDL_GetWindowDisplayMode",
  HookSite.mk "SDL_GetWindowFlags_REAL" "SDL_GetWindowFlags",
  HookSite.mk "SDL_GetWindowFromID_REAL" "SDL_GetWindowFromID",
  HookSite.mk "SDL_GetWindowGammaRamp_REAL" "SDL_GetWindowGammaRamp",
  HookSite.mk "SDL_GetWindowGrab_REAL" "SDL_GetWindowGrab",
  HookSite.mk "SDL_GetWindowID_REAL" "SDL_GetWindowID",
  HookSite.mk "SDL_GetWindowMaximumSize_REAL" "SDL_GetWindowMaximumSize",
  HookSite.mk "SDL_GetWindowMinimumSize_REAL" "SDL_GetWindowMinimumSize",
  HookSite.mk "SDL_GetWindowPixelFormat_REAL" "SDL_GetWindowPixelFormat",
  HookSite.mk "SDL_GetWindowPosition_REAL" "SDL_GetWindowPosition",
  HookSite.mk "SDL_GetWindowSize_REAL" "SDL_GetWindowSize",
  HookSite.mk "SDL_GetWindowSurface_REAL" "SDL_GetWindowSurface",
  HookSite.mk "SDL_GetWindowTitle_REAL" "SDL_GetWindowTitle",
  HookSite.mk "SDL_HapticClose_REAL" "SDL_HapticClose",
  HookSite.mk "SDL_HapticDestroyEffect_REAL" "SDL_HapticDestroyEffect",
  HookSite.mk "SDL_HapticEffectSupported_REAL" "SDL_HapticEffectSupported",
  HookSite.mk "SDL_HapticGetEffectStatus_REAL" "SDL_HapticGetEffectStatus",
  HookSite.mk "SDL_HapticIndex_REAL" "SDL_HapticIndex",
  HookSite.mk "SDL_HapticName_REAL" "SDL_HapticName",
  HookSite.mk "SDL_HapticNewEffect_REAL" "SDL_HapticNewEffect",
  HookSite.mk "SDL_HapticNumAxes_REAL" "SDL_HapticNumAxes",
  HookSite.mk "SDL_HapticNumEffects_REAL" "SDL_HapticNumEffects",
  HookSite.mk "SDL_HapticNumEffectsPlaying_REAL" "SDL_HapticNumEffectsPlaying",
  HookSite.mk "SDL_HapticOpen_REAL" "SDL_HapticOpen",
  HookSite.mk "SDL_HapticOpenFromJoystick_REAL" "SDL_HapticOpenFromJoystick",
  HookSite.mk "SDL_HapticOpenFromMouse_REAL" "SDL_HapticOpenFromMouse",
  HookSite.mk "SDL_HapticOpened_REAL" "SDL_HapticOpened",
  HookSite.mk "SDL_HapticPause_REAL" "SDL_HapticPause",
  HookSite.mk "SDL_HapticQuery_REAL" "SDL_HapticQuery",
  HookSite.mk "SDL_HapticRumbleInit_REAL" "SDL_HapticRumbleInit",
  HookSite.mk "SDL_HapticRumblePlay_REAL" "SDL_HapticRumblePlay",
  HookSite.mk "SDL_HapticRumbleStop_REAL" "SDL_HapticRumbleStop",
  HookSite.mk "SDL_HapticRumbleSupported_REAL" "SDL_HapticRumbleSupported",
  HookSite.mk "SDL_HapticRunEffect_REAL" "SDL_HapticRunEffect",
  HookSite.mk "SDL_HapticSetAutocenter_REAL" "SDL_HapticSetAutocenter",
  HookSite.mk "SDL_HapticSetGain_REAL" "SDL_HapticSetGain",
  HookSite.mk "SDL_HapticStopAll_REAL" "SDL_HapticStopAll",
  HookSite.mk "SDL_HapticStopEffect_REAL" "SDL_HapticStopEffect",
  HookSite.mk "SDL_HapticUnpause_REAL" "SDL_HapticUnpause",
  HookSite.mk "SDL_HapticUpdateEffect_REAL" "SDL_HapticUpdateEffect",
  HookSite.mk "SDL_Has3DNow_REAL" "SDL_Has3DNow",
  HookSite.mk "SDL_HasAltiVec_REAL" "SDL_HasAltiVec",
  HookSite.mk "SDL_HasClipboardText_REAL" "SDL_HasClipboardText",
  HookSite.mk "SDL_HasEvent_REAL" "SDL_HasEvent",
  HookSite.mk "SDL_HasEvents_REAL" "SDL_HasEvents",
  HookSite.mk "SDL_HasIntersection_REAL" "SDL_HasIntersection",
  HookSite.mk "SDL_HasMMX_REAL" "SDL_HasMMX",
  HookSite.mk "SDL_HasRDTSC_REAL" "SDL_HasRDTSC",
  HookSite.mk "SDL_HasSSE_REAL" "SDL_HasSSE",
  HookSite.mk "SDL_HasSSE2_REAL" "SDL_HasSSE2",
  HookSite.mk "SDL_HasSSE3_REAL" "SDL_HasSSE3",
  HookSite.mk "SDL_HasSSE41_REAL" "SDL_HasSSE41",
  HookSite.mk "SDL_HasSSE42_REAL" "SDL_HasSSE42",
  HookSite.mk "SDL_HasScreenKeyboardSupport_REAL" "SDL_HasScreenKeyboardSupport",
  HookSite.mk "SDL_HideWindow_REAL" "SDL_HideWindow",
  HookSite.mk "SDL_Init_REAL" "SDL_Init",
  HookSite.mk "SDL_InitSubSystem_REAL" "SDL_InitSubSystem",
  HookSite.mk "SDL_IntersectRect_REAL" "SDL_IntersectRect",
  HookSite.mk "SDL_IntersectRectAndLine_REAL" "SDL_IntersectRectAndLine",
  HookSite.mk "SDL_IsGameController_REAL" "SDL_IsGameController",
  HookSite.mk "SDL_IsScreenKeyboardShown_REAL" "SDL_IsScreenKeyboardShown",
  HookSite.mk "SDL_IsScreenSaverEnabled_REAL" "SDL_IsScreenSaverEnabled",
  HookSite.mk "SDL_IsShapedWindow_REAL" "SDL_IsShapedWindow",
  HookSite.mk "SDL_IsTextInputActive_REAL" "SDL_IsTextInputActive",
  HookSite.mk "SDL_JoystickClose_REAL" "SDL_JoystickClose",
  HookSite.mk "SDL_JoystickEventState_REAL" "SDL_JoystickEventState",
  HookSite.mk "SDL_JoystickGetAttached_REAL" "SDL_JoystickGetAttached",
  HookSite.mk "SDL_JoystickGetAxis_REAL" "SDL_JoystickGetAxis",
  HookSite.mk "SDL_JoystickGetBall_REAL" "SDL_JoystickGetBall",
  HookSite.mk "SDL_JoystickGetButton_REAL" "SDL_JoystickGetButton",
  HookSite.mk "SDL_JoystickGetDeviceGUID_REAL" "SDL_JoystickGetDeviceGUID",
  HookSite.mk "SDL_JoystickGetGUID_REAL" "SDL_JoystickGetGUID",
  HookSite.mk "SDL_JoystickGetGUIDFromString_REAL" "SDL_JoystickGetGUIDFromString",
  HookSite.mk "SDL_JoystickGetGUIDString_REAL" "SDL_JoystickGetGUIDString",
  HookSite.mk "SDL_JoystickGetHat_REAL" "SDL_JoystickGetHat",
  HookSite.mk "SDL_JoystickInstanceID_REAL" "SDL_JoystickInstanceID",
  HookSite.mk "SDL_JoystickIsHaptic_REAL" "SDL_JoystickIsHaptic",
  HookSite.mk "SDL_JoystickName_REAL" "SDL_JoystickName",
  HookSite.mk "SDL_JoystickNameForIndex_REAL" "SDL_JoystickNameForIndex",
  HookSite.mk "SDL_JoystickNumAxes_REAL" "SDL_JoystickNumAxes",
  HookSite.mk "SDL_JoystickNumBalls_REAL" "SDL_JoystickNumBalls",
  HookSite.mk "SDL_JoystickNumButtons_REAL" "SDL_JoystickNumButtons",
  HookSite.mk "SDL_JoystickNumHats_REAL" "SDL_JoystickNumHats",
  HookSite.mk "SDL_JoystickOpen_REAL" "SDL_JoystickOpen",
  HookSite.mk "SDL_JoystickUpdate_REAL" "SDL_JoystickUpdate",
  HookSite.mk "SDL_LoadBMP_RW_REAL" "SDL_LoadBMP_RW",
  HookSite.mk "SDL_LoadDollarTemplates_REAL" "SDL_LoadDollarTemplates",
  HookSite.mk "SDL_LoadFunction_REAL" "SDL_LoadFunction",
  HookSite.mk "SDL_LoadObject_REAL" "SDL_LoadObject",
  HookSite.mk "SDL_LoadWAV_RW_REAL" "SDL_LoadWAV_RW",
  HookSite.mk "SDL_LockAudio_REAL" "SDL_LockAudio",
  HookSite.mk "SDL_LockAudioDevice_REAL" "SDL_LockAudioDevice",
  HookSite.mk "SDL_LockMutex_REAL" "SDL_LockMutex",
  HookSite.mk "SDL_LockSurface_REAL" "SDL_LockSurface",
  HookSite.mk "SDL_LockTexture_REAL" "SDL_LockTexture",
  HookSite.mk "SDL_Log_REAL" "ret0",
  HookSite.mk "SDL_LogCritical_REAL" "ret0",
  HookSite.mk "SDL_LogDebug_REAL" "ret0",
  HookSite.mk "SDL_LogError_REAL" "ret0",
  HookSite.mk "SDL_LogGetOutputFunction_REAL" "ret0",
  HookSite.mk "SDL_LogGetPriority_REAL" "ret0",
  HookSite.mk "SDL_LogInfo_REAL" "ret0",
  HookSite.mk "SDL_LogMessage_REAL" "ret0",
  HookSite.mk "SDL_LogMessageV_REAL" "ret0",
  HookSite.mk "SDL_LogResetPriorities_REAL" "ret0",
  HookSite.mk "SDL_LogSetAllPriority_REAL" "ret0",
  HookSite.mk "SDL_LogSetOutputFunction_REAL" "ret0",
  HookSite.mk "SDL_LogSetPriority_REAL" "ret0",
  HookSite.mk "SDL_LogVerbose_REAL" "ret0",
  HookSite.mk "SDL_LogWarn_REAL" "ret0",
  HookSite.mk "SDL_LowerBlit_REAL" "SDL_LowerBlit",
  HookSite.mk "SDL_LowerBlitScaled_REAL" "SDL_LowerBlitScaled",
  HookSite.mk "SDL_MapRGB_REAL" "SDL_MapRGB",
  HookSite.mk "SDL_MapRGBA_REAL" "SDL_MapRGBA",
  HookSite.mk "SDL_MasksToPixelFormatEnum_REAL" "SDL_MasksToPixelFormatEnum",
  HookSite.mk "SDL_MaximizeWindow_REAL" "SDL_MaximizeWindow",
  HookSite.mk "SDL_MinimizeWindow_REAL" "SDL_MinimizeWindow",
  HookSite.mk "SDL_MixAudio_REAL" "SDL_MixAudio",
  HookSite.mk "SDL_MixAudioFormat_REAL" "SDL_MixAudioFormat",
  HookSite.mk "SDL_MouseIsHaptic_REAL" "SDL_MouseIsHaptic",
  HookSite.mk "SDL_NumHaptics_REAL" "SDL_NumHaptics",
  HookSite.mk "SDL_NumJoysticks_REAL" "SDL_NumJoysticks",
  HookSite.mk "SDL_OpenAudio_REAL" "SDL_OpenAudio",
  HookSite.mk "SDL_OpenAudioDevice_REAL" "SDL_OpenAudioDevice",
  HookSite.mk "SDL_PauseAudio_REAL" "SDL_PauseAudio",
  HookSite.mk "SDL_PauseAudioDevice_REAL" "SDL_PauseAudioDevice",
  HookSite.mk "SDL_PeepEvents_REAL" "SDL_PeepEvents",
  HookSite.mk "SDL_PixelFormatEnumToMasks_REAL" "SDL_PixelFormatEnumToMasks",
  HookSite.mk "SDL_PollEvent_REAL" "SDL_PollEvent",
  HookSite.mk "SDL_PumpEvents_REAL" "SDL_PumpEvents",
  HookSite.mk "SDL_PushEvent_REAL" "SDL_PushEvent",
  HookSite.mk "SDL_QueryTexture_REAL" "SDL_QueryTexture",
  HookSite.mk "SDL_Quit_REAL" "SDL_Quit",
  HookSite.mk "SDL_QuitSubSystem_REAL" "SDL_QuitSubSystem",
  HookSite.mk "SDL_RWFromConstMem_REAL" "SDL_RWFromConstMem",
  HookSite.mk "SDL_RWFromFP_REAL" "SDL_RWFromFP",
  HookSite.mk "SDL_RWFromFile_REAL" "SDL_RWFromFile_hook",
  HookSite.mk "SDL_RWFromMem_REAL" "SDL_RWFromMem",
  HookSite.mk "SDL_RaiseWindow_REAL" "SDL_RaiseWindow",
  HookSite.mk "SDL_ReadBE16_REAL" "SDL_ReadBE16",
  HookSite.mk "SDL_ReadBE32_REAL" "SDL_ReadBE32",
  HookSite.mk "SDL_ReadBE64_REAL" "SDL_ReadBE64",
  HookSite.mk "SDL_ReadLE16_REAL" "SDL_ReadLE16",
  HookSite.mk "SDL_ReadLE32_REAL" "SDL_ReadLE32",
  HookSite.mk "SDL_ReadLE64_REAL" "SDL_ReadLE64",
  HookSite.mk "SDL_ReadU8_REAL" "SDL_ReadU8",
  HookSite.mk "SDL_RecordGesture_REAL" "SDL_RecordGesture",
  HookSite.mk "SDL_RegisterEvents_REAL" "SDL_RegisterEvents",
  HookSite.mk "SDL_RemoveTimer_REAL" "SDL_RemoveTimer",
  HookSite.mk "SDL_RenderClear_REAL" "SDL_RenderClear",
  HookSite.mk "SDL_RenderCopy_REAL" "SDL_RenderCopy",
  HookSite.mk "SDL_RenderCopyEx_REAL" "SDL_RenderCopyEx",
  HookSite.mk "SDL_RenderDrawLine_REAL" "SDL_RenderDrawLine",
  HookSite.mk "SDL_RenderDrawLines_REAL" "SDL_RenderDrawLines",
  HookSite.mk "SDL_RenderDrawPoint_REAL" "SDL_RenderDrawPoint",
  HookSite.mk "SDL_RenderDrawPoints_REAL" "SDL_RenderDrawPoints",
  HookSite.mk "SDL_RenderDrawRect_REAL" "SDL_RenderDrawRect",
  HookSite.mk "SDL_RenderDrawRects_REAL" "SDL_RenderDrawRects",
  HookSite.mk "SDL_RenderFillRect_REAL" "SDL_RenderFillRect",
  HookSite.mk "SDL_RenderFillRects_REAL" "SDL_RenderFillRects",
  HookSite.mk "SDL_RenderGetLogicalSize_REAL" "SDL_RenderGetLogicalSize",
  HookSite.mk "SDL_RenderGetScale_REAL" "SDL_RenderGetScale",
  HookSite.mk "SDL_RenderGetViewport_REAL" "SDL_RenderGetViewport",
  HookSite.mk "SDL_RenderPresent_REAL" "SDL_RenderPresent",
  HookSite.mk "SDL_RenderReadPixels_REAL" "SDL_RenderReadPixels",
  HookSite.mk "SDL_RenderSetLogicalSize_REAL" "SDL_RenderSetLogicalSize",
  HookSite.mk "SDL_RenderSetScale_REAL" "SDL_RenderSetScale",
  HookSite.mk "SDL_RenderSetViewport_REAL" "SDL_RenderSetViewport",
  HookSite.mk "SDL_RenderTargetSupported_REAL" "SDL_RenderTargetSupported",
  HookSite.mk "SDL_ResetAssertionReport_REAL" "SDL_ResetAssertionReport",
  HookSite.mk "SDL_RestoreWindow_REAL" "SDL_RestoreWindow",
  HookSite.mk "SDL_SaveAllDollarTemplates_REAL" "SDL_SaveAllDollarTemplates",
  HookSite.mk "SDL_SaveBMP_RW_REAL" "SDL_SaveBMP_RW",
  HookSite.mk "SDL_SaveDollarTemplate_REAL" "SDL_SaveDollarTemplate",
  HookSite.mk "SDL_SemPost_REAL" "SDL_SemPost",
  HookSite.mk "SDL_SemTryWait_REAL" "SDL_SemTryWait",
  HookSite.mk "SDL_SemValue_REAL" "SDL_SemValue",
  HookSite.mk "SDL_SemWait_REAL" "SDL_SemWait",
  HookSite.mk "SDL_SemWaitTimeout_REAL" "SDL_SemWaitTimeout",
  HookSite.mk "SDL_SetAssertionHandler_REAL" "SDL_SetAssertionHandler",
  HookSite.mk "SDL_SetClipRect_REAL" "SDL_SetClipRect",
  HookSite.mk "SDL_SetClipboardText_REAL" "SDL_SetClipboardText",
  HookSite.mk "SDL_SetColorKey_REAL" "SDL_SetColorKey",
  HookSite.mk "SDL_SetCursor_REAL" "SDL_SetCursor",
  HookSite.mk "SDL_SetError_REAL" "SDL_SetError",
  HookSite.mk "SDL_SetEventFilter_REAL" "SDL_SetEventFilter",
  HookSite.mk "SDL_SetHint_REAL" "SDL_SetHint",
  HookSite.mk "SDL_SetHintWithPriority_REAL" "SDL_SetHintWithPriority",
  HookSite.mk "SDL_SetModState_REAL" "SDL_SetModState",
  HookSite.mk "SDL_SetPaletteColors_REAL" "SDL_SetPaletteColors",
  HookSite.mk "SDL_SetPixelFormatPalette_REAL" "SDL_SetPixelFormatPalette",
  HookSite.mk "SDL_SetRelativeMouseMode_REAL" "SDL_SetRelativeMouseMode",
  HookSite.mk "SDL_SetRenderDrawBlendMode_REAL" "SDL_SetRenderDrawBlendMode",
  HookSite.mk "SDL_SetRenderDrawColor_REAL" "SDL_SetRenderDrawColor",
  HookSite.mk "SDL_SetRenderTarget_REAL" "SDL_SetRenderTarget",
  HookSite.mk "SDL_SetSurfaceAlphaMod_REAL" "SDL_SetSurfaceAlphaMod",
  HookSite.mk "SDL_SetSurfaceBlendMode_REAL" "SDL_SetSurfaceBlendMode",
  HookSite.mk "SDL_SetSurfaceColorMod_REAL" "SDL_SetSurfaceColorMod",
  HookSite.mk "SDL_SetSurfacePalette_REAL" "SDL_SetSurfacePalette",
  HookSite.mk "SDL_SetSurfaceRLE_REAL" "SDL_SetSurfaceRLE",
  HookSite.mk "SDL_SetTextInputRect_REAL" "SDL_SetTextInputRect",
  HookSite.mk "SDL_SetTextureAlphaMod_REAL" "SDL_SetTextureAlphaMod",
  HookSite.mk "SDL_SetTextureBlendMode_REAL" "SDL_SetTextureBlendMode",
  HookSite.mk "SDL_SetTextureColorMod_REAL" "SDL_SetTextureColorMod",
  HookSite.mk "SDL_SetThreadPriority_REAL" "SDL_SetThreadPriority",
  HookSite.mk "SDL_SetWindowBordered_REAL" "SDL_SetWindowBordered",
  HookSite.mk "SDL_SetWindowBrightness_REAL" "SDL_SetWindowBrightness",
  HookSite.mk "SDL_SetWindowData_REAL" "SDL_SetWindowData",
  HookSite.mk "SDL_SetWindowDisplayMode_REAL" "SDL_SetWindowDisplayMode",
  HookSite.mk "SDL_SetWindowFullscreen_REAL" "SDL_SetWindowFullscreen",
  HookSite.mk "SDL_SetWindowGammaRamp_REAL" "SDL_SetWindowGammaRamp",
  HookSite.mk "SDL_SetWindowGrab_REAL" "SDL_SetWindowGrab",
  HookSite.mk "SDL_SetWindowIcon_REAL" "SDL_SetWindowIcon",
  HookSite.mk "SDL_SetWindowMaximumSize_REAL" "SDL_SetWindowMaximumSize",
  HookSite.mk "SDL_SetWindowMinimumSize_REAL" "SDL_SetWindowMinimumSize",
  HookSite.mk "SDL_SetWindowPosition_REAL" "SDL_SetWindowPosition",
  HookSite.mk "SDL_SetWindowShape_REAL" "SDL_SetWindowShape",
  HookSite.mk "SDL_SetWindowSize_REAL" "SDL_SetWindowSize",
  HookSite.mk "SDL_SetWindowTitle_REAL" "SDL_SetWindowTitle",
  HookSite.mk "SDL_ShowCursor_REAL" "SDL_ShowCursor",
  HookSite.mk "SDL_ShowMessageBox_REAL" "SDL_ShowMessageBox",
  HookSite.mk "SDL_ShowSimpleMessageBox_REAL" "SDL_ShowSimpleMessageBox",
  HookSite.mk "SDL_ShowWindow_REAL" "SDL_ShowWindow",
  HookSite.mk "SDL_SoftStretch_REAL" "SDL_SoftStretch",
  HookSite.mk "SDL_StartTextInput_REAL" "SDL_StartTextInput",
  HookSite.mk "SDL_StopTextInput_REAL" "SDL_StopTextInput",
  HookSite.mk "SDL_ThreadID_REAL" "SDL_ThreadID",
  HookSite.mk "SDL_TryLockMutex_REAL" "SDL_TryLockMutex",
  HookSite.mk "SDL_UnionRect_REAL" "SDL_UnionRect",
  HookSite.mk "SDL_UnloadObject_REAL" "SDL_UnloadObject",
  HookSite.mk "SDL_UnlockAudio_REAL" "SDL_UnlockAudio",
  HookSite.mk "SDL_UnlockAudioDevice_REAL" "SDL_UnlockAudioDevice",
  HookSite.mk "SDL_UnlockMutex_REAL" "SDL_UnlockMutex",
  HookSite.mk "SDL_UnlockSurface_REAL" "SDL_UnlockSurface",
  HookSite.mk "SDL_UnlockTexture_REAL" "SDL_UnlockTexture",
  HookSite.mk "SDL_UpdateTexture_REAL" "SDL_UpdateTexture",
  HookSite.mk "SDL_UpdateWindowSurface_REAL" "SDL_UpdateWindowSurface",
  HookSite.mk "SDL_UpdateWindowSurfaceRects_REAL" "SDL_UpdateWindowSurfaceRects",
  HookSite.mk "SDL_UpperBlit_REAL" "SDL_UpperBlit",
  HookSite.mk "SDL_UpperBlitScaled_REAL" "SDL_UpperBlitScaled",
  HookSite.mk "SDL_VideoInit_REAL" "SDL_VideoInit",
  HookSite.mk "SDL_VideoQuit_REAL" "SDL_VideoQuit",
  HookSite.mk "SDL_WaitEvent_REAL" "SDL_WaitEvent",
  HookSite.mk "SDL_WaitEventTimeout_REAL" "SDL_WaitEventTimeout",
  HookSite.mk "SDL_WaitThread_REAL" "SDL_WaitThread",
  HookSite.mk "SDL_WarpMouseInWindow_REAL" "SDL_WarpMouseInWindow",
  HookSite.mk "SDL_WasInit_REAL" "SDL_WasInit",
  HookSite.mk "SDL_WriteBE16_REAL" "SDL_WriteBE16",
  HookSite.mk "SDL_WriteBE32_REAL" "SDL_WriteBE32",
  HookSite.mk "SDL_WriteBE64_REAL" "SDL_WriteBE64",
  HookSite.mk "SDL_WriteLE16_REAL" "SDL_WriteLE16",
  HookSite.mk "SDL_WriteLE32_REAL" "SDL_WriteLE32",
  HookSite.mk "SDL_WriteLE64_REAL" "SDL_WriteLE64",
  HookSite.mk "SDL_WriteU8_REAL" "SDL_WriteU8",
  HookSite.mk "SDL_abs_REAL" "SDL_abs",
  HookSite.mk "SDL_atof_REAL" "SDL_atof",
  HookSite.mk "SDL_atoi_REAL" "SDL_atoi",
  HookSite.mk "SDL_calloc_REAL" "SDL_calloc",
  HookSite.mk "SDL_ceil_REAL" "SDL_ceil",
  HookSite.mk "SDL_cosf_REAL" "SDL_cosf",
  HookSite.mk "SDL_free_REAL" "SDL_free",
  HookSite.mk "SDL_getenv_REAL" "SDL_getenv",
  HookSite.mk "SDL_iconv_REAL" "SDL_iconv",
  HookSite.mk "SDL_iconv_close_REAL" "SDL_iconv_close",
  HookSite.mk "SDL_iconv_open_REAL" "SDL_iconv_open",
  HookSite.mk "SDL_iconv_string_REAL" "SDL_iconv_string",
  HookSite.mk "SDL_isdigit_REAL" "SDL_isdigit",
  HookSite.mk "SDL_isspace_REAL" "SDL_isspace",
  HookSite.mk "SDL_itoa_REAL" "SDL_itoa",
  HookSite.mk "SDL_lltoa_REAL" "SDL_lltoa",
  HookSite.mk "SDL_ltoa_REAL" "SDL_ltoa",
  HookSite.mk "SDL_malloc_REAL" "SDL_malloc",
  HookSite.mk "SDL_memcmp_REAL" "SDL_memcmp",
  HookSite.mk "SDL_memcpy_REAL" "SDL_memcpy",
  HookSite.mk "SDL_memmove_REAL" "SDL_memmove",
  HookSite.mk "SDL_memset_REAL" "SDL_memset",
  HookSite.mk "SDL_qsort_REAL" "SDL_qsort",
  HookSite.mk "SDL_realloc_REAL" "SDL_realloc",
  HookSite.mk "SDL_setenv_REAL" "SDL_setenv",
  HookSite.mk "SDL_sinf_REAL" "SDL_sinf",
  HookSite.mk "SDL_snprintf_REAL" "SDL_snprintf",
  HookSite.mk "SDL_sscanf_REAL" "SDL_sscanf",
  HookSite.mk "SDL_strcasecmp_REAL" "SDL_strcasecmp",
  HookSite.mk "SDL_strchr_REAL" "SDL_strchr",
  HookSite.mk "SDL_strcmp_REAL" "SDL_strcmp",
  HookSite.mk "SDL_strdup_REAL" "SDL_strdup",
  HookSite.mk "SDL_strlcat_REAL" "SDL_strlcat",
  HookSite.mk "SDL_strlcpy_REAL" "SDL_strlcpy",
  HookSite.mk "SDL_strlen_REAL" "SDL_strlen",
  HookSite.mk "SDL_strlwr_REAL" "SDL_strlwr",
  HookSite.mk "SDL_strncasecmp_REAL" "SDL_strncasecmp",
  HookSite.mk "SDL_strncmp_REAL" "SDL_strncmp",
  HookSite.mk "SDL_strrchr_REAL" "SDL_strrchr",
  HookSite.mk "SDL_strrev_REAL" "SDL_strrev",
  HookSite.mk "SDL_strstr_REAL" "SDL_strstr",
  HookSite.mk "SDL_strtod_REAL" "SDL_strtod",
  HookSite.mk "SDL_strtol_REAL" "SDL_strtol",
  HookSite.mk "SDL_strtoll_REAL" "SDL_strtoll",
  HookSite.mk "SDL_strtoul_REAL" "SDL_strtoul",
  HookSite.mk "SDL_strtoull_REAL" "SDL_strtoull",
  HookSite.mk "SDL_strupr_REAL" "SDL_strupr",
  HookSite.mk "SDL_tolower_REAL" "SDL_tolower",
  HookSite.mk "SDL_toupper_REAL" "SDL_toupper",
  HookSite.mk "SDL_uitoa_REAL" "SDL_uitoa",
  HookSite.mk "SDL_ulltoa_REAL" "SDL_ulltoa",
  HookSite.mk "SDL_ultoa_REAL" "SDL_ultoa",
  HookSite.mk "SDL_utf8strlcpy_REAL" "SDL_utf8strlcpy",
  HookSite.mk "SDL_vsnprintf_REAL" "SDL_vsnprintf",
  HookSite.mk "SDL_wcslcat_REAL" "SDL_wcslcat",
  HookSite.mk "SDL_wcslcpy_REAL" "SDL_wcslcpy",
  HookSite.mk "SDL_wcslen_REAL" "SDL_wcslen"]

/-- A call made by the host program. Calls into the platform SDK and libc that
take no part in loading are recorded by name only. -/
inductive Call where
  | platform (name : String)
  | sceIoGetstat (path : String)
  | fatal_error (fmt : String)
  | so_file_load (fname : String)
  | so_relocate
  | so_resolve (dynlib : List so_default_dynlib) (default_dynlib_only : Nat)
  | so_symbol (name : String)
  | hook_addr (addr : Nat) (dst : String)
  | so_flush_caches
  | so_initialize
  | pthread_create (start_routine : String)
  | pthread_join (start_routine : String)
  | call_module (addr : Nat)
deriving DecidableEq, Repr

/-- What the calls main depends on return in one execution. -/
structure Env where
  /-- Value of eventParam.type after sceAppUtilReceiveAppEvent -/
  eventType : Nat
  /-- Result of _vshKernelSearchModuleByName("kubridge", ...) -/
  vshKernelSearchModuleByName : Int
  /-- Result of sceIoGetstat for each path -/
  sceIoGetstat : String → Int
  /-- Result of so_file_load -/
  so_file_load : Int
  /-- Result of so_relocate -/
  so_relocate : Int
  /-- Result of so_resolve -/
  so_resolve : Int
  /-- Result of so_symbol on thimbleweed_mod for each name; 0 is not found -/
  so_symbol : String → Nat

/-- Source: `return sceIoGetstat(path, &stat) >= 0;` -/
def file_exists (e : Env) (path : String) : Bool :=
  decide (0 ≤ e.sceIoGetstat path)

/-- Source: `return _vshKernelSearchModuleByName("kubridge", search_unk);` -/
def check_kubridge (e : Env) : Int :=
  e.vshKernelSearchModuleByName

/-- Calls of one `hook_addr(so_symbol(&thimbleweed_mod, symbol), dst)` statement:
the argument is evaluated first and its value passed on unchanged. -/
def hook_site (e : Env) (h : HookSite) : List Call :=
  [Call.so_symbol h.symbol, Call.hook_addr (e.so_symbol h.symbol) h.dst]

/-- Calls of patch_game (lines 1670-3075). -/
def patch_game (e : Env) : List Call :=
  hook_site e dataFromFilename_site ++
  [Call.so_symbol "_Z18GGLoadDataFromFileP8GGStringPKhyyj"] ++
  patch_game_table.flatMap (hook_site e)

/-- Calls of pthread_main (lines 3087-3096): the thread that enters the module
at SDL_main. -/
def pthread_main (e : Env) : List Call :=
  [Call.platform "SDL_setenv", Call.so_symbol "SDL_main",
   Call.call_module (e.so_symbol "SDL_main")]

/-- Calls of main up to the prerequisite checks (lines 3103-3122). -/
def main_bootstrap (e : Env) : List Call :=
  [Call.platform "sceAppUtilInit", Call.platform "sceClibMemset",
   Call.platform "sceAppUtilReceiveAppEvent"] ++
  (if e.eventType = 5 then
    [Call.platform "sceAppUtilAppEventParseLiveArea", Call.platform "strstr"]
   else []) ++
  [Call.platform "sceTouchSetSamplingState", Call.platform "sceTouchSetSamplingState",
   Call.platform "scePowerSetArmClockFrequency", Call.platform "scePowerSetBusClockFrequency",
   Call.platform "scePowerSetGpuClockFrequency", Call.platform "scePowerSetGpuXbarClockFrequency"]

/-- Calls of main after a successful so_file_load (lines 3137-3206). -/
def main_loaded (e : Env) : List Call :=
  [Call.so_relocate, Call.so_resolve default_dynlib 0,
   Call.platform "vglUseTripleBuffering", Call.platform "vglSetParamBufferSize",
   Call.platform "vglSetSemanticBindingMode", Call.platform "vglInitWithCustomThreshold"] ++
  patch_game e ++
  [Call.so_flush_caches, Call.so_initialize,
   Call.platform "memset", Call.platform "memset",
   Call.platform "pthread_attr_init", Call.platform "pthread_attr_setstacksize",
   Call.pthread_create "mem_manager",
   Call.platform "pthread_attr_init", Call.platform "pthread_attr_setstacksize",
   Call.pthread_create "pthread_main",
   Call.pthread_join "pthread_main"]

/-- Modelled from the spec: fatal_error is declared in main.h and defined
outside src/. It reports the error and ends the process ("every phase fails
fast and aborts the load"), so it does not return: of the calls `rest` that
follow the statement in the source, none is made. -/
def fatal_error (fmt : String) (_ : List Call) : List Call :=
  [Call.fatal_error fmt]

/-- Calls of main from line 3130 on: the file name is formatted and the module
loaded; `if (so_file_load(...) < 0) fatal_error(...);` guards what follows. -/
def main_load (e : Env) : List Call :=
  Call.platform "sprintf" :: Call.platform "printf" :: Call.platform "sprintf" ::
  Call.so_file_load "ux0:data/thimbleweed/libThimbleweedPark.so" ::
  if e.so_file_load < 0 then fatal_error "Error could not load %s." (main_loaded e)
  else main_loaded e

/-- Calls of main from line 3127 on. In
`!file_exists(a) && !file_exists(b)` the second test is made only when the
first file is missing. -/
def main_prerequisite (e : Env) : List Call :=
  Call.sceIoGetstat "ur0:/data/libshacccg.suprx" ::
  if file_exists e "ur0:/data/libshacccg.suprx" then main_load e
  else
    Call.sceIoGetstat "ur0:/data/external/libshacccg.suprx" ::
    if file_exists e "ur0:/data/external/libshacccg.suprx" then main_load e
    else fatal_error "Error libshacccg.suprx is not installed." (main_load e)

/-- Calls of main (lines 3098-3207), in order, as determined by the results
in e. -/
def main (e : Env) : List Call :=
  main_bootstrap e ++ Call.platform "_vshKernelSearchModuleByName" ::
  if check_kubridge e < 0 then
    fatal_error "Error kubridge.skprx is not installed." (main_prerequisite e)
  else main_prerequisite e

/-- All hook sites of patch_game, in source order. -/
def patch_game_sites : List HookSite :=
  dataFromFilename_site :: patch_game_table

/-- The so_file_load statement of main, line 3135, with fname as formatted at
line 3134 from data_path. -/
def load_call : Call :=
  Call.so_file_load "ux0:data/thimbleweed/libThimbleweedPark.so"

/-- The so_resolve statement of main, line 3138. -/
def resolve_call : Call :=
  Call.so_resolve default_dynlib 0

/-- Calls of the platform SDK and libc made before the module is loaded. -/
def Call.isPrelude : Call → Bool
  | .platform _ => true
  | .sceIoGetstat _ => true
  | _ => false

/-- The two calls patch_game makes. -/
def Call.isPatchCall : Call → Bool
  | .so_symbol _ => true
  | .hook_addr _ _ => true
  | _ => false

/-- A call of hook_addr, whatever its arguments. -/
def Call.isHook : Call → Bool
  | .hook_addr _ _ => true
  | _ => false

/-- A call of so_file_load, whatever the file name. -/
def Call.is_so_file_load : Call → Bool
  | .so_file_load _ => true
  | _ => false

/-- A call of so_resolve, whatever the table handed over. -/
def Call.is_so_resolve : Call → Bool
  | .so_resolve _ _ => true
  | _ => false

/-- A call of pthread_create, whatever the start routine. -/
def Call.isThreadCreate : Call → Bool
  | .pthread_create _ => true
  | _ => false

/-- A call into the code of the loaded module, whatever the address. -/
def Call.isModuleCall : Call → Bool
  | .call_module _ => true
  | _ => false

/-- One of the five load-phase operations of so_util, whatever its arguments. -/
def Call.isLoaderOp : Call → Bool
  | .so_file_load _ => true
  | .so_relocate => true
  | .so_resolve _ _ => true
  | .so_flush_caches => true
  | Call.so_initialize => true
  | _ => false

/-- The conditions under which main gets past line 3136: kubridge is present,
one of the two libshacccg.suprx files exists, and so_file_load did not return
a negative value. -/
def loaded (e : Env) : Prop :=
  ¬ check_kubridge e < 0 ∧
  (file_exists e "ur0:/data/libshacccg.suprx" = true ∨
    file_exists e "ur0:/data/external/libshacccg.suprx" = true) ∧
  ¬ e.so_file_load < 0

/-- An execution in which every prerequisite is met and every loader call
reports success, every symbol being found at address 0x98000001. -/
def env_ok : Env :=
  { eventType := 0, vshKernelSearchModuleByName := 0, sceIoGetstat := fun _ => 0,
    so_file_load := 0, so_relocate := 0, so_resolve := 0,
    so_symbol := fun _ => 0x98000001 }

/-- As env_ok, but so_resolve reports a failure. -/
def env_unresolved : Env :=
  { env_ok with so_resolve := -1 }

/-- As env_ok, but so_relocate reports a failure. -/
def env_relocate_failed : Env :=
  { env_ok with so_relocate := -1 }

/-- As env_ok, but so_file_load returns a negative value. -/
def env_load_failed : Env :=
  { env_ok with so_file_load := -1 }

/-- As env_ok, but no symbol is found in the module: so_symbol returns 0 for
every name. -/
def env_no_symbols : Env :=
  { env_ok with so_symbol := fun _ => 0 }

/-- Modelled from the spec: the relocator (so_relocate, defined with so_util
outside main.c) is not under src/. Section 4.4 names the kinds of relocation
the claims are about: Absolute and Relative/PC-relative. -/
inductive RelocKind where
  | absolute
  | pc_relative
deriving DecidableEq, Repr

/-- Modelled from the spec: an entry of relocation_list (section 3),
{target_virtual_address, kind, referenced_symbol_or_addend}; so_relocate is not
under src/. The referenced symbol is given by its virtual offset. -/
structure Relocation where
  target_virtual_address : Nat
  kind : RelocKind
  symbol_virtual_address : Nat
  addend : Nat
deriving DecidableEq, Repr

/-- Subtraction of 32-bit words, wrapping around. -/
def sub32 (x y : Nat) : Nat :=
  (x % 2 ^ 32 + (2 ^ 32 - y % 2 ^ 32)) % 2 ^ 32

/-- Modelled from the spec: the value a relocation writes (section 4.4;
so_relocate is not under src/). Absolute: "write base_address +
symbol_virtual_address (+ addend)". Relative/PC-relative: "write the same target
value minus the slot's own final address". Values are 32-bit words. -/
def reloc_value (base_address : Nat) (r : Relocation) : Nat :=
  match r.kind with
  | .absolute => (base_address + r.symbol_virtual_address + r.addend) % 2 ^ 32
  | .pc_relative =>
    sub32 (base_address + r.symbol_virtual_address + r.addend)
      (base_address + r.target_virtual_address)

/-- Modelled from the spec: applying one relocation patches the 32-bit slot at
base_address + target_virtual_address of the mapped image (section 4.4;
so_relocate is not under src/). Memory maps an address to the word stored
there. -/
def apply_relocation (base_address : Nat) (mem : Nat → Nat) (r : Relocation) : Nat → Nat :=
  fun addr => if addr = base_address + r.target_virtual_address then reloc_value base_address r
    else mem addr

/-- The prerequisite checks of main, lines 3124-3128: kubridge is present and
one of the two libshacccg.suprx files exists. -/
def prerequisites (e : Env) : Prop :=
  0 ≤ check_kubridge e ∧
  (file_exists e "ur0:/data/libshacccg.suprx" = true ∨
    file_exists e "ur0:/data/external/libshacccg.suprx" = true)

/-- As env_ok, but kubridge is not installed. -/
def env_no_kubridge : Env :=
  { env_ok with vshKernelSearchModuleByName := -1 }

/-- Calls of one pass through the loop body of mem_manager (lines 3080-3083),
given the address held by PurgeCache and the number of bytes that
vglMemFree(VGL_MEM_SLOW) returns in this pass. -/
def mem_manager_iteration (PurgeCache : Nat) (vglMemFree : Nat) : List Call :=
  Call.platform "vglMemFree" ::
  ((if vglMemFree < 22 * 1024 * 1024 then [Call.call_module PurgeCache] else []) ++
    [Call.platform "sceKernelDelayThread"])

/-- Calls of mem_manager (lines 3077-3085) up to the end of its n-th pass
through the loop `for (;;)`, which never ends: the purge routine is looked up
once, then pass i runs with vglMemFree i as the free memory reported. -/
def mem_manager (e : Env) (vglMemFree : Nat → Nat) (n : Nat) : List Call :=
  Call.so_symbol "_ZN9GameScene12appLowMemoryEv" ::
  (List.range n).flatMap
    (fun i => mem_manager_iteration (e.so_symbol "_ZN9GameScene12appLowMemoryEv")
      (vglMemFree i))

/-- Bytes of a string literal of the source, one per character (the literals
used are ASCII). A C string is given by its bytes before the terminating NUL,
so 0 does not occur in it. -/
def cstr (s : String) : List Nat :=
  s.toList.map Char.toNat

/-- C strcmp on NUL-terminated strings given by their bytes: the end of a list
is the terminator, and the comparison stops at the first difference or at a
NUL. Only whether the result is 0 matters to the callers. -/
def strcmp : List Nat → List Nat → Int
  | [], [] => 0
  | [], b :: _ => -(b : Int)
  | a :: _, [] => (a : Int)
  | a :: s₁, b :: s₂ =>
    if a ≠ b then (a : Int) - (b : Int)
    else if a = 0 then 0
    else strcmp s₁ s₂

/-- The table gl_hook, lines 617-619. -/
def gl_hook : List so_default_dynlib :=
  [so_default_dynlib.mk "glPixelStorei" "ret0"]

/-- The loop of SDL_GL_GetProcAddress_fake over gl_hook (lines 624-628): the
first entry whose symbol compares equal decides. -/
def gl_hook_find (addr_of : String → Nat) (symbol : List Nat) :
    List so_default_dynlib → Option Nat
  | [] => none
  | h :: rest =>
    if strcmp symbol (cstr h.symbol) = 0 then some (addr_of h.func)
    else gl_hook_find addr_of symbol rest

/-- SDL_GL_GetProcAddress_fake (lines 622-634): the value returned and the
calls made. addr_of gives the address of a host function, vglGetProcAddress the
result of the library lookup (0 is NULL); dlog expands to nothing. -/
def SDL_GL_GetProcAddress_fake (addr_of : String → Nat)
    (vglGetProcAddress : List Nat → Nat) (symbol : List Nat) : Nat × List Call :=
  match gl_hook_find addr_of symbol gl_hook with
  | some f => (f, [])
  | none => (vglGetProcAddress symbol, [Call.platform "vglGetProcAddress"])

/-- C strncmp on NUL-terminated strings given by their bytes: as strcmp, but at
most n bytes are compared. -/
def strncmp : List Nat → List Nat → Nat → Int
  | _, _, 0 => 0
  | [], [], _ + 1 => 0
  | [], b :: _, _ + 1 => -(b : Int)
  | a :: _, [], _ + 1 => (a : Int)
  | a :: s₁, b :: s₂, n + 1 =>
    if a ≠ b then (a : Int) - (b : Int)
    else if a = 0 then 0
    else strncmp s₁ s₂ n

/-- The static initialisers of pthread.h that init_static_mutex and
init_static_cond copy into a fresh object; their contents are not under src/
and are not needed: only which one is copied matters. -/
inductive PthreadInitializer where
  | PTHREAD_MUTEX_INITIALIZER
  | PTHREAD_RECURSIVE_MUTEX_INITIALIZER
  | PTHREAD_ERRORCHECK_MUTEX_INITIALIZER
  | PTHREAD_COND_INITIALIZER
deriving DecidableEq, Repr

/-- Calls made by the pthread wrappers of lines 174-367, with the pointer
arguments that matter (0 is NULL). -/
inductive PthreadCall where
  | calloc (result : Nat)
  | sceClibMemcpy (dest : Nat) (src : PthreadInitializer)
  | pthread_cond_signal (cond : Nat)
  | pthread_cond_broadcast (cond : Nat)
  | pthread_cond_wait (cond mutex : Nat)
  | pthread_cond_timedwait (cond mutex abstime : Nat)
  | pthread_mutex_lock (mutex : Nat)
  | pthread_mutex_trylock (mutex : Nat)
deriving DecidableEq, Repr

/-- The cast `(int)` of a 32-bit pointer value. -/
def int_of_pointer (p : Nat) : Int :=
  if p % 2 ^ 32 < 2 ^ 31 then (p % 2 ^ 32 : Nat) else ((p % 2 ^ 32 : Nat) : Int) - 2 ^ 32

/-- init_static_mutex (lines 174-203): the value left in *mutex and the calls
made, given the value *mutex holds and the address calloc returns if it is
called. The switch selects on MUTEX_TYPE_NORMAL 0x0000, MUTEX_TYPE_RECURSIVE
0x4000 and MUTEX_TYPE_ERRORCHECK 0x8000. -/
def init_static_mutex (calloc : Nat) (mutex : Nat) : Nat × List PthreadCall :=
  if int_of_pointer mutex = 0x0000 then
    (calloc, [PthreadCall.calloc calloc,
      PthreadCall.sceClibMemcpy calloc PthreadInitializer.PTHREAD_MUTEX_INITIALIZER])
  else if int_of_pointer mutex = 0x4000 then
    (calloc, [PthreadCall.calloc calloc,
      PthreadCall.sceClibMemcpy calloc PthreadInitializer.PTHREAD_RECURSIVE_MUTEX_INITIALIZER])
  else if int_of_pointer mutex = 0x8000 then
    (calloc, [PthreadCall.calloc calloc,
      PthreadCall.sceClibMemcpy calloc PthreadInitializer.PTHREAD_ERRORCHECK_MUTEX_INITIALIZER])
  else (mutex, [])

/-- init_static_cond (lines 205-213): the value left in *cond and the calls
made. -/
def init_static_cond (calloc : Nat) (cond : Nat) : Nat × List PthreadCall :=
  if cond = 0 then
    (calloc, [PthreadCall.calloc calloc,
      PthreadCall.sceClibMemcpy calloc PthreadInitializer.PTHREAD_COND_INITIALIZER])
  else (cond, [])

/-- pthread_cond_signal_soloader (lines 261-265): the value left in *cond and
the calls made. -/
def pthread_cond_signal_soloader (calloc : Nat) (cond : Nat) : Nat × List PthreadCall :=
  let c := init_static_cond calloc cond
  (c.1, c.2 ++ [PthreadCall.pthread_cond_signal c.1])

/-- pthread_cond_timedwait_soloader (lines 267-274): the values left in *cond
and *mutex and the calls made; calloc₁ and calloc₂ are the addresses the first
and the second calloc call would return. -/
def pthread_cond_timedwait_soloader (calloc₁ calloc₂ : Nat) (cond mutex abstime : Nat) :
    Nat × Nat × List PthreadCall :=
  let c := init_static_cond calloc₁ cond
  let m := init_static_mutex (if cond = 0 then calloc₂ else calloc₁) mutex
  (c.1, m.1, c.2 ++ m.2 ++ [PthreadCall.pthread_cond_timedwait c.1 m.1 abstime])

/-- pthread_cond_wait_soloader (lines 359-362): the values left in *cond and
*mutex and the calls made. -/
def pthread_cond_wait_soloader (cond mutex : Nat) : Nat × Nat × List PthreadCall :=
  (cond, mutex, [PthreadCall.pthread_cond_wait cond mutex])

/-- pthread_cond_broadcast_soloader (lines 364-367): the value left in *cond
and the calls made. -/
def pthread_cond_broadcast_soloader (cond : Nat) : Nat × List PthreadCall :=
  (cond, [PthreadCall.pthread_cond_broadcast cond])

/-- pthread_mutex_lock_soloader (lines 337-341). -/
def pthread_mutex_lock_soloader (calloc : Nat) (mutex : Nat) : Nat × List PthreadCall :=
  let m := init_static_mutex calloc mutex
  (m.1, m.2 ++ [PthreadCall.pthread_mutex_lock m.1])

/-- pthread_mutex_trylock_soloader (lines 343-347). -/
def pthread_mutex_trylock_soloader (calloc : Nat) (mutex : Nat) : Nat × List PthreadCall :=
  let m := init_static_mutex calloc mutex
  (m.1, m.2 ++ [PthreadCall.pthread_mutex_trylock m.1])

/-- Modelled from the spec: a segment of the image, "(file_offset,
virtual_offset, size, permissions)" of section 3; so_file_load, which parses
and maps the image, is not under src/. The size is given as the size in the
file and the size in memory that section 4.2 tells apart; the permissions play
no part in copying. -/
structure Segment where
  file_offset : Nat
  virtual_offset : Nat
  file_size : Nat
  mem_size : Nat
deriving DecidableEq, Repr

/-- Modelled from the spec: the Memory Mapper of section 4.2 on one segment
(so_file_load is not under src/): "copy each segment's file bytes to
base_address + virtual_offset, zero-filling any gap between a segment's file
size and its (larger) memory size". Memory maps an address to the byte stored
there; image is the file's bytes. -/
def map_segment (image : List Nat) (base_address : Nat) (mem : Nat → Nat) (s : Segment) :
    Nat → Nat :=
  fun addr =>
    if base_address + s.virtual_offset ≤ addr ∧
        addr < base_address + s.virtual_offset + s.file_size then
      image.getD (s.file_offset + (addr - (base_address + s.virtual_offset))) 0
    else if base_address + s.virtual_offset + s.file_size ≤ addr ∧
        addr < base_address + s.virtual_offset + s.mem_size then 0
    else mem addr

/-- Modelled from the spec: the Memory Mapper of section 4.2 on the whole
image (so_file_load is not under src/): the segments are mapped one after the
other, in their order, into the region reserved at base_address. -/
def map_image (image : List Nat) (base_address : Nat) (segments : List Segment)
    (mem : Nat → Nat) : Nat → Nat :=
  segments.foldl (map_segment image base_address) mem

/-- Modelled from the spec: a well-formed image (sections 3 and 4.2;
so_file_load is not under src/): every segment's file range lies inside the
file, its memory size is at least its file size, and the segments are "mapped
at increasing virtual offsets" without overlap. -/
def well_formed (image : List Nat) (segments : List Segment) : Prop :=
  (∀ s ∈ segments,
    s.file_offset + s.file_size ≤ image.length ∧ s.file_size ≤ s.mem_size) ∧
  segments.Pairwise (fun a b => a.virtual_offset + a.mem_size ≤ b.virtual_offset)

instance (image : List Nat) (segments : List Segment) : Decidable (well_formed image segments) := by
  unfold well_formed
  infer_instance

/-- An image of six bytes in two segments: two file bytes padded to four in
memory at offset 0, three file bytes at offset 0x10. -/
def image_example : List Nat × List Segment :=
  ([1, 2, 3, 4, 5, 6], [Segment.mk 0 0 2 4, Segment.mk 2 0x10 3 3])

/-- Modelled from the spec: what runs when an address of the mapped module is
called (hook_addr and SO_CONTINUE belong to so_util, which is not under src/):
the body the module has at an address, or a host function named as in
main.c. -/
inductive Routine where
  | body (addr : Nat)
  | host (name : String)
deriving DecidableEq, Repr

/-- Modelled from the spec: the Hook of section 3,
{symbol_name, original_address, replacement_address, trampoline_address}, as
far as a caller can tell (so_hook is declared in so_util.h, not under src/):
the patched address and the routine reached through the trampoline. -/
structure so_hook where
  addr : Nat
  trampoline : Routine
deriving DecidableEq, Repr

/-- Modelled from the spec: hook_addr (so_util, not under src/), section 4.6:
"the original call site is patched to a jump/branch to replacement", and the
trampoline is such "that code calling through the trampoline observes the
pre-hook behavior". code tells which routine a call to an address runs. -/
def hook_addr (code : Nat → Routine) (addr : Nat) (dst : String) :
    (Nat → Routine) × so_hook :=
  (fun a => if a = addr then Routine.host dst else code a,
   so_hook.mk addr (code addr))

/-- Modelled from the spec: SO_CONTINUE (a macro of so_util.h, not under
src/): the call through the trampoline of a hook. run gives the result of
running a routine on arguments; the result is returned together with the
routine invoked and what it was invoked on. -/
def SO_CONTINUE (run : Routine → List Nat → Nat) (h : so_hook) (args : List Nat) :
    Nat × List (Routine × List Nat) :=
  (run h.trampoline args, [(h.trampoline, args)])

/-- dataFromFilename (lines 1662-1668): the value returned and the routines
invoked. this4 holds the bytes of the string that this[4] points to when it is
read, after the call through the hook. -/
def dataFromFilename (run : Routine → List Nat → Nat) (dataFromFilename_hook : so_hook)
    (GGLoadDataFromFile : Routine) (this a1 a2 : Nat) (this4 : List Nat) :
    Nat × List (Routine × List Nat) :=
  let ret := SO_CONTINUE run dataFromFilename_hook [this, a1, a2]
  if this ≠ 0 ∧
      strncmp this4 (cstr "ux0:/data/Terrible Toybox/Thimbleweed Park/Savegame")
        (cstr "ux0:/data/Terrible Toybox/Thimbleweed Park/Savegame").length = 0 then
    (run GGLoadDataFromFile [this, 0, 0xFFFFFFFFFFFFFFFF, 0xFFFFFFFFFFFFFFFF, 0],
      ret.2 ++ [(GGLoadDataFromFile, [this, 0, 0xFFFFFFFFFFFFFFFF, 0xFFFFFFFFFFFFFFFF, 0])])
  else ret

/-- Enumerator UNKNOWN of `enum MethodIDs`, lines 1407-1411. -/
def UNKNOWN : Int := 0

/-- Enumerator INIT of `enum MethodIDs`. -/
def INIT : Int := 1

/-- Enumerator GET_LANGUAGE of `enum MethodIDs`. -/
def GET_LANGUAGE : Int := 2

/-- The struct NameToMethodID, lines 1413-1416. -/
structure NameToMethodID where
  name : String
  id : Int
deriving DecidableEq, Repr

/-- The table name_to_method_ids, lines 1418-1421. -/
def name_to_method_ids : List NameToMethodID :=
  [NameToMethodID.mk "<init>" INIT, NameToMethodID.mk "getLanguage" GET_LANGUAGE]

/-- The loop of GetMethodID and GetStaticMethodID over name_to_method_ids
(lines 1426-1430 and 1438-1441): the id of the first entry whose name compares
equal, if there is one. -/
def method_id_find (name : List Nat) : List NameToMethodID → Option Int
  | [] => none
  | m :: rest =>
    if strcmp name (cstr m.name) = 0 then some m.id else method_id_find name rest

/-- GetMethodID (lines 1423-1433): the value returned and the calls made. -/
def GetMethodID (_env _clazz : Nat) (name _sig : List Nat) : Int × List Call :=
  match method_id_find name name_to_method_ids with
  | some id => (id, [Call.platform "printf"])
  | none => (UNKNOWN, [Call.platform "printf"])

/-- GetStaticMethodID (lines 1435-1444): the value returned and the calls
made. -/
def GetStaticMethodID (_env _clazz : Nat) (name _sig : List Nat) : Int × List Call :=
  match method_id_find name name_to_method_ids with
  | some id => (id, [Call.platform "printf"])
  | none => (UNKNOWN, [Call.platform "printf"])

/-- The language constants of the platform SDK that CallObjectMethodV switches
on. Their header is not under src/, so their values are parameters; as labels
of one switch they are distinct. -/
structure SceSystemParamLang where
  SCE_SYSTEM_PARAM_LANG_FRENCH : Int
  SCE_SYSTEM_PARAM_LANG_SPANISH : Int
  SCE_SYSTEM_PARAM_LANG_GERMAN : Int
  SCE_SYSTEM_PARAM_LANG_ITALIAN : Int
  SCE_SYSTEM_PARAM_LANG_RUSSIAN : Int

/-- The five labels of the inner switch of CallObjectMethodV. -/
def SceSystemParamLang.labels (k : SceSystemParamLang) : List Int :=
  [k.SCE_SYSTEM_PARAM_LANG_FRENCH, k.SCE_SYSTEM_PARAM_LANG_SPANISH,
   k.SCE_SYSTEM_PARAM_LANG_GERMAN, k.SCE_SYSTEM_PARAM_LANG_ITALIAN,
   k.SCE_SYSTEM_PARAM_LANG_RUSSIAN]

/-- The values the constants have in the platform SDK. -/
def vitasdk_lang : SceSystemParamLang :=
  { SCE_SYSTEM_PARAM_LANG_FRENCH := 2, SCE_SYSTEM_PARAM_LANG_SPANISH := 3,
    SCE_SYSTEM_PARAM_LANG_GERMAN := 4, SCE_SYSTEM_PARAM_LANG_ITALIAN := 5,
    SCE_SYSTEM_PARAM_LANG_RUSSIAN := 8 }

/-- What CallObjectMethodV returns: the address of a string literal of the
source, or a constant cast to a pointer. -/
inductive ObjectResult where
  | literal (s : String)
  | constant (value : Nat)
deriving DecidableEq, Repr

/-- CallObjectMethodV (lines 1530-1552): the value returned and the calls
made. sceAppUtilSystemParamGetInt is the value the system query stores in lang,
or none when it stores nothing and lang keeps its initial -1. -/
def CallObjectMethodV (k : SceSystemParamLang) (sceAppUtilSystemParamGetInt : Option Int)
    (_env _obj : Nat) (methodID : Int) (_args : Nat) : ObjectResult × List Call :=
  let lang₀ : Int := -1
  if methodID = GET_LANGUAGE then
    let lang := match sceAppUtilSystemParamGetInt with
      | some v => v
      | none => lang₀
    (if lang = k.SCE_SYSTEM_PARAM_LANG_FRENCH then ObjectResult.literal "fr"
     else if lang = k.SCE_SYSTEM_PARAM_LANG_SPANISH then ObjectResult.literal "es"
     else if lang = k.SCE_SYSTEM_PARAM_LANG_GERMAN then ObjectResult.literal "de"
     else if lang = k.SCE_SYSTEM_PARAM_LANG_ITALIAN then ObjectResult.literal "it"
     else if lang = k.SCE_SYSTEM_PARAM_LANG_RUSSIAN then ObjectResult.literal "ru"
     else ObjectResult.literal "en",
     [Call.platform "sceAppUtilSystemParamGetInt"])
  else (ObjectResult.constant 0x34343434, [])

/-- DT_DIR, line 638. -/
def DT_DIR : Nat := 4

/-- DT_REG, line 639. -/
def DT_REG : Nat := 8

/-- The struct android_dirent (lines 641-645), without its padding; d_name is
`char d_name[256]`, given by its bytes before the terminating NUL. -/
structure android_dirent where
  d_type : Nat
  d_name : List Nat
deriving DecidableEq, Repr

/-- The struct android_DIR (lines 647-650). -/
structure android_DIR where
  uid : Int
  dir : android_dirent
deriving DecidableEq, Repr

/-- What a call of sceIoDread delivers: its result and, of the entry it stores
in sce_dir, the mode d_stat.st_mode and the name d_name. The declaration of
SceIoDirent is not under src/. -/
structure SceIoDread where
  res : Int
  st_mode : Nat
  d_name : List Nat
deriving DecidableEq, Repr

/-- The pointer readdir_fake returns: NULL, or `&dirp->dir` for the handle dirp
it was given. -/
inductive DirentPointer where
  | null
  | dir_of (dirp : Nat)
deriving DecidableEq, Repr

/-- Effect of readdir_fake: the pointer returned, the value stored in errno
(none when errno is not written), the object *dirp afterwards and the calls
made. -/
structure ReaddirResult where
  ret : DirentPointer
  errno : Option Int
  obj : android_DIR
  calls : List Call
deriving DecidableEq, Repr

/-- The expression `res & SCE_ERRNO_MASK` of line 705, SCE_ERRNO_MASK being
0xFF (line 636) and res a 32-bit int in two's complement. -/
def and_errno_mask (res : Int) : Int :=
  (((res % 2 ^ 32).toNat &&& 0xFF : Nat) : Int)

/-- readdir_fake (lines 695-717). dirp is the handle (0 is NULL) and obj the
object it points to; EBADF and the macro SCE_S_ISDIR come from headers that are
not under src/ and are parameters. The result is none when strcpy would write
the name past the 256 bytes of d_name. -/
def readdir_fake (EBADF : Int) (SCE_S_ISDIR : Nat → Bool) (dirp : Nat) (obj : android_DIR)
    (sceIoDread : SceIoDread) : Option ReaddirResult :=
  if dirp = 0 then
    some (ReaddirResult.mk DirentPointer.null (some EBADF) obj [])
  else if sceIoDread.res < 0 then
    some (ReaddirResult.mk DirentPointer.null (some (and_errno_mask sceIoDread.res)) obj
      [Call.platform "sceIoDread"])
  else if sceIoDread.res = 0 then
    some (ReaddirResult.mk DirentPointer.null (some 0) obj [Call.platform "sceIoDread"])
  else if sceIoDread.d_name.length + 1 ≤ 256 then
    some (ReaddirResult.mk (DirentPointer.dir_of dirp) none
      (android_DIR.mk obj.uid
        (android_dirent.mk (if SCE_S_ISDIR sceIoDread.st_mode then DT_DIR else DT_REG)
          sceIoDread.d_name))
      [Call.platform "sceIoDread"])
  else none

/-- One statement `*(uintptr_t *)(fake_env + offset) = (uintptr_t)value;` of
main: the offset written and the host object whose address is stored. -/
structure FakeEnvWrite where
  offset : Nat
  value : String
deriving DecidableEq, Repr

/-- The stores into fake_env of main, lines 3156-3192, in source order. -/
def fake_env_writes : List FakeEnvWrite :=
  [FakeEnvWrite.mk 0x00 "fake_env",
   FakeEnvWrite.mk 0x18 "FindClass",
   FakeEnvWrite.mk 0x4C "ret0",
   FakeEnvWrite.mk 0x50 "ret0",
   FakeEnvWrite.mk 0x54 "NewGlobalRef",
   FakeEnvWrite.mk 0x58 "DeleteGlobalRef",
   FakeEnvWrite.mk 0x5C "ret0",
   FakeEnvWrite.mk 0x74 "NewObjectV",
   FakeEnvWrite.mk 0x7C "GetObjectClass",
   FakeEnvWrite.mk 0x84 "GetMethodID",
   FakeEnvWrite.mk 0x8C "CallObjectMethodV",
   FakeEnvWrite.mk 0x98 "CallBooleanMethodV",
   FakeEnvWrite.mk 0xC8 "CallIntMethodV",
   FakeEnvWrite.mk 0xD4 "CallLongMethodV",
   FakeEnvWrite.mk 0xF8 "CallVoidMethodV",
   FakeEnvWrite.mk 0x178 "GetFieldID",
   FakeEnvWrite.mk 0x17C "GetBooleanField",
   FakeEnvWrite.mk 0x190 "GetIntField",
   FakeEnvWrite.mk 0x198 "GetFloatField",
   FakeEnvWrite.mk 0x1C4 "GetStaticMethodID",
   FakeEnvWrite.mk 0x1CC "CallStaticObjectMethodV",
   FakeEnvWrite.mk 0x1D8 "CallStaticBooleanMethodV",
   FakeEnvWrite.mk 0x208 "CallStaticIntMethodV",
   FakeEnvWrite.mk 0x21C "CallStaticLongMethodV",
   FakeEnvWrite.mk 0x220 "CallStaticFloatMethodV",
   FakeEnvWrite.mk 0x238 "CallStaticVoidMethodV",
   FakeEnvWrite.mk 0x240 "GetStaticFieldID",
   FakeEnvWrite.mk 0x244 "GetStaticObjectField",
   FakeEnvWrite.mk 0x29C "NewStringUTF",
   FakeEnvWrite.mk 0x2A0 "GetStringUTFLength",
   FakeEnvWrite.mk 0x2A4 "GetStringUTFChars",
   FakeEnvWrite.mk 0x2A8 "ret0",
   FakeEnvWrite.mk 0x2AC "GetArrayLength",
   FakeEnvWrite.mk 0x2B4 "GetObjectArrayElement",
   FakeEnvWrite.mk 0x35C "ret0",
   FakeEnvWrite.mk 0x36C "GetJavaVM",
   FakeEnvWrite.mk 0x374 "GetStringUTFRegion"]

/-- A store of a uintptr_t (32 bits, little-endian) at a byte offset of a
buffer; a buffer maps a byte offset to the byte held there. -/
def store_word (buf : Nat → Nat) (offset value : Nat) : Nat → Nat :=
  fun i => if offset ≤ i ∧ i < offset + 4 then value / 256 ^ (i - offset) % 256 else buf i

/-- The uintptr_t read at a byte offset of a buffer. -/
def load_word (buf : Nat → Nat) (offset : Nat) : Nat :=
  buf offset + 256 * buf (offset + 1) + 256 ^ 2 * buf (offset + 2) +
    256 ^ 3 * buf (offset + 3)

/-- The bytes of fake_env after lines 3155-3192 of main: `memset(fake_env, 'A',
sizeof(fake_env))` and then the stores, addr_of giving the address of each host
object. fake_env is `char fake_env[0x1000]`. -/
def fake_env_table (addr_of : String → Nat) : Nat → Nat :=
  fake_env_writes.foldl (fun buf w => store_word buf w.offset (addr_of w.value))
    (fun _ => 0x41)

/-- The number whose digits in base 256 are the bytes of a name; used to tell
names apart by comparing numbers. -/
def name_key (s : String) : Nat :=
  (cstr s).foldl (fun a c => a * 256 + c) 0

/-- Lookup of a name in a table of entries that takes the first entry with
that name and gives the host function bound there. It is one of the two
orders of search a resolver can follow; so_resolve itself is not under
src/. -/
def dynlib_first (table : List so_default_dynlib) (name : String) : Option String :=
  (table.find? (fun d => d.symbol == name)).map so_default_dynlib.func

/-- Lookup of a name in a table of entries that takes the last entry with that
name. -/
def dynlib_last (table : List so_default_dynlib) (name : String) : Option String :=
  dynlib_first table.reverse name

/-- Whether the numbers of a list are pairwise different. -/
def all_distinct : List Nat → Bool
  | [] => true
  | a :: l => l.all (fun b => a != b) && all_distinct l

/-- Whether the numbers of a list are pairwise different, checked class by
class of their residues modulo m. -/
def distinct_by_residue (m : Nat) (l : List Nat) : Bool :=
  (List.range m).all (fun r => all_distinct (l.filter (fun x => x % m == r)))

theorem bootstrap_prelude (e : Env) : ∀ c ∈ main_bootstrap e, c.isPrelude = true := by
  intro c hc
  unfold main_bootstrap at hc
  split at hc <;> simp at hc <;> rcases hc with h | h | h | h | h | h | h | h | h | h | h <;>
    (try subst h) <;> simp_all [Call.isPrelude]

theorem patch_game_isPatchCall (e : Env) : ∀ c ∈ patch_game e, c.isPatchCall = true := by
  intro c hc
  simp only [patch_game, hook_site, List.mem_append, List.mem_flatMap, List.mem_cons,
    List.mem_singleton, List.not_mem_nil, or_false] at hc
  rcases hc with (h | h) | h
  · rcases h with h | h <;> subst h <;> rfl
  · subst h; rfl
  · obtain ⟨s, -, h | h⟩ := h <;> subst h <;> rfl

theorem main_of_loaded (e : Env) (h : loaded e) :
    ∃ pre, main e = pre ++ load_call :: main_loaded e ∧ ∀ c ∈ pre, c.isPrelude = true := by
  obtain ⟨hk, hf, hl⟩ := h
  by_cases h1 : file_exists e "ur0:/data/libshacccg.suprx" = true
  · refine ⟨main_bootstrap e ++ [Call.platform "_vshKernelSearchModuleByName",
      Call.sceIoGetstat "ur0:/data/libshacccg.suprx", Call.platform "sprintf",
      Call.platform "printf", Call.platform "sprintf"], ?_, ?_⟩
    · simp [main, main_load, main_prerequisite, fatal_error, hk, h1, hl, load_call]
    · intro c hc
      simp only [List.mem_append, List.mem_cons, List.mem_singleton, List.not_mem_nil,
        or_false] at hc
      rcases hc with hc | hc
      · exact bootstrap_prelude e c hc
      · rcases hc with h | h | h | h | h <;> subst h <;> rfl
  · have h2 : file_exists e "ur0:/data/external/libshacccg.suprx" = true := by
      rcases hf with hf | hf
      · exact absurd hf h1
      · exact hf
    refine ⟨main_bootstrap e ++ [Call.platform "_vshKernelSearchModuleByName",
      Call.sceIoGetstat "ur0:/data/libshacccg.suprx",
      Call.sceIoGetstat "ur0:/data/external/libshacccg.suprx", Call.platform "sprintf",
      Call.platform "printf", Call.platform "sprintf"], ?_, ?_⟩
    · simp [main, main_load, main_prerequisite, fatal_error, hk, h1, h2, hl, load_call]
    · intro c hc
      simp only [List.mem_append, List.mem_cons, List.mem_singleton, List.not_mem_nil,
        or_false] at hc
      rcases hc with hc | hc
      · exact bootstrap_prelude e c hc
      · rcases hc with h | h | h | h | h | h <;> subst h <;> rfl

theorem main_of_not_loaded_split (e : Env) (h : ¬ loaded e) :
    ∃ pre msg, (main e = pre ++ [Call.fatal_error msg] ∨
        main e = pre ++ [load_call, Call.fatal_error msg]) ∧
      ∀ c ∈ pre, c.isPrelude = true := by
  by_cases hk : check_kubridge e < 0
  · refine ⟨main_bootstrap e ++ [Call.platform "_vshKernelSearchModuleByName"],
      "Error kubridge.skprx is not installed.", ?_, ?_⟩
    · left; simp [main, fatal_error, hk]
    · intro c hc
      simp only [List.mem_append, List.mem_singleton] at hc
      rcases hc with hc | hc
      · exact bootstrap_prelude e c hc
      · subst hc; rfl
  · by_cases h1 : file_exists e "ur0:/data/libshacccg.suprx" = true
    · have hl : e.so_file_load < 0 := by
        by_contra hl
        exact h ⟨hk, Or.inl h1, hl⟩
      refine ⟨main_bootstrap e ++ [Call.platform "_vshKernelSearchModuleByName",
        Call.sceIoGetstat "ur0:/data/libshacccg.suprx", Call.platform "sprintf",
        Call.platform "printf", Call.platform "sprintf"], "Error could not load %s.", ?_, ?_⟩
      · right; simp [main, main_load, main_prerequisite, fatal_error, hk, h1, hl, load_call]
      · intro c hc
        simp only [List.mem_append, List.mem_cons, List.mem_singleton, List.not_mem_nil,
          or_false] at hc
        rcases hc with hc | hc
        · exact bootstrap_prelude e c hc
        · rcases hc with h | h | h | h | h <;> subst h <;> rfl
    · by_cases h2 : file_exists e "ur0:/data/external/libshacccg.suprx" = true
      · have hl : e.so_file_load < 0 := by
          by_contra hl
          exact h ⟨hk, Or.inr h2, hl⟩
        refine ⟨main_bootstrap e ++ [Call.platform "_vshKernelSearchModuleByName",
          Call.sceIoGetstat "ur0:/data/libshacccg.suprx",
          Call.sceIoGetstat "ur0:/data/external/libshacccg.suprx", Call.platform "sprintf",
          Call.platform "printf", Call.platform "sprintf"], "Error could not load %s.", ?_, ?_⟩
        · right; simp [main, main_load, main_prerequisite, fatal_error, hk, h1, h2, hl, load_call]
        · intro c hc
          simp only [List.mem_append, List.mem_cons, List.mem_singleton, List.not_mem_nil,
            or_false] at hc
          rcases hc with hc | hc
          · exact bootstrap_prelude e c hc
          · rcases hc with h | h | h | h | h | h <;> subst h <;> rfl
      · refine ⟨main_bootstrap e ++ [Call.platform "_vshKernelSearchModuleByName",
          Call.sceIoGetstat "ur0:/data/libshacccg.suprx",
          Call.sceIoGetstat "ur0:/data/external/libshacccg.suprx"],
          "Error libshacccg.suprx is not installed.", ?_, ?_⟩
        · left; simp [main, main_prerequisite, fatal_error, hk, h1, h2]
        · intro c hc
          simp only [List.mem_append, List.mem_cons, List.mem_singleton, List.not_mem_nil,
            or_false] at hc
          rcases hc with hc | hc
          · exact bootstrap_prelude e c hc
          · rcases hc with h | h | h <;> subst h <;> rfl

theorem main_of_not_loaded (e : Env) (h : ¬ loaded e) :
    ∃ pre msg, main e = pre ++ [Call.fatal_error msg] ∧
      ∀ c ∈ pre, c.isPrelude = true ∨ c = load_call := by
  obtain ⟨pre, msg, hm | hm, hpre⟩ := main_of_not_loaded_split e h
  · exact ⟨pre, msg, hm, fun c hc => Or.inl (hpre c hc)⟩
  · refine ⟨pre ++ [load_call], msg, by simp [hm], ?_⟩
    intro c hc
    simp only [List.mem_append, List.mem_singleton] at hc
    rcases hc with hc | hc
    · exact Or.inl (hpre c hc)
    · exact Or.inr hc

theorem count_eq_zero_of_class (p : Call → Bool) (c : Call) (l : List Call)
    (hc : p c = false) (hl : ∀ x ∈ l, p x = true) : l.count c = 0 := by
  apply List.count_eq_zero_of_not_mem
  intro hmem
  have := hl c hmem
  simp [hc] at this

theorem not_mem_of_class (p : Call → Bool) (c : Call) (l : List Call)
    (hc : p c = false) (hl : ∀ x ∈ l, p x = true) : c ∉ l := by
  intro hmem
  have := hl c hmem
  simp [hc] at this

theorem not_pair_sublist (a b : Call) (l₁ l₂ : List Call) (ha : a ∉ l₁) (hb : b ∉ l₂) :
    ¬ [a, b].Sublist (l₁ ++ a :: l₂) := by
  induction l₁ with
  | nil =>
    intro h
    rw [List.nil_append, List.cons_sublist_cons, List.singleton_sublist] at h
    exact hb h
  | cons x l ih =>
    intro h
    have hx : a ≠ x := fun hax => ha (by simp [hax])
    have hl : a ∉ l := fun hal => ha (by simp [hal])
    rw [List.cons_append, List.sublist_cons_iff] at h
    rcases h with h | ⟨r, hr, -⟩
    · exact ih hl h
    · simp only [List.cons.injEq] at hr
      exact hx hr.1

theorem so_initialize_mem_main_iff (e : Env) : Call.so_initialize ∈ main e ↔ loaded e := by
  constructor
  · intro h
    by_contra hn
    obtain ⟨pre, msg, hm, hpre⟩ := main_of_not_loaded e hn
    rw [hm] at h
    simp only [List.mem_append, List.mem_singleton] at h
    rcases h with h | h
    · rcases hpre _ h with h' | h'
      · simp [Call.isPrelude] at h'
      · simp [load_call] at h'
    · simp at h
  · intro h
    obtain ⟨pre, hm, -⟩ := main_of_loaded e h
    rw [hm]
    simp [main_loaded]

theorem loaded_env_ok : loaded env_ok := by
  simp [loaded, env_ok, check_kubridge, file_exists]

/-- The loader operations of a run that gets past so_file_load, with the calls
between them. -/
theorem main_loaded_split (e : Env) :
    main_loaded e = [Call.so_relocate, resolve_call] ++
      ([Call.platform "vglUseTripleBuffering", Call.platform "vglSetParamBufferSize",
        Call.platform "vglSetSemanticBindingMode",
        Call.platform "vglInitWithCustomThreshold"] ++ patch_game e) ++
      [Call.so_flush_caches, Call.so_initialize] ++
      [Call.platform "memset", Call.platform "memset",
       Call.platform "pthread_attr_init", Call.platform "pthread_attr_setstacksize",
       Call.pthread_create "mem_manager",
       Call.platform "pthread_attr_init", Call.platform "pthread_attr_setstacksize",
       Call.pthread_create "pthread_main", Call.pthread_join "pthread_main"] := by
  simp [main_loaded, resolve_call]

/-- C1 (as amended): in every execution of main that reaches the module's entry
(so_initialize is called) the loader operations occur in the order load,
relocate, resolve imports, flush caches, enter, and each of them occurs exactly
once: so_relocate is performed before so_resolve against default_dynlib. -/
theorem main_load_order (e : Env) (h : Call.so_initialize ∈ main e) :
    [load_call, Call.so_relocate, resolve_call, Call.so_flush_caches,
      Call.so_initialize].Sublist (main e) ∧
    ∀ c ∈ [load_call, Call.so_relocate, resolve_call, Call.so_flush_caches,
      Call.so_initialize], (main e).count c = 1 := by
  obtain ⟨pre, hm, hpre⟩ := main_of_loaded e ((so_initialize_mem_main_iff e).1 h)
  have hpg := patch_game_isPatchCall e
  rw [hm, main_loaded_split]
  constructor
  · apply List.Sublist.trans _ (List.sublist_append_right pre _)
    apply List.Sublist.cons₂
    apply List.Sublist.trans _ (List.sublist_append_left _ _)
    have h1 : [Call.so_relocate, resolve_call].Sublist
        ([Call.so_relocate, resolve_call] ++
          ([Call.platform "vglUseTripleBuffering", Call.platform "vglSetParamBufferSize",
            Call.platform "vglSetSemanticBindingMode",
            Call.platform "vglInitWithCustomThreshold"] ++ patch_game e)) :=
      List.sublist_append_left _ _
    exact List.Sublist.append h1 (List.Sublist.refl _)
  · intro c hc
    have e1 : ∀ c, Call.isPrelude c = false → pre.count c = 0 :=
      fun c h => count_eq_zero_of_class _ c pre h hpre
    have e2 : ∀ c, Call.isPatchCall c = false → (patch_game e).count c = 0 :=
      fun c h => count_eq_zero_of_class _ c _ h hpg
    simp only [List.mem_cons, List.mem_singleton, List.not_mem_nil, or_false] at hc
    rcases hc with hc | hc | hc | hc | hc <;> subst hc <;>
      simp [load_call, resolve_call, e1, e2, Call.isPrelude, Call.isPatchCall]

theorem main_load_order_witness :
    Call.so_initialize ∈ main env_ok ∧
    [load_call, Call.so_relocate, resolve_call, Call.so_flush_caches,
      Call.so_initialize].Sublist (main env_ok) ∧
    ∀ c ∈ [load_call, Call.so_relocate, resolve_call, Call.so_flush_caches,
      Call.so_initialize], (main env_ok).count c = 1 :=
  ⟨(so_initialize_mem_main_iff env_ok).2 loaded_env_ok,
   main_load_order env_ok ((so_initialize_mem_main_iff env_ok).2 loaded_env_ok)⟩

/-- C1 (as stated) fails: in the run env_ok the module's entry is reached, yet
no so_resolve call comes before a so_relocate call. -/
theorem main_resolve_not_before_relocate :
    Call.so_initialize ∈ main env_ok ∧
    ¬ [resolve_call, Call.so_relocate].Sublist (main env_ok) := by
  refine ⟨(so_initialize_mem_main_iff env_ok).2 loaded_env_ok, ?_⟩
  obtain ⟨pre, hm, hpre⟩ := main_of_loaded env_ok loaded_env_ok
  have hm2 : main env_ok = (pre ++ [load_call, Call.so_relocate]) ++ resolve_call ::
      ([Call.platform "vglUseTripleBuffering", Call.platform "vglSetParamBufferSize",
        Call.platform "vglSetSemanticBindingMode",
        Call.platform "vglInitWithCustomThreshold"] ++ patch_game env_ok ++
      [Call.so_flush_caches, Call.so_initialize] ++
      [Call.platform "memset", Call.platform "memset",
       Call.platform "pthread_attr_init", Call.platform "pthread_attr_setstacksize",
       Call.pthread_create "mem_manager",
       Call.platform "pthread_attr_init", Call.platform "pthread_attr_setstacksize",
       Call.pthread_create "pthread_main", Call.pthread_join "pthread_main"]) := by
    rw [hm, main_loaded_split]; simp
  rw [hm2]
  apply not_pair_sublist
  · have := not_mem_of_class _ resolve_call pre rfl hpre
    simpa [resolve_call, load_call] using this
  · have := not_mem_of_class _ Call.so_relocate _ rfl (patch_game_isPatchCall env_ok)
    simp [this]

theorem mem_main_loaded_of_loaded (e : Env) (h : loaded e) (c : Call)
    (hc : c ∈ main_loaded e) : c ∈ main e := by
  obtain ⟨pre, hm, -⟩ := main_of_loaded e h
  rw [hm]
  simp [hc]

theorem loaded_of_mem_main (e : Env) (c : Call) (hc : c ∈ main e)
    (h1 : c.isPrelude = false) (h2 : c ≠ load_call) (h3 : ∀ msg, c ≠ Call.fatal_error msg) :
    loaded e := by
  by_contra hn
  obtain ⟨pre, msg, hm, hpre⟩ := main_of_not_loaded e hn
  rw [hm] at hc
  simp only [List.mem_append, List.mem_singleton] at hc
  rcases hc with hc | hc
  · rcases hpre _ hc with h' | h'
    · simp [h1] at h'
    · exact h2 h'
  · exact h3 msg hc

theorem loaded_env_unresolved : loaded env_unresolved := by
  simp [loaded, env_unresolved, env_ok, check_kubridge, file_exists]

theorem loaded_env_relocate_failed : loaded env_relocate_failed := by
  simp [loaded, env_relocate_failed, env_ok, check_kubridge, file_exists]

theorem loaded_env_no_symbols : loaded env_no_symbols := by
  simp [loaded, env_no_symbols, env_ok, check_kubridge, file_exists]

/-- C2 (as amended): main does not inspect what so_resolve reports. Whatever
so_resolve returns, also a failure for an undefined symbol missing from
default_dynlib, main makes the same calls; once so_resolve has been called main
goes on to call so_initialize and to create the thread pthread_main, which
calls the entry point SDL_main. -/
theorem main_discards_so_resolve_result (e : Env) (h : resolve_call ∈ main e) :
    (∀ r : Int, main { e with so_resolve := r } = main e) ∧
    Call.so_initialize ∈ main e ∧
    Call.pthread_create "pthread_main" ∈ main e ∧
    Call.call_module (e.so_symbol "SDL_main") ∈ pthread_main e := by
  have hl : loaded e :=
    loaded_of_mem_main e _ h rfl (by simp [resolve_call, load_call])
      (by simp [resolve_call])
  refine ⟨fun r => rfl, ?_, ?_, ?_⟩
  · exact mem_main_loaded_of_loaded e hl _ (by simp [main_loaded])
  · exact mem_main_loaded_of_loaded e hl _ (by simp [main_loaded])
  · simp [pthread_main]

theorem main_discards_so_resolve_result_witness :
    resolve_call ∈ main env_unresolved ∧
    (∀ r : Int, main { env_unresolved with so_resolve := r } = main env_unresolved) ∧
    Call.so_initialize ∈ main env_unresolved ∧
    Call.pthread_create "pthread_main" ∈ main env_unresolved ∧
    Call.call_module (env_unresolved.so_symbol "SDL_main") ∈ pthread_main env_unresolved :=
  ⟨mem_main_loaded_of_loaded _ loaded_env_unresolved _ (by simp [main_loaded, resolve_call]),
   main_discards_so_resolve_result env_unresolved
    (mem_main_loaded_of_loaded _ loaded_env_unresolved _ (by simp [main_loaded, resolve_call]))⟩

/-- C2 (as stated) fails: in the run env_unresolved so_resolve is called and
reports a failure (a negative result), yet main calls so_initialize and creates
the thread pthread_main, which calls SDL_main. -/
theorem main_enters_after_failed_resolve :
    resolve_call ∈ main env_unresolved ∧ env_unresolved.so_resolve < 0 ∧
    Call.so_initialize ∈ main env_unresolved ∧
    Call.pthread_create "pthread_main" ∈ main env_unresolved ∧
    Call.call_module (env_unresolved.so_symbol "SDL_main") ∈ pthread_main env_unresolved := by
  refine ⟨?_, by decide, ?_, ?_, ?_⟩
  · exact mem_main_loaded_of_loaded _ loaded_env_unresolved _ (by simp [main_loaded, resolve_call])
  · exact mem_main_loaded_of_loaded _ loaded_env_unresolved _ (by simp [main_loaded])
  · exact mem_main_loaded_of_loaded _ loaded_env_unresolved _ (by simp [main_loaded])
  · simp [pthread_main]

theorem not_mem_patch_game (e : Env) (c : Call) (h : c.isPatchCall = false) :
    c ∉ patch_game e :=
  not_mem_of_class _ c _ h (patch_game_isPatchCall e)

theorem fatal_error_not_mem_of_loaded (e : Env) (h : loaded e) (msg : String) :
    Call.fatal_error msg ∉ main e := by
  obtain ⟨pre, hm, hpre⟩ := main_of_loaded e h
  have h1 := not_mem_of_class _ (Call.fatal_error msg) pre rfl hpre
  have h2 := not_mem_patch_game e (Call.fatal_error msg) rfl
  rw [hm]
  simp [main_loaded, h1, h2, load_call]

theorem not_loaded_of_load_failed (e : Env) (h : e.so_file_load < 0) : ¬ loaded e :=
  fun hl => hl.2.2 h

/-- C3 (as amended): if so_file_load returns a negative result, main ends in a
fatal error and none of the later phases runs: so_relocate, so_resolve,
so_flush_caches and so_initialize are not called, patch_game makes no call, and
no thread is created, so SDL_main is never entered. The results of so_relocate
and so_resolve are not inspected in any run: whatever the two return, main
makes the same calls, and a run that gets past so_file_load calls both and goes
on to so_flush_caches, so_initialize and the thread that enters SDL_main,
without a fatal error. Every run of main either ends in a fatal error with no
loader operation other than so_file_load, or calls so_initialize and creates
the thread that enters SDL_main. -/
theorem main_fails_fast_on_load (e : Env) (h : e.so_file_load < 0) :
    ((∃ msg, (main e).getLast? = some (Call.fatal_error msg)) ∧
      Call.so_relocate ∉ main e ∧ resolve_call ∉ main e ∧
      Call.so_flush_caches ∉ main e ∧ Call.so_initialize ∉ main e ∧
      (∀ c ∈ main e, c.isLoaderOp = true → c = load_call) ∧
      (∀ c ∈ main e, c.isPatchCall = false ∧ c.isThreadCreate = false)) ∧
    (∀ (e' : Env) (r₁ r₂ : Int),
      main { e' with so_relocate := r₁, so_resolve := r₂ } = main e') ∧
    (∀ (e' : Env) (r₁ r₂ : Int), loaded e' →
      Call.so_relocate ∈ main { e' with so_relocate := r₁, so_resolve := r₂ } ∧
      resolve_call ∈ main { e' with so_relocate := r₁, so_resolve := r₂ } ∧
      Call.so_flush_caches ∈ main { e' with so_relocate := r₁, so_resolve := r₂ } ∧
      Call.so_initialize ∈ main { e' with so_relocate := r₁, so_resolve := r₂ } ∧
      Call.pthread_create "pthread_main" ∈
        main { e' with so_relocate := r₁, so_resolve := r₂ } ∧
      ∀ msg,
        Call.fatal_error msg ∉ main { e' with so_relocate := r₁, so_resolve := r₂ }) ∧
    (∀ e' : Env,
      ((∃ msg, (main e').getLast? = some (Call.fatal_error msg)) ∧
        ∀ c ∈ main e', c.isLoaderOp = true → c = load_call) ∨
      (Call.so_initialize ∈ main e' ∧ Call.pthread_create "pthread_main" ∈ main e')) := by
  have key : ∀ e' : Env, ¬ loaded e' →
      (∃ msg, (main e').getLast? = some (Call.fatal_error msg)) ∧
      (∀ c ∈ main e',
        c.isPrelude = true ∨ c = load_call ∨ ∃ msg, c = Call.fatal_error msg) := by
    intro e' hn
    obtain ⟨pre, msg, hm, hpre⟩ := main_of_not_loaded e' hn
    rw [hm]
    refine ⟨⟨msg, List.getLast?_concat _⟩, ?_⟩
    intro c hc
    simp only [List.mem_append, List.mem_singleton] at hc
    rcases hc with hc | hc
    · rcases hpre c hc with h' | h'
      · exact Or.inl h'
      · exact Or.inr (Or.inl h')
    · exact Or.inr (Or.inr ⟨msg, hc⟩)
  have cls : ∀ e' : Env, ¬ loaded e' →
      ∀ c ∈ main e', c.isLoaderOp = true → c = load_call := by
    intro e' hn c hc hop
    rcases (key e' hn).2 c hc with h' | h' | ⟨msg, h'⟩
    · cases c <;> simp_all [Call.isPrelude, Call.isLoaderOp]
    · exact h'
    · subst h'; simp [Call.isLoaderOp] at hop
  have hn := not_loaded_of_load_failed e h
  refine ⟨⟨(key e hn).1, ?_, ?_, ?_, ?_, cls e hn, ?_⟩, fun _ _ _ => rfl, ?_, ?_⟩
  · intro hc
    have := cls e hn _ hc rfl
    simp [load_call] at this
  · intro hc
    have := cls e hn _ hc rfl
    simp [load_call, resolve_call] at this
  · intro hc
    have := cls e hn _ hc rfl
    simp [load_call] at this
  · intro hc
    have := cls e hn _ hc rfl
    simp [load_call] at this
  · intro c hc
    rcases (key e hn).2 c hc with h' | h' | ⟨msg, h'⟩
    · cases c <;> simp_all [Call.isPrelude, Call.isPatchCall, Call.isThreadCreate]
    · subst h'; exact ⟨rfl, rfl⟩
    · subst h'; exact ⟨rfl, rfl⟩
  · intro e' r₁ r₂ hl
    have hl' : loaded { e' with so_relocate := r₁, so_resolve := r₂ } := hl
    exact ⟨mem_main_loaded_of_loaded _ hl' _ (by simp [main_loaded]),
      mem_main_loaded_of_loaded _ hl' _ (by simp [main_loaded, resolve_call]),
      mem_main_loaded_of_loaded _ hl' _ (by simp [main_loaded]),
      mem_main_loaded_of_loaded _ hl' _ (by simp [main_loaded]),
      mem_main_loaded_of_loaded _ hl' _ (by simp [main_loaded]),
      fatal_error_not_mem_of_loaded _ hl'⟩
  · intro e'
    by_cases hl : loaded e'
    · right
      exact ⟨mem_main_loaded_of_loaded e' hl _ (by simp [main_loaded]),
        mem_main_loaded_of_loaded e' hl _ (by simp [main_loaded])⟩
    · left
      exact ⟨(key e' hl).1, cls e' hl⟩

theorem main_fails_fast_on_load_witness :
    env_load_failed.so_file_load < 0 ∧
    (∃ msg, (main env_load_failed).getLast? = some (Call.fatal_error msg)) ∧
    Call.so_relocate ∉ main env_load_failed ∧ Call.so_initialize ∉ main env_load_failed ∧
    main { env_ok with so_relocate := -1, so_resolve := -1 } = main env_ok ∧
    Call.so_initialize ∈ main { env_ok with so_relocate := -1, so_resolve := -1 } :=
  ⟨by decide, (main_fails_fast_on_load env_load_failed (by decide)).1.1,
   (main_fails_fast_on_load env_load_failed (by decide)).1.2.1,
   (main_fails_fast_on_load env_load_failed (by decide)).1.2.2.2.2.1,
   (main_fails_fast_on_load env_load_failed (by decide)).2.1 env_ok (-1) (-1),
   ((main_fails_fast_on_load env_load_failed (by decide)).2.2.1 env_ok (-1) (-1)
      loaded_env_ok).2.2.2.1⟩

/-- C3 (as stated) fails: in the run env_relocate_failed so_relocate is called
and reports a failure (a negative result), yet main raises no fatal error and
the later phases so_resolve, so_flush_caches and so_initialize all run. -/
theorem main_continues_after_failed_relocate :
    Call.so_relocate ∈ main env_relocate_failed ∧ env_relocate_failed.so_relocate < 0 ∧
    (∀ msg, Call.fatal_error msg ∉ main env_relocate_failed) ∧
    resolve_call ∈ main env_relocate_failed ∧
    Call.so_flush_caches ∈ main env_relocate_failed ∧
    Call.so_initialize ∈ main env_relocate_failed := by
  have hl := loaded_env_relocate_failed
  refine ⟨?_, by decide, fatal_error_not_mem_of_loaded _ hl, ?_, ?_, ?_⟩
  · exact mem_main_loaded_of_loaded _ hl _ (by simp [main_loaded])
  · exact mem_main_loaded_of_loaded _ hl _ (by simp [main_loaded, resolve_call])
  · exact mem_main_loaded_of_loaded _ hl _ (by simp [main_loaded])
  · exact mem_main_loaded_of_loaded _ hl _ (by simp [main_loaded])

/-- The calls of main_loaded before and after its so_flush_caches call. -/
theorem main_loaded_flush_split (e : Env) :
    main_loaded e =
      ([Call.so_relocate, resolve_call,
        Call.platform "vglUseTripleBuffering", Call.platform "vglSetParamBufferSize",
        Call.platform "vglSetSemanticBindingMode",
        Call.platform "vglInitWithCustomThreshold"] ++ patch_game e) ++
      Call.so_flush_caches ::
      [Call.so_initialize, Call.platform "memset", Call.platform "memset",
       Call.platform "pthread_attr_init", Call.platform "pthread_attr_setstacksize",
       Call.pthread_create "mem_manager",
       Call.platform "pthread_attr_init", Call.platform "pthread_attr_setstacksize",
       Call.pthread_create "pthread_main", Call.pthread_join "pthread_main"] := by
  simp [main_loaded, resolve_call]

/-- C4: in every execution of main in which a hook is installed, the calls of
main split at a so_flush_caches call such that every hook_addr call comes
before it, while so_initialize, every pthread_create (among them the one for
pthread_main, which calls SDL_main) and every call into the module come after
it. -/
theorem main_flushes_after_hooks (e : Env) (a : Nat) (d : String)
    (h : Call.hook_addr a d ∈ main e) :
    ∃ pre post, main e = pre ++ Call.so_flush_caches :: post ∧
      Call.hook_addr a d ∈ pre ∧
      (∀ c ∈ post, c.isHook = false) ∧
      (∀ c ∈ pre, c ≠ Call.so_initialize ∧ c.isThreadCreate = false ∧
        ∀ x, c ≠ Call.call_module x) ∧
      Call.so_initialize ∈ post ∧ Call.pthread_create "pthread_main" ∈ post ∧
      (main e).count Call.so_flush_caches = 1 := by
  have hl : loaded e :=
    loaded_of_mem_main e _ h rfl (by simp [load_call]) (by simp)
  obtain ⟨pre, hm, hpre⟩ := main_of_loaded e hl
  have hpg := patch_game_isPatchCall e
  refine ⟨pre ++ load_call :: ([Call.so_relocate, resolve_call,
        Call.platform "vglUseTripleBuffering", Call.platform "vglSetParamBufferSize",
        Call.platform "vglSetSemanticBindingMode",
        Call.platform "vglInitWithCustomThreshold"] ++ patch_game e),
      [Call.so_initialize, Call.platform "memset", Call.platform "memset",
       Call.platform "pthread_attr_init", Call.platform "pthread_attr_setstacksize",
       Call.pthread_create "mem_manager",
       Call.platform "pthread_attr_init", Call.platform "pthread_attr_setstacksize",
       Call.pthread_create "pthread_main", Call.pthread_join "pthread_main"], ?_, ?_, ?_, ?_,
      ?_, ?_, ?_⟩
  · rw [hm, main_loaded_flush_split]; simp
  · rw [hm, main_loaded_flush_split] at h
    simp only [List.mem_append, List.mem_cons] at h ⊢
    rcases h with h | h | h
    · exact Or.inl h
    · simp [load_call] at h
    · rcases h with (h | h) | h
      · exact Or.inr (Or.inr (Or.inl h))
      · exact Or.inr (Or.inr (Or.inr h))
      · simp at h
  · intro c hc
    simp only [List.mem_cons, List.mem_singleton, List.not_mem_nil, or_false] at hc
    rcases hc with hc | hc | hc | hc | hc | hc | hc | hc | hc | hc <;> subst hc <;> rfl
  · intro c hc
    simp only [List.mem_append, List.mem_cons, List.mem_singleton, List.not_mem_nil,
      or_false] at hc
    rcases hc with hc | hc | (hc | hc | hc | hc | hc | hc) | hc
    · have := hpre c hc
      cases c <;> simp_all [Call.isPrelude, Call.isThreadCreate]
    all_goals first
      | (subst hc; simp [load_call, resolve_call, Call.isThreadCreate])
      | (have hq := hpg c hc
         cases c <;> simp_all [Call.isPatchCall, Call.isThreadCreate])
  · simp
  · simp
  · rw [hm, main_loaded_flush_split]
    have e1 := count_eq_zero_of_class _ Call.so_flush_caches pre rfl hpre
    have e2 := count_eq_zero_of_class _ Call.so_flush_caches _ rfl hpg
    simp [e1, e2, load_call, resolve_call]

theorem first_hook_mem_main (e : Env) (h : loaded e) :
    Call.hook_addr (e.so_symbol "_ZN17GGPackfileManager16dataFromFilenameEP8GGStringb")
      "dataFromFilename" ∈ main e :=
  mem_main_loaded_of_loaded e h _
    (by simp [main_loaded, patch_game, hook_site, dataFromFilename_site])

theorem main_flushes_after_hooks_witness :
    Call.hook_addr 0x98000001 "dataFromFilename" ∈ main env_ok ∧
    ∃ pre post, main env_ok = pre ++ Call.so_flush_caches :: post ∧
      Call.hook_addr 0x98000001 "dataFromFilename" ∈ pre ∧
      (∀ c ∈ post, c.isHook = false) ∧
      (∀ c ∈ pre, c ≠ Call.so_initialize ∧ c.isThreadCreate = false ∧
        ∀ x, c ≠ Call.call_module x) ∧
      Call.so_initialize ∈ post ∧ Call.pthread_create "pthread_main" ∈ post ∧
      (main env_ok).count Call.so_flush_caches = 1 :=
  ⟨first_hook_mem_main env_ok loaded_env_ok,
   main_flushes_after_hooks env_ok 0x98000001 "dataFromFilename"
    (first_hook_mem_main env_ok loaded_env_ok)⟩

theorem hook_addr_mem_patch_game (e : Env) (s : HookSite) (hs : s ∈ patch_game_sites) :
    Call.hook_addr (e.so_symbol s.symbol) s.dst ∈ patch_game e := by
  simp only [patch_game_sites, List.mem_cons] at hs
  simp only [patch_game, List.mem_append, List.mem_flatMap]
  rcases hs with hs | hs
  · subst hs
    exact Or.inl (Or.inl (by simp [hook_site]))
  · exact Or.inr ⟨s, hs, by simp [hook_site]⟩

theorem hook_addr_of_mem_patch_game (e : Env) (a : Nat) (d : String)
    (h : Call.hook_addr a d ∈ patch_game e) :
    ∃ s ∈ patch_game_sites, a = e.so_symbol s.symbol ∧ d = s.dst := by
  simp only [patch_game, hook_site, List.mem_append, List.mem_flatMap, List.mem_cons,
    List.mem_singleton, List.not_mem_nil, or_false] at h
  rcases h with (h | h) | h
  · rcases h with h | h
    · simp at h
    · simp only [Call.hook_addr.injEq] at h
      exact ⟨dataFromFilename_site, by simp [patch_game_sites], h.1, h.2⟩
  · simp at h
  · obtain ⟨s, hs, h | h⟩ := h
    · simp at h
    · simp only [Call.hook_addr.injEq] at h
      exact ⟨s, by simp [patch_game_sites, hs], h.1, h.2⟩

/-- C5 (as amended): patch_game does not test the result of so_symbol. For every
symbol name it hooks, hook_addr is invoked with exactly the value so_symbol
returned for that name, so with the not-found value 0 when the name is absent
from the module's symbol table; and every hook_addr call of patch_game has such
a looked-up value as its target. -/
theorem patch_game_hooks_unchecked (e : Env) (s : HookSite) (hs : s ∈ patch_game_sites) :
    Call.hook_addr (e.so_symbol s.symbol) s.dst ∈ patch_game e ∧
    (e.so_symbol s.symbol = 0 → Call.hook_addr 0 s.dst ∈ patch_game e) ∧
    (loaded e → Call.hook_addr (e.so_symbol s.symbol) s.dst ∈ main e) ∧
    ∀ a d, Call.hook_addr a d ∈ patch_game e →
      ∃ s' ∈ patch_game_sites, a = e.so_symbol s'.symbol ∧ d = s'.dst := by
  have h1 := hook_addr_mem_patch_game e s hs
  refine ⟨h1, ?_, ?_, hook_addr_of_mem_patch_game e⟩
  · intro h0
    rw [h0] at h1
    exact h1
  · intro hl
    exact mem_main_loaded_of_loaded e hl _ (by simp [main_loaded, h1])

theorem patch_game_hooks_unchecked_witness :
    dataFromFilename_site ∈ patch_game_sites ∧
    env_no_symbols.so_symbol dataFromFilename_site.symbol = 0 ∧
    loaded env_no_symbols ∧
    Call.hook_addr 0 dataFromFilename_site.dst ∈ patch_game env_no_symbols ∧
    Call.hook_addr 0 "dataFromFilename" ∈ main env_no_symbols :=
  ⟨List.mem_cons_self _ _, rfl, loaded_env_no_symbols,
   (patch_game_hooks_unchecked env_no_symbols dataFromFilename_site
      (List.mem_cons_self _ _)).2.1 rfl,
   (patch_game_hooks_unchecked env_no_symbols dataFromFilename_site
      (List.mem_cons_self _ _)).2.2.1 loaded_env_no_symbols⟩

/-- C5 (as stated) fails: in the run env_no_symbols the hooked name
GGPackfileManager::dataFromFilename is absent (so_symbol returns 0 for it),
and main, through patch_game, invokes hook_addr with the target address 0. -/
theorem hook_addr_called_with_zero :
    env_no_symbols.so_symbol "_ZN17GGPackfileManager16dataFromFilenameEP8GGStringb" = 0 ∧
    dataFromFilename_site.symbol = "_ZN17GGPackfileManager16dataFromFilenameEP8GGStringb" ∧
    Call.hook_addr 0 "dataFromFilename" ∈ main env_no_symbols :=
  ⟨rfl, rfl, first_hook_mem_main env_no_symbols loaded_env_no_symbols⟩

theorem mem_prefix_of_split {l₁ l₂ pre post : List Call} {x c : Call}
    (h : pre ++ x :: post = l₁ ++ l₂) (hx : x ∉ l₁) (hc : c ∈ l₁) : c ∈ pre := by
  rcases List.append_eq_append_iff.1 h with ⟨a', h1, h2⟩ | ⟨c', h1, -⟩
  · cases a' with
    | nil =>
      rw [List.append_nil] at h1
      rw [← h1]; exact hc
    | cons y ys =>
      rw [List.cons_append, List.cons.injEq] at h2
      exfalso
      apply hx
      rw [h1, h2.1]
      simp
  · rw [h1]
    exact List.mem_append_left _ hc

theorem not_mem_suffix_of_split {l₁ l₂ pre post : List Call} {x : Call}
    (h : pre ++ x :: post = l₁ ++ x :: l₂) (hx : x ∉ l₁) (c : Call) (hc : c ∈ post) :
    c ∈ l₂ := by
  rcases List.append_eq_append_iff.1 h with ⟨a', h1, h2⟩ | ⟨c', h1, h2⟩
  · cases a' with
    | nil =>
      rw [List.nil_append, List.cons.injEq] at h2
      rw [← h2.2]; exact hc
    | cons y ys =>
      rw [List.cons_append, List.cons.injEq] at h2
      exfalso
      apply hx
      rw [h1, h2.1]
      simp
  · cases c' with
    | nil =>
      rw [List.nil_append, List.cons.injEq] at h2
      rw [h2.2]; exact hc
    | cons y ys =>
      rw [List.cons_append, List.cons.injEq] at h2
      rw [h2.2]
      simp [hc]

/-- C8: in every execution of main, every hook_addr call is preceded by the
so_relocate call: hooking happens only after the module has been relocated. -/
theorem hooks_after_relocate (e : Env) (pre post : List Call) (a : Nat) (d : String)
    (h : main e = pre ++ Call.hook_addr a d :: post) : Call.so_relocate ∈ pre := by
  have hmem : Call.hook_addr a d ∈ main e := by rw [h]; simp
  have hl : loaded e := loaded_of_mem_main e _ hmem rfl (by simp [load_call]) (by simp)
  obtain ⟨pre0, hm, hpre⟩ := main_of_loaded e hl
  have hsplit : pre ++ Call.hook_addr a d :: post =
      (pre0 ++ [load_call, Call.so_relocate]) ++ (main_loaded e).tail := by
    rw [← h, hm]; simp [main_loaded]
  apply mem_prefix_of_split hsplit
  · have := not_mem_of_class _ (Call.hook_addr a d) pre0 rfl hpre
    simp [this, load_call]
  · simp

theorem hooks_after_relocate_witness :
    main env_ok =
      [Call.platform "sceAppUtilInit", Call.platform "sceClibMemset",
       Call.platform "sceAppUtilReceiveAppEvent",
       Call.platform "sceTouchSetSamplingState", Call.platform "sceTouchSetSamplingState",
       Call.platform "scePowerSetArmClockFrequency",
       Call.platform "scePowerSetBusClockFrequency",
       Call.platform "scePowerSetGpuClockFrequency",
       Call.platform "scePowerSetGpuXbarClockFrequency",
       Call.platform "_vshKernelSearchModuleByName",
       Call.sceIoGetstat "ur0:/data/libshacccg.suprx",
       Call.platform "sprintf", Call.platform "printf", Call.platform "sprintf",
       load_call, Call.so_relocate, resolve_call,
       Call.platform "vglUseTripleBuffering", Call.platform "vglSetParamBufferSize",
       Call.platform "vglSetSemanticBindingMode",
       Call.platform "vglInitWithCustomThreshold",
       Call.so_symbol "_ZN17GGPackfileManager16dataFromFilenameEP8GGStringb"] ++
      Call.hook_addr 0x98000001 "dataFromFilename" ::
      (main env_ok).drop 23 ∧
    Call.so_relocate ∈
      [Call.platform "sceAppUtilInit", Call.platform "sceClibMemset",
       Call.platform "sceAppUtilReceiveAppEvent",
       Call.platform "sceTouchSetSamplingState", Call.platform "sceTouchSetSamplingState",
       Call.platform "scePowerSetArmClockFrequency",
       Call.platform "scePowerSetBusClockFrequency",
       Call.platform "scePowerSetGpuClockFrequency",
       Call.platform "scePowerSetGpuXbarClockFrequency",
       Call.platform "_vshKernelSearchModuleByName",
       Call.sceIoGetstat "ur0:/data/libshacccg.suprx",
       Call.platform "sprintf", Call.platform "printf", Call.platform "sprintf",
       load_call, Call.so_relocate, resolve_call,
       Call.platform "vglUseTripleBuffering", Call.platform "vglSetParamBufferSize",
       Call.platform "vglSetSemanticBindingMode",
       Call.platform "vglInitWithCustomThreshold",
       Call.so_symbol "_ZN17GGPackfileManager16dataFromFilenameEP8GGStringb"] :=
  have h : main env_ok =
      _ ++ Call.hook_addr 0x98000001 "dataFromFilename" :: (main env_ok).drop 23 := by
    simp [main, main_load, main_prerequisite, fatal_error, main_loaded, main_bootstrap,
      patch_game, hook_site,
      dataFromFilename_site, env_ok, check_kubridge, file_exists, load_call, resolve_call]
  ⟨h, hooks_after_relocate env_ok _ _ _ _ h⟩

theorem countP_eq_zero_of_class (p q : Call → Bool) (l : List Call)
    (hl : ∀ x ∈ l, q x = true) (hpq : ∀ x, q x = true → p x = false) : l.countP p = 0 := by
  rw [List.countP_eq_zero]
  intro x hx
  simp [hpq x (hl x hx)]

theorem prelude_not_is_so_file_load (x : Call) (h : x.isPrelude = true) :
    x.is_so_file_load = false := by
  cases x <;> simp_all [Call.isPrelude, Call.is_so_file_load]

theorem prelude_not_is_so_resolve (x : Call) (h : x.isPrelude = true) :
    x.is_so_resolve = false := by
  cases x <;> simp_all [Call.isPrelude, Call.is_so_resolve]

theorem patch_not_is_so_file_load (x : Call) (h : x.isPatchCall = true) :
    x.is_so_file_load = false := by
  cases x <;> simp_all [Call.isPatchCall, Call.is_so_file_load]

theorem patch_not_is_so_resolve (x : Call) (h : x.isPatchCall = true) :
    x.is_so_resolve = false := by
  cases x <;> simp_all [Call.isPatchCall, Call.is_so_resolve]

/-- C9: in every execution of main each of so_file_load, so_relocate, so_resolve,
so_flush_caches and so_initialize is invoked at most once, and none of them is
invoked after so_initialize, neither by main nor by the thread pthread_main it
starts; in particular so_relocate is never applied twice. -/
theorem main_phases_once (e : Env) :
    (main e).countP Call.is_so_file_load ≤ 1 ∧
    (main e).count Call.so_relocate ≤ 1 ∧
    (main e).countP Call.is_so_resolve ≤ 1 ∧
    (main e).count Call.so_flush_caches ≤ 1 ∧
    (main e).count Call.so_initialize ≤ 1 ∧
    (∀ c ∈ pthread_main e, c.isLoaderOp = false) ∧
    ∀ pre post, main e = pre ++ Call.so_initialize :: post →
      ∀ c ∈ post, c.isLoaderOp = false := by
  have hthread : ∀ c ∈ pthread_main e, c.isLoaderOp = false := by
    intro c hc
    simp only [pthread_main, List.mem_cons, List.mem_singleton, List.not_mem_nil,
      or_false] at hc
    rcases hc with h | h | h <;> subst h <;> rfl
  by_cases hl : loaded e
  · obtain ⟨pre0, hm, hpre⟩ := main_of_loaded e hl
    have hpg := patch_game_isPatchCall e
    have e1 : ∀ c, Call.isPrelude c = false → pre0.count c = 0 :=
      fun c h => count_eq_zero_of_class _ c pre0 h hpre
    have e2 : ∀ c, Call.isPatchCall c = false → (patch_game e).count c = 0 :=
      fun c h => count_eq_zero_of_class _ c _ h hpg
    have p1 := countP_eq_zero_of_class Call.is_so_file_load _ pre0 hpre
      prelude_not_is_so_file_load
    have p2 := countP_eq_zero_of_class Call.is_so_resolve _ pre0 hpre
      prelude_not_is_so_resolve
    have p3 := countP_eq_zero_of_class Call.is_so_file_load _ _ hpg
      patch_not_is_so_file_load
    have p4 := countP_eq_zero_of_class Call.is_so_resolve _ _ hpg
      patch_not_is_so_resolve
    refine ⟨?_, ?_, ?_, ?_, ?_, hthread, ?_⟩
    · rw [hm, main_loaded_split]
      simp [p1, p3, load_call, resolve_call, Call.is_so_file_load]
    · rw [hm, main_loaded_split]
      simp [e1, e2, load_call, resolve_call, Call.isPrelude, Call.isPatchCall]
    · rw [hm, main_loaded_split]
      simp [p2, p4, load_call, resolve_call, Call.is_so_resolve]
    · rw [hm, main_loaded_split]
      simp [e1, e2, load_call, resolve_call, Call.isPrelude, Call.isPatchCall]
    · rw [hm, main_loaded_split]
      simp [e1, e2, load_call, resolve_call, Call.isPrelude, Call.isPatchCall]
    · intro pre post h c hc
      have hsplit : pre ++ Call.so_initialize :: post =
          (pre0 ++ load_call :: ([Call.so_relocate, resolve_call,
            Call.platform "vglUseTripleBuffering", Call.platform "vglSetParamBufferSize",
            Call.platform "vglSetSemanticBindingMode",
            Call.platform "vglInitWithCustomThreshold"] ++ patch_game e ++
            [Call.so_flush_caches])) ++ Call.so_initialize ::
          [Call.platform "memset", Call.platform "memset",
           Call.platform "pthread_attr_init", Call.platform "pthread_attr_setstacksize",
           Call.pthread_create "mem_manager",
           Call.platform "pthread_attr_init", Call.platform "pthread_attr_setstacksize",
           Call.pthread_create "pthread_main", Call.pthread_join "pthread_main"] := by
        rw [← h, hm]; simp [main_loaded, resolve_call]
      have hx : Call.so_initialize ∉ pre0 ++ load_call :: ([Call.so_relocate, resolve_call,
            Call.platform "vglUseTripleBuffering", Call.platform "vglSetParamBufferSize",
            Call.platform "vglSetSemanticBindingMode",
            Call.platform "vglInitWithCustomThreshold"] ++ patch_game e ++
            [Call.so_flush_caches]) := by
        have h1 := not_mem_of_class _ Call.so_initialize pre0 rfl hpre
        have h2 := not_mem_patch_game e Call.so_initialize rfl
        simp [h1, h2, load_call, resolve_call]
      have := not_mem_suffix_of_split hsplit hx c hc
      simp only [List.mem_cons, List.mem_singleton, List.not_mem_nil, or_false] at this
      rcases this with h | h | h | h | h | h | h | h | h <;> subst h <;> rfl
  · obtain ⟨pre0, msg, hm, hpre⟩ := main_of_not_loaded e hl
    have hcls : ∀ c ∈ main e,
        c.isPrelude = true ∨ c = load_call ∨ c = Call.fatal_error msg := by
      intro c hc
      rw [hm] at hc
      simp only [List.mem_append, List.mem_singleton] at hc
      rcases hc with hc | hc
      · rcases hpre c hc with h | h
        · exact Or.inl h
        · exact Or.inr (Or.inl h)
      · exact Or.inr (Or.inr hc)
    have hnot : ∀ c, c.isPrelude = false → c ≠ load_call →
        (∀ m, c ≠ Call.fatal_error m) →
        c ∉ main e := by
      intro c h1 h2 h3 hc
      rcases hcls c hc with h | h | h
      · simp [h1] at h
      · exact h2 h
      · exact h3 _ h
    have hz : ∀ c, c.isPrelude = false → c ≠ load_call →
        (∀ m, c ≠ Call.fatal_error m) →
        (main e).count c ≤ 1 := by
      intro c h1 h2 h3
      rw [List.count_eq_zero_of_not_mem (hnot c h1 h2 h3)]
      exact Nat.zero_le _
    refine ⟨?_, hz _ rfl (by simp [load_call]) (by simp), ?_,
      hz _ rfl (by simp [load_call]) (by simp), hz _ rfl (by simp [load_call]) (by simp),
      hthread, ?_⟩
    · obtain ⟨pre1, msg1, hm1, hpre1⟩ := main_of_not_loaded_split e hl
      have p1 := countP_eq_zero_of_class Call.is_so_file_load _ pre1 hpre1
        prelude_not_is_so_file_load
      rcases hm1 with hm1 | hm1 <;> rw [hm1] <;>
        simp [p1, load_call, Call.is_so_file_load]
    · have hzero : (main e).countP Call.is_so_resolve = 0 := by
        rw [List.countP_eq_zero]
        intro c hc
        rcases hcls c hc with h | h | h
        · simp [prelude_not_is_so_resolve c h]
        · subst h; simp [load_call, Call.is_so_resolve]
        · subst h; simp [Call.is_so_resolve]
      rw [hzero]
      exact Nat.zero_le _
    · intro pre post h
      exfalso
      apply hnot Call.so_initialize rfl (by simp [load_call]) (by simp)
      rw [h]; simp

theorem main_phases_once_witness :
    main env_ok =
      (main_bootstrap env_ok ++
        [Call.platform "_vshKernelSearchModuleByName",
         Call.sceIoGetstat "ur0:/data/libshacccg.suprx",
         Call.platform "sprintf", Call.platform "printf", Call.platform "sprintf",
         load_call, Call.so_relocate, resolve_call,
         Call.platform "vglUseTripleBuffering", Call.platform "vglSetParamBufferSize",
         Call.platform "vglSetSemanticBindingMode",
         Call.platform "vglInitWithCustomThreshold"] ++
        patch_game env_ok ++ [Call.so_flush_caches]) ++
      Call.so_initialize ::
        [Call.platform "memset", Call.platform "memset",
         Call.platform "pthread_attr_init", Call.platform "pthread_attr_setstacksize",
         Call.pthread_create "mem_manager",
         Call.platform "pthread_attr_init", Call.platform "pthread_attr_setstacksize",
         Call.pthread_create "pthread_main", Call.pthread_join "pthread_main"] ∧
    ∀ c ∈ [Call.platform "memset", Call.platform "memset",
         Call.platform "pthread_attr_init", Call.platform "pthread_attr_setstacksize",
         Call.pthread_create "mem_manager",
         Call.platform "pthread_attr_init", Call.platform "pthread_attr_setstacksize",
         Call.pthread_create "pthread_main", Call.pthread_join "pthread_main"],
      c.isLoaderOp = false :=
  have h : main env_ok = _ ++ Call.so_initialize :: _ := by
    simp [main, main_load, main_prerequisite, fatal_error, main_loaded, env_ok,
      check_kubridge, file_exists,
      load_call, resolve_call]
  ⟨h, (main_phases_once env_ok).2.2.2.2.2.2 _ _ h⟩

theorem sub32_eq_emod (x y : Nat) :
    (sub32 x y : Int) = ((x : Int) - (y : Int)) % 2 ^ 32 := by
  unfold sub32
  have hy : y % 2 ^ 32 < 2 ^ 32 := Nat.mod_lt _ (by norm_num)
  have hx : x % 2 ^ 32 < 2 ^ 32 := Nat.mod_lt _ (by norm_num)
  push_cast
  omega

/-- C10: for a module at base_address B with a symbol at virtual offset S, an
Absolute relocation leaves B + S + addend in its slot, and a PC-relative
relocation whose slot is at virtual offset T leaves (B + S + addend) - (B + T),
both as 32-bit words; with B = 0x10000000, S = 0x20 and T = 0x30 the slots hold
0x10000020 + addend and (0x10000020 + addend) - 0x10000030. -/
theorem relocation_arithmetic (B S T addend : Nat) (mem : Nat → Nat) :
    apply_relocation B mem ⟨T, RelocKind.absolute, S, addend⟩ (B + T) =
      (B + S + addend) % 2 ^ 32 ∧
    (B + S + addend < 2 ^ 32 →
      apply_relocation B mem ⟨T, RelocKind.absolute, S, addend⟩ (B + T) = B + S + addend) ∧
    ((apply_relocation B mem ⟨T, RelocKind.pc_relative, S, addend⟩ (B + T) : Nat) : Int) =
      (((B + S + addend : Nat) : Int) - ((B + T : Nat) : Int)) % 2 ^ 32 ∧
    apply_relocation 0x10000000 mem ⟨0x30, RelocKind.absolute, 0x20, addend⟩ 0x10000030 =
      (0x10000020 + addend) % 2 ^ 32 ∧
    ((apply_relocation 0x10000000 mem ⟨0x30, RelocKind.pc_relative, 0x20, addend⟩
        0x10000030 : Nat) : Int) =
      ((0x10000020 + addend : Nat) - (0x10000030 : Int)) % 2 ^ 32 := by
  refine ⟨?_, ?_, ?_, ?_, ?_⟩
  · simp [apply_relocation, reloc_value]
  · intro h
    simp only [apply_relocation, reloc_value, if_true]
    exact Nat.mod_eq_of_lt h
  · simp only [apply_relocation, reloc_value, if_true]
    exact sub32_eq_emod _ _
  · simp [apply_relocation, reloc_value]
  · simp only [apply_relocation, reloc_value]
    rw [if_pos (by norm_num)]
    rw [sub32_eq_emod]
    norm_num

theorem relocation_arithmetic_witness :
    0x10000000 + 0x20 + 8 < 2 ^ 32 ∧
    apply_relocation 0x10000000 (fun _ => 0) ⟨0x30, RelocKind.absolute, 0x20, 8⟩
      (0x10000000 + 0x30) = 0x10000000 + 0x20 + 8 :=
  ⟨by decide,
   (relocation_arithmetic 0x10000000 0x20 0x30 8 (fun _ => 0)).2.1 (by decide)⟩

theorem split_at_index {α : Type} (l : List α) (i : Nat) (a : α) (h : l[i]? = some a) :
    l = l.take i ++ a :: l.drop (i + 1) := by
  induction l generalizing i with
  | nil => simp at h
  | cons x xs ih =>
    cases i with
    | zero =>
      simp only [List.getElem?_cons_zero, Option.some.injEq] at h
      simp [h]
    | succ n =>
      simp only [List.getElem?_cons_succ] at h
      simp only [List.take_succ_cons, List.drop_succ_cons, List.cons_append, List.cons.injEq,
        true_and]
      exact ih n h

set_option maxRecDepth 1000000 in
theorem patch_game_table_split :
    ∃ t₁ t₂ t₃, patch_game_table =
      t₁ ++ HookSite.mk "SDL_AndroidGetActivity_REAL" "ret0" ::
        (t₂ ++ HookSite.mk "SDL_AndroidGetActivity_REAL" "ret0" :: t₃) := by
  have h1 : patch_game_table[50]? = some (HookSite.mk "SDL_AndroidGetActivity_REAL" "ret0") := by
    decide
  have h2 : (patch_game_table.drop 51)[495]? =
      some (HookSite.mk "SDL_AndroidGetActivity_REAL" "ret0") := by
    decide
  refine ⟨patch_game_table.take 50, (patch_game_table.drop 51).take 495,
    (patch_game_table.drop 51).drop 496, ?_⟩
  rw [← split_at_index _ 495 _ h2]
  exact split_at_index _ 50 _ h1

theorem patch_game_hooks_twice (e : Env) :
    ∃ l₁ l₂ l₃, patch_game e =
      l₁ ++ hook_site e (HookSite.mk "SDL_AndroidGetActivity_REAL" "ret0") ++
        (l₂ ++ hook_site e (HookSite.mk "SDL_AndroidGetActivity_REAL" "ret0") ++ l₃) := by
  obtain ⟨t₁, t₂, t₃, ht⟩ := patch_game_table_split
  refine ⟨hook_site e dataFromFilename_site ++
      [Call.so_symbol "_Z18GGLoadDataFromFileP8GGStringPKhyyj"] ++ t₁.flatMap (hook_site e),
    t₂.flatMap (hook_site e), t₃.flatMap (hook_site e), ?_⟩
  rw [patch_game, ht]
  simp [List.flatMap_append, List.flatMap_cons]

set_option maxRecDepth 1000000 in
/-- C6: patch_game passes two symbol names to hook_addr twice. The name
SDL_AndroidGetActivity_REAL is hooked by the statements of lines 1744 and 2416
(sites 51 and 547), SDL_AndroidGetInternalStoragePath_REAL by those of lines
1749 and 2420 (sites 56 and 551), so the hooked names are not free of
repetition; in every run patch_game looks up SDL_AndroidGetActivity_REAL and
calls hook_addr on the result at two places. -/
theorem patch_game_rehooks :
    patch_game_sites[51]? = some ⟨"SDL_AndroidGetActivity_REAL", "ret0"⟩ ∧
    patch_game_sites[547]? = some ⟨"SDL_AndroidGetActivity_REAL", "ret0"⟩ ∧
    patch_game_sites[56]? = some ⟨"SDL_AndroidGetInternalStoragePath_REAL",
      "SDL_AndroidGetInternalStoragePath"⟩ ∧
    patch_game_sites[551]? = some ⟨"SDL_AndroidGetInternalStoragePath_REAL",
      "SDL_AndroidGetInternalStoragePath"⟩ ∧
    (patch_game_sites.map HookSite.symbol).count "SDL_AndroidGetActivity_REAL" = 2 ∧
    (patch_game_sites.map HookSite.symbol).count
      "SDL_AndroidGetInternalStoragePath_REAL" = 2 ∧
    ¬ (patch_game_sites.map HookSite.symbol).Nodup ∧
    ∀ e : Env, ∃ l₁ l₂ l₃, patch_game e =
      l₁ ++ hook_site e (HookSite.mk "SDL_AndroidGetActivity_REAL" "ret0") ++
        (l₂ ++ hook_site e (HookSite.mk "SDL_AndroidGetActivity_REAL" "ret0") ++ l₃) := by
  have h1 : (patch_game_sites.map HookSite.symbol).count "SDL_AndroidGetActivity_REAL" = 2 := by
    decide
  refine ⟨by decide, by decide, by decide, by decide, h1, by decide, ?_,
    patch_game_hooks_twice⟩
  intro hn
  have := List.nodup_iff_count_le_one.1 hn "SDL_AndroidGetActivity_REAL"
  omega

set_option maxRecDepth 1000000 in
/-- C7: default_dynlib lists the name iswdigit twice, at entries 147 and 148
(lines 955 and 956), so its symbol strings are not free of repetition; this is
the table main hands to so_resolve. -/
theorem default_dynlib_iswdigit_twice :
    default_dynlib[147]? = some ⟨"iswdigit", "iswdigit"⟩ ∧
    default_dynlib[148]? = some ⟨"iswdigit", "iswdigit"⟩ ∧
    (default_dynlib.map so_default_dynlib.symbol).count "iswdigit" = 2 ∧
    ¬ (default_dynlib.map so_default_dynlib.symbol).Nodup ∧
    Call.so_resolve default_dynlib 0 ∈ main env_ok := by
  have h1 : (default_dynlib.map so_default_dynlib.symbol).count "iswdigit" = 2 := by
    decide
  refine ⟨by decide, by decide, h1, ?_,
    mem_main_loaded_of_loaded _ loaded_env_ok _ (by simp [main_loaded])⟩
  intro hn
  have := List.nodup_iff_count_le_one.1 hn "iswdigit"
  omega

theorem main_of_prerequisites_failed (e : Env) (h : ¬ prerequisites e) :
    ∃ pre msg, main e = pre ++ [Call.fatal_error msg] ∧ ∀ c ∈ pre, c.isPrelude = true := by
  have hl : ¬ loaded e := fun hl => h ⟨Int.not_lt.1 hl.1, hl.2.1⟩
  obtain ⟨pre, msg, hm | hm, hpre⟩ := main_of_not_loaded_split e hl
  · exact ⟨pre, msg, hm, hpre⟩
  · exfalso
    apply h
    have hmem : load_call ∈ main e := by rw [hm]; simp
    unfold main at hmem
    have h1 : Call.so_file_load "ux0:data/thimbleweed/libThimbleweedPark.so" ∉
        main_bootstrap e := not_mem_of_class _ _ _ rfl (bootstrap_prelude e)
    by_cases hk : check_kubridge e < 0
    · simp [hk, fatal_error, h1, load_call] at hmem
    · refine ⟨Int.not_lt.1 hk, ?_⟩
      by_contra hf
      simp only [not_or, Bool.not_eq_true] at hf
      simp [hk, main_prerequisite, fatal_error, h1, load_call, hf.1, hf.2] at hmem

theorem load_call_mem_main_of_prerequisites (e : Env) (h : prerequisites e) :
    load_call ∈ main e := by
  have hk : ¬ check_kubridge e < 0 := Int.not_lt.2 h.1
  unfold main
  rcases h.2 with h1 | h1
  · simp [hk, main_prerequisite, main_load, h1, load_call]
  · by_cases h0 : file_exists e "ur0:/data/libshacccg.suprx" = true
    · simp [hk, main_prerequisite, main_load, h0, load_call]
    · simp [hk, main_prerequisite, main_load, h0, h1, load_call]

/-- C14: main attempts so_file_load exactly when check_kubridge returned a
non-negative value and at least one of ur0:/data/libshacccg.suprx and
ur0:/data/external/libshacccg.suprx exists (sceIoGetstat non-negative);
otherwise main ends in a fatal error and makes no loader call at all. -/
theorem main_prerequisites_gate_load (e : Env) :
    ((∃ c ∈ main e, c.is_so_file_load = true) ↔
      0 ≤ check_kubridge e ∧
      (0 ≤ e.sceIoGetstat "ur0:/data/libshacccg.suprx" ∨
        0 ≤ e.sceIoGetstat "ur0:/data/external/libshacccg.suprx")) ∧
    (¬ (0 ≤ check_kubridge e ∧
        (0 ≤ e.sceIoGetstat "ur0:/data/libshacccg.suprx" ∨
          0 ≤ e.sceIoGetstat "ur0:/data/external/libshacccg.suprx")) →
      (∃ msg, (main e).getLast? = some (Call.fatal_error msg)) ∧
      ∀ c ∈ main e, c.isLoaderOp = false ∧ c.isPatchCall = false ∧
        c.isThreadCreate = false) := by
  have hp : prerequisites e ↔ 0 ≤ check_kubridge e ∧
      (0 ≤ e.sceIoGetstat "ur0:/data/libshacccg.suprx" ∨
        0 ≤ e.sceIoGetstat "ur0:/data/external/libshacccg.suprx") := by
    simp [prerequisites, file_exists]
  rw [← hp]
  have hfail : ¬ prerequisites e →
      (∃ msg, (main e).getLast? = some (Call.fatal_error msg)) ∧
      ∀ c ∈ main e, c.isLoaderOp = false ∧ c.isPatchCall = false ∧
        c.isThreadCreate = false := by
    intro hn
    obtain ⟨pre, msg, hm, hpre⟩ := main_of_prerequisites_failed e hn
    rw [hm]
    refine ⟨⟨msg, List.getLast?_concat _⟩, ?_⟩
    intro c hc
    simp only [List.mem_append, List.mem_singleton] at hc
    rcases hc with hc | hc
    · have := hpre c hc
      cases c <;> simp_all [Call.isPrelude, Call.isLoaderOp, Call.isPatchCall,
        Call.isThreadCreate]
    · subst hc; exact ⟨rfl, rfl, rfl⟩
  refine ⟨⟨?_, ?_⟩, hfail⟩
  · rintro ⟨c, hc, hload⟩
    by_contra hn
    have := ((hfail hn).2 c hc).1
    cases c <;> simp_all [Call.is_so_file_load, Call.isLoaderOp]
  · intro h
    exact ⟨load_call, load_call_mem_main_of_prerequisites e h, rfl⟩

theorem main_prerequisites_gate_load_witness :
    ¬ (0 ≤ check_kubridge env_no_kubridge ∧
        (0 ≤ env_no_kubridge.sceIoGetstat "ur0:/data/libshacccg.suprx" ∨
          0 ≤ env_no_kubridge.sceIoGetstat "ur0:/data/external/libshacccg.suprx")) ∧
    (∃ msg, (main env_no_kubridge).getLast? = some (Call.fatal_error msg)) ∧
    ∀ c ∈ main env_no_kubridge, c.isLoaderOp = false ∧ c.isPatchCall = false ∧
      c.isThreadCreate = false :=
  ⟨by decide, (main_prerequisites_gate_load env_no_kubridge).2 (by decide)⟩

/-- C13: in each pass through the loop of mem_manager the purge routine (the
address so_symbol gives for _ZN9GameScene12appLowMemoryEv) is called if and
only if vglMemFree(VGL_MEM_SLOW) is below 22*1024*1024 = 23068672, and then
exactly once; nothing else of the module is called, and every further pass of
the loop is one more such pass. -/
theorem mem_manager_purges_under_pressure (e : Env) (vglMemFree : Nat → Nat) (n : Nat) :
    22 * 1024 * 1024 = 23068672 ∧
    (Call.call_module (e.so_symbol "_ZN9GameScene12appLowMemoryEv") ∈
        mem_manager_iteration (e.so_symbol "_ZN9GameScene12appLowMemoryEv") (vglMemFree n) ↔
      vglMemFree n < 23068672) ∧
    (mem_manager_iteration (e.so_symbol "_ZN9GameScene12appLowMemoryEv")
        (vglMemFree n)).countP Call.isModuleCall ≤ 1 ∧
    (∀ x, Call.call_module x ∈
        mem_manager_iteration (e.so_symbol "_ZN9GameScene12appLowMemoryEv") (vglMemFree n) →
      x = e.so_symbol "_ZN9GameScene12appLowMemoryEv") ∧
    mem_manager e vglMemFree (n + 1) =
      mem_manager e vglMemFree n ++
        mem_manager_iteration (e.so_symbol "_ZN9GameScene12appLowMemoryEv")
          (vglMemFree n) := by
  refine ⟨by norm_num, ?_, ?_, ?_, ?_⟩
  · unfold mem_manager_iteration
    by_cases h : vglMemFree n < 22 * 1024 * 1024
    · simp [h]
    · simp [h]
  · unfold mem_manager_iteration
    by_cases h : vglMemFree n < 22 * 1024 * 1024 <;> simp [h, Call.isModuleCall]
  · intro x hx
    unfold mem_manager_iteration at hx
    by_cases h : vglMemFree n < 22 * 1024 * 1024 <;> simp [h] at hx
    exact hx
  · simp [mem_manager, List.range_succ, List.flatMap_append]

theorem mem_manager_purges_under_pressure_witness :
    Call.call_module 0x98000001 ∈
      mem_manager_iteration (env_ok.so_symbol "_ZN9GameScene12appLowMemoryEv") 0 ∧
    0x98000001 = env_ok.so_symbol "_ZN9GameScene12appLowMemoryEv" :=
  ⟨by simp [mem_manager_iteration, env_ok],
   (mem_manager_purges_under_pressure env_ok (fun _ => 0) 0).2.2.2.1 _
    (by simp [mem_manager_iteration, env_ok])⟩

theorem strcmp_eq_zero_iff (a b : List Nat) (ha : 0 ∉ a) (hb : 0 ∉ b) :
    strcmp a b = 0 ↔ a = b := by
  induction a generalizing b with
  | nil =>
    cases b with
    | nil => simp [strcmp]
    | cons y ys =>
      have hy : y ≠ 0 := fun h => hb (by simp [h])
      simp [strcmp, hy]
  | cons x xs ih =>
    have hx : x ≠ 0 := fun h => ha (by simp [h])
    cases b with
    | nil => simp [strcmp, hx]
    | cons y ys =>
      have hxs : 0 ∉ xs := fun h => ha (by simp [h])
      have hys : 0 ∉ ys := fun h => hb (by simp [h])
      by_cases hxy : x = y
      · subst hxy
        simp [strcmp, hx, ih ys hxs hys]
      · have : (x : Int) - (y : Int) ≠ 0 := by omega
        simp [strcmp, hxy, this]

theorem cstr_glPixelStorei :
    cstr "glPixelStorei" = [103, 108, 80, 105, 120, 101, 108, 83, 116, 111, 114, 101, 105] := by
  decide

/-- C15: SDL_GL_GetProcAddress_fake matches names by exact comparison with the
entry glPixelStorei of gl_hook. For that name it returns the address of ret0 and
does not call vglGetProcAddress; for every other name, a proper prefix or an
extension of glPixelStorei included, it calls vglGetProcAddress once and
returns exactly its result, NULL included. -/
theorem SDL_GL_GetProcAddress_fake_exact (addr_of : String → Nat)
    (vglGetProcAddress : List Nat → Nat) (symbol : List Nat) (h0 : 0 ∉ symbol) :
    (symbol = cstr "glPixelStorei" →
      SDL_GL_GetProcAddress_fake addr_of vglGetProcAddress symbol = (addr_of "ret0", [])) ∧
    (symbol ≠ cstr "glPixelStorei" →
      SDL_GL_GetProcAddress_fake addr_of vglGetProcAddress symbol =
        (vglGetProcAddress symbol, [Call.platform "vglGetProcAddress"])) ∧
    SDL_GL_GetProcAddress_fake addr_of vglGetProcAddress (cstr "glPixelStore") =
      (vglGetProcAddress (cstr "glPixelStore"), [Call.platform "vglGetProcAddress"]) ∧
    SDL_GL_GetProcAddress_fake addr_of vglGetProcAddress (cstr "glPixelStoreiv") =
      (vglGetProcAddress (cstr "glPixelStoreiv"), [Call.platform "vglGetProcAddress"]) := by
  have hg : 0 ∉ cstr "glPixelStorei" := by rw [cstr_glPixelStorei]; decide
  have key : ∀ s : List Nat, 0 ∉ s → s ≠ cstr "glPixelStorei" →
      SDL_GL_GetProcAddress_fake addr_of vglGetProcAddress s =
        (vglGetProcAddress s, [Call.platform "vglGetProcAddress"]) := by
    intro s hs hne
    have hcmp : ¬ strcmp s (cstr "glPixelStorei") = 0 :=
      fun h => hne ((strcmp_eq_zero_iff s _ hs hg).1 h)
    simp [SDL_GL_GetProcAddress_fake, gl_hook, gl_hook_find, hcmp]
  refine ⟨?_, key symbol h0, ?_, ?_⟩
  · intro h
    have hcmp : strcmp symbol (cstr "glPixelStorei") = 0 :=
      (strcmp_eq_zero_iff symbol _ h0 hg).2 h
    simp [SDL_GL_GetProcAddress_fake, gl_hook, gl_hook_find, hcmp]
  · exact key _ (by decide) (by decide)
  · exact key _ (by decide) (by decide)

theorem SDL_GL_GetProcAddress_fake_exact_witness :
    0 ∉ cstr "glPixelStorei" ∧ 0 ∉ cstr "glFlush" ∧
    cstr "glFlush" ≠ cstr "glPixelStorei" ∧
    SDL_GL_GetProcAddress_fake (fun _ => 0x81000000) (fun _ => 0) (cstr "glPixelStorei") =
      (0x81000000, []) ∧
    SDL_GL_GetProcAddress_fake (fun _ => 0x81000000) (fun _ => 0) (cstr "glFlush") =
      (0, [Call.platform "vglGetProcAddress"]) :=
  ⟨by decide, by decide, by decide,
   (SDL_GL_GetProcAddress_fake_exact (fun _ => 0x81000000) (fun _ => 0)
      (cstr "glPixelStorei") (by decide)).1 rfl,
   (SDL_GL_GetProcAddress_fake_exact (fun _ => 0x81000000) (fun _ => 0)
      (cstr "glFlush") (by decide)).2.1 (by decide)⟩

theorem int_of_pointer_eq_iff (p k : Nat) (hp : p < 2 ^ 32) (hk : k < 2 ^ 31) :
    int_of_pointer p = (k : Int) ↔ p = k := by
  unfold int_of_pointer
  rw [Nat.mod_eq_of_lt hp]
  split <;> omega

/-- C17: pthread_cond_signal_soloader and pthread_cond_timedwait_soloader
replace a NULL handle by the freshly allocated condition variable before the
underlying call, which therefore gets a non-NULL condition variable whenever
calloc succeeds. pthread_cond_broadcast_soloader and pthread_cond_wait_soloader
do not: with a NULL handle they call pthread_cond_broadcast and
pthread_cond_wait with a NULL condition variable and leave the handle NULL. -/
theorem cond_wrappers_on_static_handle (calloc₁ calloc₂ mutex abstime : Nat)
    (h : calloc₁ ≠ 0) :
    pthread_cond_signal_soloader calloc₁ 0 =
      (calloc₁, [PthreadCall.calloc calloc₁,
        PthreadCall.sceClibMemcpy calloc₁ PthreadInitializer.PTHREAD_COND_INITIALIZER,
        PthreadCall.pthread_cond_signal calloc₁]) ∧
    (∀ cond, ∀ c ∈ (pthread_cond_signal_soloader calloc₁ cond).2,
      c ≠ PthreadCall.pthread_cond_signal 0) ∧
    (∀ cond,
      ∀ c ∈ (pthread_cond_timedwait_soloader calloc₁ calloc₂ cond mutex abstime).2.2,
      ∀ m t, c ≠ PthreadCall.pthread_cond_timedwait 0 m t) ∧
    pthread_cond_broadcast_soloader 0 = (0, [PthreadCall.pthread_cond_broadcast 0]) ∧
    pthread_cond_wait_soloader 0 mutex = (0, mutex, [PthreadCall.pthread_cond_wait 0 mutex]) := by
  refine ⟨by simp [pthread_cond_signal_soloader, init_static_cond], ?_, ?_, rfl, rfl⟩
  · intro cond c hc
    by_cases h0 : cond = 0
    · simp [pthread_cond_signal_soloader, init_static_cond, h0] at hc
      rcases hc with hc | hc | hc <;> subst hc <;> simp [h]
    · simp [pthread_cond_signal_soloader, init_static_cond, h0] at hc
      subst hc; simp [h0]
  · intro cond c hc m t
    have hm : ∀ k x, x ∈ (init_static_mutex k mutex).2 →
        x ≠ PthreadCall.pthread_cond_timedwait 0 m t := by
      intro k x hx
      unfold init_static_mutex at hx
      split at hx
      · simp at hx; rcases hx with hx | hx <;> subst hx <;> simp
      · split at hx
        · simp at hx; rcases hx with hx | hx <;> subst hx <;> simp
        · split at hx
          · simp at hx; rcases hx with hx | hx <;> subst hx <;> simp
          · simp at hx
    by_cases h0 : cond = 0
    · simp only [pthread_cond_timedwait_soloader, init_static_cond, h0, if_true,
        List.mem_append, List.mem_cons, List.mem_singleton, List.not_mem_nil, or_false] at hc
      rcases hc with (hc | hc) | hc
      · rcases hc with hc | hc <;> subst hc <;> simp
      · exact hm _ _ hc
      · subst hc; simp [h]
    · simp only [pthread_cond_timedwait_soloader, init_static_cond, h0, if_false,
        List.mem_append, List.mem_singleton, List.not_mem_nil, false_or] at hc
      rcases hc with hc | hc
      · exact hm _ _ hc
      · subst hc; simp [h0]

theorem cond_wrappers_on_static_handle_witness :
    (0x81200000 : Nat) ≠ 0 ∧
    pthread_cond_signal_soloader 0x81200000 0 =
      (0x81200000, [PthreadCall.calloc 0x81200000,
        PthreadCall.sceClibMemcpy 0x81200000 PthreadInitializer.PTHREAD_COND_INITIALIZER,
        PthreadCall.pthread_cond_signal 0x81200000]) ∧
    pthread_cond_broadcast_soloader 0 = (0, [PthreadCall.pthread_cond_broadcast 0]) :=
  ⟨by decide,
   (cond_wrappers_on_static_handle 0x81200000 0x81200100 0 0 (by decide)).1,
   (cond_wrappers_on_static_handle 0x81200000 0x81200100 0 0 (by decide)).2.2.2.1⟩

/-- C20: init_static_mutex replaces the handle by the newly allocated mutex
exactly when its value is 0, 0x4000 or 0x8000, copying the normal, the
recursive or the error-check initialiser respectively; every other handle
value is left unchanged and no call is made, so applying it again to a
converted handle, whose address is none of the three values, changes
nothing. -/
theorem init_static_mutex_frame (calloc calloc' mutex : Nat) (hm : mutex < 2 ^ 32)
    (hc : calloc < 2 ^ 32) :
    (mutex = 0 → init_static_mutex calloc mutex =
      (calloc, [PthreadCall.calloc calloc,
        PthreadCall.sceClibMemcpy calloc PthreadInitializer.PTHREAD_MUTEX_INITIALIZER])) ∧
    (mutex = 0x4000 → init_static_mutex calloc mutex =
      (calloc, [PthreadCall.calloc calloc,
        PthreadCall.sceClibMemcpy calloc
          PthreadInitializer.PTHREAD_RECURSIVE_MUTEX_INITIALIZER])) ∧
    (mutex = 0x8000 → init_static_mutex calloc mutex =
      (calloc, [PthreadCall.calloc calloc,
        PthreadCall.sceClibMemcpy calloc
          PthreadInitializer.PTHREAD_ERRORCHECK_MUTEX_INITIALIZER])) ∧
    (mutex ≠ 0 → mutex ≠ 0x4000 → mutex ≠ 0x8000 →
      init_static_mutex calloc mutex = (mutex, [])) ∧
    (calloc ≠ 0 → calloc ≠ 0x4000 → calloc ≠ 0x8000 →
      init_static_mutex calloc' (init_static_mutex calloc mutex).1 =
        ((init_static_mutex calloc mutex).1, [])) := by
  have e0 := int_of_pointer_eq_iff mutex 0 hm (by norm_num)
  have e1 := int_of_pointer_eq_iff mutex 0x4000 hm (by norm_num)
  have e2 := int_of_pointer_eq_iff mutex 0x8000 hm (by norm_num)
  have keep : ∀ k p : Nat, p < 2 ^ 32 → p ≠ 0 → p ≠ 0x4000 → p ≠ 0x8000 →
      init_static_mutex k p = (p, []) := by
    intro k p hp h0 h1 h2
    have f0 := int_of_pointer_eq_iff p 0 hp (by norm_num)
    have f1 := int_of_pointer_eq_iff p 0x4000 hp (by norm_num)
    have f2 := int_of_pointer_eq_iff p 0x8000 hp (by norm_num)
    have g0 : ¬ int_of_pointer p = 0 := fun hh => h0 (f0.1 (by simpa using hh))
    have g1 : ¬ int_of_pointer p = 0x4000 := fun hh => h1 (f1.1 (by simpa using hh))
    have g2 : ¬ int_of_pointer p = 0x8000 := fun hh => h2 (f2.1 (by simpa using hh))
    simp [init_static_mutex, g0, g1, g2]
  refine ⟨?_, ?_, ?_, keep calloc mutex hm, ?_⟩
  · intro h; subst h; simp [init_static_mutex, int_of_pointer]
  · intro h; subst h; simp [init_static_mutex, int_of_pointer]
  · intro h; subst h; simp [init_static_mutex, int_of_pointer]
  · intro h0 h1 h2
    have hfst : (init_static_mutex calloc mutex).1 = calloc ∨
        ((init_static_mutex calloc mutex).1 = mutex ∧ mutex ≠ 0 ∧ mutex ≠ 0x4000 ∧
          mutex ≠ 0x8000) := by
      by_cases a0 : mutex = 0
      · left; subst a0; simp [init_static_mutex, int_of_pointer]
      · by_cases a1 : mutex = 0x4000
        · left; subst a1; simp [init_static_mutex, int_of_pointer]
        · by_cases a2 : mutex = 0x8000
          · left; subst a2; simp [init_static_mutex, int_of_pointer]
          · right
            rw [keep calloc mutex hm a0 a1 a2]
            exact ⟨rfl, a0, a1, a2⟩
    rcases hfst with hh | ⟨hh, a0, a1, a2⟩
    · rw [hh]; exact keep _ _ hc h0 h1 h2
    · rw [hh]; exact keep _ _ hm a0 a1 a2

theorem init_static_mutex_frame_witness :
    (0x4000 : Nat) < 2 ^ 32 ∧ (0x81200000 : Nat) < 2 ^ 32 ∧
    init_static_mutex 0x81200000 0x4000 =
      (0x81200000, [PthreadCall.calloc 0x81200000,
        PthreadCall.sceClibMemcpy 0x81200000
          PthreadInitializer.PTHREAD_RECURSIVE_MUTEX_INITIALIZER]) ∧
    init_static_mutex 0x81200100 (init_static_mutex 0x81200000 0x4000).1 =
      ((init_static_mutex 0x81200000 0x4000).1, []) :=
  ⟨by decide, by decide,
   (init_static_mutex_frame 0x81200000 0x81200100 0x4000 (by decide) (by decide)).2.1 rfl,
   (init_static_mutex_frame 0x81200000 0x81200100 0x4000 (by decide) (by decide)).2.2.2.2
      (by decide) (by decide) (by decide)⟩

theorem map_image_of_lt (image : List Nat) (base : Nat) (segments : List Segment)
    (mem : Nat → Nat) (addr : Nat) (h : ∀ r ∈ segments, addr < base + r.virtual_offset) :
    map_image image base segments mem addr = mem addr := by
  induction segments generalizing mem with
  | nil => rfl
  | cons t rest ih =>
    have ht : addr < base + t.virtual_offset := h t (by simp)
    have hrest : ∀ r ∈ rest, addr < base + r.virtual_offset :=
      fun r hr => h r (by simp [hr])
    show map_image image base rest (map_segment image base mem t) addr = mem addr
    rw [ih _ hrest]
    unfold map_segment
    rw [if_neg (by omega), if_neg (by omega)]

theorem map_image_segment (image : List Nat) (base : Nat) (segments : List Segment)
    (mem : Nat → Nat)
    (hp : segments.Pairwise (fun a b => a.virtual_offset + a.mem_size ≤ b.virtual_offset))
    (s : Segment) (hs : s ∈ segments) (i : Nat) (hi : i < s.mem_size) :
    map_image image base segments mem (base + s.virtual_offset + i) =
      if i < s.file_size then image.getD (s.file_offset + i) 0 else 0 := by
  induction segments generalizing mem with
  | nil => simp at hs
  | cons t rest ih =>
    rw [List.pairwise_cons] at hp
    show map_image image base rest (map_segment image base mem t) _ = _
    by_cases hmem : s ∈ rest
    · exact ih _ hp.2 hmem
    · have hst : s = t := by
        rcases List.mem_cons.1 hs with h | h
        · exact h
        · exact absurd h hmem
      subst hst
      rw [map_image_of_lt]
      · unfold map_segment
        by_cases hf : i < s.file_size
        · rw [if_pos ⟨by omega, by omega⟩, if_pos hf]
          congr 1
          omega
        · rw [if_neg (by omega), if_pos ⟨by omega, by omega⟩, if_neg hf]
      · intro r hr
        have := hp.1 r hr
        omega

/-- C11: for every well-formed image, after mapping, every byte of each
segment's file range is found unchanged at base_address + virtual_offset of
the segment, and every byte from the segment's file size up to its memory size
is zero. -/
theorem map_image_round_trip (image : List Nat) (base_address : Nat)
    (segments : List Segment) (mem : Nat → Nat) (h : well_formed image segments)
    (s : Segment) (hs : s ∈ segments) (i : Nat) :
    (i < s.file_size →
      image[s.file_offset + i]? =
        some (map_image image base_address segments mem
          (base_address + s.virtual_offset + i))) ∧
    (s.file_size ≤ i → i < s.mem_size →
      map_image image base_address segments mem (base_address + s.virtual_offset + i) = 0) := by
  have hsz := (h.1 s hs).2
  have hin := (h.1 s hs).1
  constructor
  · intro hi
    rw [map_image_segment image base_address segments mem h.2 s hs i (by omega), if_pos hi]
    have hlt : s.file_offset + i < image.length := by omega
    simp [List.getD_eq_getElem?_getD, List.getElem?_eq_getElem hlt]
  · intro h1 h2
    rw [map_image_segment image base_address segments mem h.2 s hs i h2, if_neg (by omega)]

theorem map_image_round_trip_witness :
    well_formed image_example.1 image_example.2 ∧
    Segment.mk 0 0 2 4 ∈ image_example.2 ∧
    image_example.1[0 + 1]? =
      some (map_image image_example.1 0x98000000 image_example.2 (fun _ => 0xAA)
        (0x98000000 + 0 + 1)) ∧
    map_image image_example.1 0x98000000 image_example.2 (fun _ => 0xAA)
      (0x98000000 + 0 + 3) = 0 :=
  ⟨by decide, by decide,
   (map_image_round_trip image_example.1 0x98000000 image_example.2 (fun _ => 0xAA)
      (by decide) (Segment.mk 0 0 2 4) (by decide) 1).1 (by decide),
   (map_image_round_trip image_example.1 0x98000000 image_example.2 (fun _ => 0xAA)
      (by decide) (Segment.mk 0 0 2 4) (by decide) 3).2 (by decide) (by decide)⟩

theorem strncmp_prefix_iff (p f : List Nat) (hp : 0 ∉ p) :
    strncmp f p p.length = 0 ↔ f.take p.length = p := by
  induction p generalizing f with
  | nil => simp [strncmp]
  | cons b ps ih =>
    have hb : b ≠ 0 := fun h => hp (by simp [h])
    have hps : 0 ∉ ps := fun h => hp (by simp [h])
    cases f with
    | nil => simp [strncmp, hb]
    | cons a fs =>
      by_cases hab : a = b
      · subst hab
        simp [strncmp, hb, ih fs hps]
      · have : (a : Int) - (b : Int) ≠ 0 := by omega
        simp [strncmp, hab, this]

theorem cstr_savegame :
    (cstr "ux0:/data/Terrible Toybox/Thimbleweed Park/Savegame").length = 51 ∧
    0 ∉ cstr "ux0:/data/Terrible Toybox/Thimbleweed Park/Savegame" := by
  decide

/-- C12: after hook_addr has installed a replacement at an address of the
module, a call to that address runs the replacement and every other address
runs what it ran before; a call through the returned so_hook with SO_CONTINUE
invokes the routine that was at the address before, on the same arguments, and
returns its result. So hooked, dataFromFilename first invokes the original
body on its own three arguments and returns that body's result unless the
object names a savegame path. -/
theorem hook_addr_correct (code : Nat → Routine) (run : Routine → List Nat → Nat)
    (addr : Nat) (dst : String) (args : List Nat) (GGLoadDataFromFile : Routine)
    (this a1 a2 : Nat) (this4 : List Nat) :
    (hook_addr code addr dst).1 addr = Routine.host dst ∧
    (∀ a, a ≠ addr → (hook_addr code addr dst).1 a = code a) ∧
    SO_CONTINUE run (hook_addr code addr dst).2 args =
      (run (code addr) args, [(code addr, args)]) ∧
    (dataFromFilename run (hook_addr code addr "dataFromFilename").2 GGLoadDataFromFile
        this a1 a2 this4).2.head? = some (code addr, [this, a1, a2]) ∧
    (¬ (this ≠ 0 ∧
        this4.take 51 = cstr "ux0:/data/Terrible Toybox/Thimbleweed Park/Savegame") →
      dataFromFilename run (hook_addr code addr "dataFromFilename").2 GGLoadDataFromFile
          this a1 a2 this4 =
        (run (code addr) [this, a1, a2], [(code addr, [this, a1, a2])])) := by
  have hcmp := strncmp_prefix_iff
    (cstr "ux0:/data/Terrible Toybox/Thimbleweed Park/Savegame") this4 cstr_savegame.2
  rw [cstr_savegame.1] at hcmp
  refine ⟨by simp [hook_addr], ?_, rfl, ?_, ?_⟩
  · intro a ha
    simp [hook_addr, ha]
  · unfold dataFromFilename
    split <;> simp [SO_CONTINUE, hook_addr]
  · intro hn
    have hn' : ¬ (this ≠ 0 ∧
        strncmp this4 (cstr "ux0:/data/Terrible Toybox/Thimbleweed Park/Savegame")
          (cstr "ux0:/data/Terrible Toybox/Thimbleweed Park/Savegame").length = 0) := by
      rw [cstr_savegame.1, hcmp]
      exact hn
    unfold dataFromFilename
    simp only [if_neg hn']
    rfl

theorem hook_addr_correct_witness :
    ¬ ((0 : Nat) ≠ 0 ∧
      ([] : List Nat).take 51 = cstr "ux0:/data/Terrible Toybox/Thimbleweed Park/Savegame") ∧
    dataFromFilename (fun _ _ => 5) (hook_addr Routine.body 0x98001000 "dataFromFilename").2
        (Routine.body 0x98002000) 0 1 2 [] =
      (5, [(Routine.body 0x98001000, [0, 1, 2])]) :=
  ⟨by decide,
   (hook_addr_correct Routine.body (fun _ _ => 5) 0x98001000 "dataFromFilename" []
      (Routine.body 0x98002000) 0 1 2 []).2.2.2.2 (by decide)⟩

theorem method_id_find_eq (name : List Nat) (h0 : 0 ∉ name) :
    method_id_find name name_to_method_ids =
      if name = cstr "<init>" then some 1
      else if name = cstr "getLanguage" then some 2 else none := by
  have h1 : 0 ∉ cstr "<init>" := by decide
  have h2 : 0 ∉ cstr "getLanguage" := by decide
  simp only [name_to_method_ids, method_id_find, strcmp_eq_zero_iff name _ h0 h1,
    strcmp_eq_zero_iff name _ h0 h2, INIT, GET_LANGUAGE]

/-- C21: for every name GetMethodID and GetStaticMethodID return the same value:
1 (INIT) for "<init>", 2 (GET_LANGUAGE) for "getLanguage" and 0 (UNKNOWN) for
every other name, whatever env, class and sig are. -/
theorem method_id_by_name (env clazz env' clazz' : Nat) (name sig sig' : List Nat)
    (h0 : 0 ∉ name) :
    (GetMethodID env clazz name sig).1 =
      (if name = cstr "<init>" then 1 else if name = cstr "getLanguage" then 2 else 0) ∧
    (GetStaticMethodID env clazz name sig).1 = (GetMethodID env clazz name sig).1 ∧
    GetMethodID env' clazz' name sig' = GetMethodID env clazz name sig ∧
    GetStaticMethodID env' clazz' name sig' = GetStaticMethodID env clazz name sig ∧
    INIT = 1 ∧ GET_LANGUAGE = 2 ∧ UNKNOWN = 0 := by
  refine ⟨?_, rfl, rfl, rfl, rfl, rfl, rfl⟩
  simp only [GetMethodID, method_id_find_eq name h0]
  split_ifs <;> rfl

theorem method_id_by_name_witness :
    0 ∉ cstr "getLanguage" ∧
    (GetMethodID 0 0 (cstr "getLanguage") (cstr "()Ljava/lang/String;")).1 = 2 ∧
    (GetStaticMethodID 0 0 (cstr "getLanguage") (cstr "()Ljava/lang/String;")).1 = 2 :=
  ⟨by decide,
   by
    have h := (method_id_by_name 0 0 0 0 (cstr "getLanguage") (cstr "()Ljava/lang/String;")
      [] (by decide)).1
    rw [h]; decide,
   by
    have h := method_id_by_name 0 0 0 0 (cstr "getLanguage") (cstr "()Ljava/lang/String;")
      [] (by decide)
    rw [h.2.1, h.1]; decide⟩

/-- C22: with methodID = GET_LANGUAGE, CallObjectMethodV queries the system
language once and returns "fr", "es", "de", "it" or "ru" for French, Spanish,
German, Italian or Russian and "en" for every other value, also when the query
leaves lang at its initial -1; for every other methodID it returns 0x34343434
and makes no call. -/
theorem CallObjectMethodV_language (k : SceSystemParamLang) (env obj args : Nat)
    (hd : k.labels.Nodup) (hneg : (-1 : Int) ∉ k.labels) :
    CallObjectMethodV k (some k.SCE_SYSTEM_PARAM_LANG_FRENCH) env obj GET_LANGUAGE args =
      (ObjectResult.literal "fr", [Call.platform "sceAppUtilSystemParamGetInt"]) ∧
    CallObjectMethodV k (some k.SCE_SYSTEM_PARAM_LANG_SPANISH) env obj GET_LANGUAGE args =
      (ObjectResult.literal "es", [Call.platform "sceAppUtilSystemParamGetInt"]) ∧
    CallObjectMethodV k (some k.SCE_SYSTEM_PARAM_LANG_GERMAN) env obj GET_LANGUAGE args =
      (ObjectResult.literal "de", [Call.platform "sceAppUtilSystemParamGetInt"]) ∧
    CallObjectMethodV k (some k.SCE_SYSTEM_PARAM_LANG_ITALIAN) env obj GET_LANGUAGE args =
      (ObjectResult.literal "it", [Call.platform "sceAppUtilSystemParamGetInt"]) ∧
    CallObjectMethodV k (some k.SCE_SYSTEM_PARAM_LANG_RUSSIAN) env obj GET_LANGUAGE args =
      (ObjectResult.literal "ru", [Call.platform "sceAppUtilSystemParamGetInt"]) ∧
    (∀ v : Int, v ∉ k.labels →
      CallObjectMethodV k (some v) env obj GET_LANGUAGE args =
        (ObjectResult.literal "en", [Call.platform "sceAppUtilSystemParamGetInt"])) ∧
    CallObjectMethodV k none env obj GET_LANGUAGE args =
      (ObjectResult.literal "en", [Call.platform "sceAppUtilSystemParamGetInt"]) ∧
    (∀ (q : Option Int) (methodID : Int), methodID ≠ GET_LANGUAGE →
      CallObjectMethodV k q env obj methodID args =
        (ObjectResult.constant 0x34343434, [])) := by
  simp only [SceSystemParamLang.labels, List.nodup_cons, List.mem_cons, List.mem_singleton,
    List.not_mem_nil, not_or, List.nodup_nil, or_false, and_true] at hd hneg
  obtain ⟨⟨h12, h13, h14, h15⟩, ⟨h23, h24, h25⟩, ⟨h34, h35⟩, h45⟩ := hd
  have other : ∀ v : Int, v ∉ k.labels →
      CallObjectMethodV k (some v) env obj GET_LANGUAGE args =
        (ObjectResult.literal "en", [Call.platform "sceAppUtilSystemParamGetInt"]) := by
    intro v hv
    simp only [SceSystemParamLang.labels, List.mem_cons, List.mem_singleton,
      List.not_mem_nil, not_or, or_false] at hv
    simp [CallObjectMethodV, hv.1, hv.2.1, hv.2.2.1, hv.2.2.2.1, hv.2.2.2.2]
  refine ⟨?_, ?_, ?_, ?_, ?_, other, ?_, ?_⟩
  · simp [CallObjectMethodV]
  · simp [CallObjectMethodV, Ne.symm h12]
  · simp [CallObjectMethodV, Ne.symm h13, Ne.symm h23]
  · simp [CallObjectMethodV, Ne.symm h14, Ne.symm h24, Ne.symm h34]
  · simp [CallObjectMethodV, Ne.symm h15, Ne.symm h25, Ne.symm h35, Ne.symm h45.1]
  · have := other (-1) (by
      simp only [SceSystemParamLang.labels, List.mem_cons, List.mem_singleton,
        List.not_mem_nil, not_or, or_false]
      exact hneg)
    simpa [CallObjectMethodV] using this
  · intro q methodID hm
    simp [CallObjectMethodV, hm]

theorem CallObjectMethodV_language_witness :
    vitasdk_lang.labels.Nodup ∧ (-1 : Int) ∉ vitasdk_lang.labels ∧
    (7 : Int) ∉ vitasdk_lang.labels ∧ (1 : Int) ≠ GET_LANGUAGE ∧
    CallObjectMethodV vitasdk_lang (some 4) 0 0 GET_LANGUAGE 0 =
      (ObjectResult.literal "de", [Call.platform "sceAppUtilSystemParamGetInt"]) ∧
    CallObjectMethodV vitasdk_lang (some 7) 0 0 GET_LANGUAGE 0 =
      (ObjectResult.literal "en", [Call.platform "sceAppUtilSystemParamGetInt"]) ∧
    CallObjectMethodV vitasdk_lang none 0 0 1 0 = (ObjectResult.constant 0x34343434, []) :=
  ⟨by decide, by decide, by decide, by decide,
   (CallObjectMethodV_language vitasdk_lang 0 0 0 (by decide) (by decide)).2.2.1,
   (CallObjectMethodV_language vitasdk_lang 0 0 0 (by decide) (by decide)).2.2.2.2.2.1 7
      (by decide),
   (CallObjectMethodV_language vitasdk_lang 0 0 0 (by decide) (by decide)).2.2.2.2.2.2.2
      none 1 (by decide)⟩

theorem and_errno_mask_eq (res : Int) : and_errno_mask res = res % 256 := by
  unfold and_errno_mask
  have h : (0xFF : Nat) = 2 ^ 8 - 1 := by norm_num
  rw [h, Nat.and_pow_two_sub_one_eq_mod]
  omega

/-- C23: readdir_fake returns NULL with errno = EBADF for a NULL handle, without
reading the directory; NULL with errno = res & 0xFF when sceIoDread returns
res < 0; NULL with errno = 0 when it returns 0; and for res > 0 the address of
the handle's own dirent, whose d_name is the name read and whose d_type is
DT_DIR (4) if the mode read is a directory and DT_REG (8) otherwise. The name
read fits d_name, the entry's own name field being 256 bytes as well. -/
theorem readdir_fake_cases (EBADF : Int) (SCE_S_ISDIR : Nat → Bool) (dirp : Nat)
    (obj : android_DIR) (r : SceIoDread) :
    readdir_fake EBADF SCE_S_ISDIR 0 obj r =
      some (ReaddirResult.mk DirentPointer.null (some EBADF) obj []) ∧
    (dirp ≠ 0 → r.res < 0 →
      readdir_fake EBADF SCE_S_ISDIR dirp obj r =
        some (ReaddirResult.mk DirentPointer.null (some (r.res % 256)) obj
          [Call.platform "sceIoDread"]) ∧
      and_errno_mask r.res = r.res % 256) ∧
    (dirp ≠ 0 → r.res = 0 →
      readdir_fake EBADF SCE_S_ISDIR dirp obj r =
        some (ReaddirResult.mk DirentPointer.null (some 0) obj
          [Call.platform "sceIoDread"])) ∧
    (dirp ≠ 0 → 0 < r.res → r.d_name.length < 256 →
      readdir_fake EBADF SCE_S_ISDIR dirp obj r =
        some (ReaddirResult.mk (DirentPointer.dir_of dirp) none
          (android_DIR.mk obj.uid
            (android_dirent.mk (if SCE_S_ISDIR r.st_mode then 4 else 8) r.d_name))
          [Call.platform "sceIoDread"])) := by
  refine ⟨by simp [readdir_fake], ?_, ?_, ?_⟩
  · intro hd hr
    simp [readdir_fake, hd, hr, and_errno_mask_eq]
  · intro hd hr
    simp [readdir_fake, hd, hr]
  · intro hd hr hn
    have h1 : ¬ r.res < 0 := by omega
    have h2 : ¬ r.res = 0 := by omega
    have h3 : r.d_name.length + 1 ≤ 256 := by omega
    simp [readdir_fake, hd, h1, h2, h3, DT_DIR, DT_REG]

theorem readdir_fake_cases_witness :
    (0x81300000 : Nat) ≠ 0 ∧ (0 : Int) < 1 ∧ (cstr "Savegames").length < 256 ∧
    ((-2147418110 : Int) < 0) ∧
    readdir_fake 9 (fun m => m / 0x1000 % 16 == 1) 0x81300000
        (android_DIR.mk 3 (android_dirent.mk 0 []))
        (SceIoDread.mk 1 0x11B6 (cstr "Savegames")) =
      some (ReaddirResult.mk (DirentPointer.dir_of 0x81300000) none
        (android_DIR.mk 3 (android_dirent.mk 4 (cstr "Savegames")))
        [Call.platform "sceIoDread"]) ∧
    readdir_fake 9 (fun m => m / 0x1000 % 16 == 1) 0x81300000
        (android_DIR.mk 3 (android_dirent.mk 0 []))
        (SceIoDread.mk (-2147418110) 0 []) =
      some (ReaddirResult.mk DirentPointer.null (some 2)
        (android_DIR.mk 3 (android_dirent.mk 0 [])) [Call.platform "sceIoDread"]) ∧
    readdir_fake 9 (fun m => m / 0x1000 % 16 == 1) 0x81300000
        (android_DIR.mk 3 (android_dirent.mk 0 []))
        (SceIoDread.mk 0 0 []) =
      some (ReaddirResult.mk DirentPointer.null (some 0)
        (android_DIR.mk 3 (android_dirent.mk 0 [])) [Call.platform "sceIoDread"]) :=
  ⟨by decide, by decide, by decide, by decide,
   (readdir_fake_cases 9 (fun m => m / 0x1000 % 16 == 1) 0x81300000
      (android_DIR.mk 3 (android_dirent.mk 0 []))
      (SceIoDread.mk 1 0x11B6 (cstr "Savegames"))).2.2.2 (by decide) (by decide) (by decide),
   ((readdir_fake_cases 9 (fun m => m / 0x1000 % 16 == 1) 0x81300000
      (android_DIR.mk 3 (android_dirent.mk 0 []))
      (SceIoDread.mk (-2147418110) 0 [])).2.1 (by decide) (by decide)).1,
   (readdir_fake_cases 9 (fun m => m / 0x1000 % 16 == 1) 0x81300000
      (android_DIR.mk 3 (android_dirent.mk 0 []))
      (SceIoDread.mk 0 0 [])).2.2.1 (by decide) rfl⟩

theorem stores_of_outside (addr_of : String → Nat) (l : List FakeEnvWrite) (buf : Nat → Nat)
    (i : Nat) (h : ∀ w ∈ l, i < w.offset ∨ w.offset + 4 ≤ i) :
    l.foldl (fun buf w => store_word buf w.offset (addr_of w.value)) buf i = buf i := by
  induction l generalizing buf with
  | nil => rfl
  | cons t rest ih =>
    rw [List.foldl_cons, ih _ (fun w hw => h w (by simp [hw]))]
    have ht := h t (by simp)
    unfold store_word
    rw [if_neg (by omega)]

theorem stores_of_mem (addr_of : String → Nat) (l : List FakeEnvWrite) (buf : Nat → Nat)
    (hp : l.Pairwise (fun a b => a.offset + 4 ≤ b.offset)) (w : FakeEnvWrite) (hw : w ∈ l)
    (k : Nat) (hk : k < 4) :
    l.foldl (fun buf w => store_word buf w.offset (addr_of w.value)) buf (w.offset + k) =
      addr_of w.value / 256 ^ k % 256 := by
  induction l generalizing buf with
  | nil => simp at hw
  | cons t rest ih =>
    rw [List.pairwise_cons] at hp
    rw [List.foldl_cons]
    by_cases hmem : w ∈ rest
    · exact ih _ hp.2 hmem
    · have hwt : w = t := by
        rcases List.mem_cons.1 hw with h | h
        · exact h
        · exact absurd h hmem
      subst hwt
      rw [stores_of_outside]
      · unfold store_word
        rw [if_pos ⟨by omega, by omega⟩]
        congr 3
        omega
      · intro r hr
        have := hp.1 r hr
        omega

theorem fake_env_writes_increasing :
    fake_env_writes.Pairwise (fun a b => a.offset + 4 ≤ b.offset) := by
  decide

/-- C24: every offset that main writes in fake_env is a multiple of 4 and lies
inside the 0x1000 bytes of the buffer, and no offset is written twice; so each
slot finally holds the address stored there (GetMethodID at 0x84,
CallObjectMethodV at 0x8C, GetStringUTFRegion at 0x374, and fake_env's own
address in slot 0), and every byte outside the slots written holds 0x41. -/
theorem fake_env_slots (addr_of : String → Nat) :
    (∀ w ∈ fake_env_writes, w.offset % 4 = 0 ∧ w.offset + 4 ≤ 0x1000) ∧
    (fake_env_writes.map FakeEnvWrite.offset).Nodup ∧
    (∀ w ∈ fake_env_writes,
      load_word (fake_env_table addr_of) w.offset = addr_of w.value % 2 ^ 32) ∧
    (∀ i, (∀ w ∈ fake_env_writes, i < w.offset ∨ w.offset + 4 ≤ i) →
      fake_env_table addr_of i = 0x41) ∧
    load_word (fake_env_table addr_of) 0x00 = addr_of "fake_env" % 2 ^ 32 ∧
    load_word (fake_env_table addr_of) 0x84 = addr_of "GetMethodID" % 2 ^ 32 ∧
    load_word (fake_env_table addr_of) 0x8C = addr_of "CallObjectMethodV" % 2 ^ 32 ∧
    load_word (fake_env_table addr_of) 0x374 = addr_of "GetStringUTFRegion" % 2 ^ 32 := by
  have slot : ∀ w ∈ fake_env_writes,
      load_word (fake_env_table addr_of) w.offset = addr_of w.value % 2 ^ 32 := by
    intro w hw
    have b := stores_of_mem addr_of fake_env_writes (fun _ => 0x41)
      fake_env_writes_increasing w hw
    have b0 := b 0 (by norm_num)
    have b1 := b 1 (by norm_num)
    have b2 := b 2 (by norm_num)
    have b3 := b 3 (by norm_num)
    simp only [Nat.add_zero] at b0
    unfold load_word fake_env_table
    rw [b0, b1, b2, b3]
    norm_num
    omega
  refine ⟨by decide, by decide, slot, ?_, ?_, ?_, ?_, ?_⟩
  · intro i hi
    exact stores_of_outside addr_of fake_env_writes _ i hi
  · exact slot (FakeEnvWrite.mk 0x00 "fake_env") (by decide)
  · exact slot (FakeEnvWrite.mk 0x84 "GetMethodID") (by decide)
  · exact slot (FakeEnvWrite.mk 0x8C "CallObjectMethodV") (by decide)
  · exact slot (FakeEnvWrite.mk 0x374 "GetStringUTFRegion") (by decide)

theorem fake_env_slots_witness :
    (∀ w ∈ fake_env_writes, 0x10 < w.offset ∨ w.offset + 4 ≤ 0x10) ∧
    FakeEnvWrite.mk 0x84 "GetMethodID" ∈ fake_env_writes ∧
    fake_env_table (fun _ => 0x81000000) 0x10 = 0x41 ∧
    load_word (fake_env_table (fun _ => 0x81000000)) 0x84 = 0x81000000 % 2 ^ 32 :=
  ⟨by decide, by decide,
   (fake_env_slots (fun _ => 0x81000000)).2.2.2.1 0x10 (by decide),
   (fake_env_slots (fun _ => 0x81000000)).2.2.1 (FakeEnvWrite.mk 0x84 "GetMethodID")
      (by decide)⟩

theorem nodup_of_all_distinct (l : List Nat) (h : all_distinct l = true) : l.Nodup := by
  induction l with
  | nil => exact List.nodup_nil
  | cons a l ih =>
    simp only [all_distinct, Bool.and_eq_true, List.all_eq_true, bne_iff_ne, ne_eq] at h
    rw [List.nodup_cons]
    exact ⟨fun hm => h.1 a hm rfl, ih h.2⟩

theorem nodup_of_distinct_by_residue (m : Nat) (hm : 0 < m) (l : List Nat)
    (h : distinct_by_residue m l = true) : l.Nodup := by
  rw [List.nodup_iff_count_le_one]
  intro a
  simp only [distinct_by_residue, List.all_eq_true, List.mem_range] at h
  have hn := nodup_of_all_distinct _ (h (a % m) (Nat.mod_lt a hm))
  have hc := List.nodup_iff_count_le_one.1 hn a
  rw [List.count_filter (by simp)] at hc
  exact hc

set_option maxRecDepth 1000000 in
theorem default_dynlib_keys_distinct :
    distinct_by_residue 37
      ((default_dynlib.eraseIdx 148).map (fun d => name_key d.symbol)) = true := by
  decide!

theorem default_dynlib_erased_nodup :
    ((default_dynlib.eraseIdx 148).map so_default_dynlib.symbol).Nodup := by
  have h := nodup_of_distinct_by_residue 37 (by norm_num) _ default_dynlib_keys_distinct
  have e : (default_dynlib.eraseIdx 148).map (fun d => name_key d.symbol) =
      ((default_dynlib.eraseIdx 148).map so_default_dynlib.symbol).map name_key := by
    rw [List.map_map]; rfl
  rw [e] at h
  exact List.Nodup.of_map name_key h

set_option maxRecDepth 1000000 in
theorem mem_default_dynlib_erased (a : so_default_dynlib) (ha : a ∈ default_dynlib) :
    a ∈ default_dynlib.eraseIdx 148 := by
  have h148 : default_dynlib[148]? = some (so_default_dynlib.mk "iswdigit" "iswdigit") := by
    decide
  have h147 : (default_dynlib.take 148)[147]? =
      some (so_default_dynlib.mk "iswdigit" "iswdigit") := by
    decide
  rw [List.eraseIdx_eq_take_drop_succ]
  rw [split_at_index default_dynlib 148 _ h148] at ha
  simp only [List.mem_append, List.mem_cons] at ha ⊢
  rcases ha with h | h | h
  · exact Or.inl h
  · rw [h]; exact Or.inl (List.getElem?_mem h147)
  · exact Or.inr h

theorem default_dynlib_same_name (a b : so_default_dynlib) (ha : a ∈ default_dynlib)
    (hb : b ∈ default_dynlib) (h : a.symbol = b.symbol) : a = b :=
  List.inj_on_of_nodup_map default_dynlib_erased_nodup (mem_default_dynlib_erased a ha)
    (mem_default_dynlib_erased b hb) h

/-- C25: any two entries of default_dynlib that have the same symbol name bind
the same host function, hence the same address; so the address resolved for a
name is the same whether the first or the last entry with that name is
taken. -/
theorem default_dynlib_unambiguous (a b : so_default_dynlib) (ha : a ∈ default_dynlib)
    (hb : b ∈ default_dynlib) (h : a.symbol = b.symbol) :
    a.func = b.func ∧
    ∀ name : String, dynlib_first default_dynlib name = dynlib_last default_dynlib name := by
  refine ⟨by rw [default_dynlib_same_name a b ha hb h], ?_⟩
  intro name
  unfold dynlib_last dynlib_first
  cases h1 : default_dynlib.find? (fun d => d.symbol == name) with
  | none =>
    have hn := List.find?_eq_none.1 h1
    have h2 : default_dynlib.reverse.find? (fun d => d.symbol == name) = none :=
      List.find?_eq_none.2 (fun x hx => hn x (List.mem_reverse.1 hx))
    rw [h2]
  | some x =>
    cases h2 : default_dynlib.reverse.find? (fun d => d.symbol == name) with
    | none =>
      exfalso
      have hpx : (fun d : so_default_dynlib => d.symbol == name) x = true :=
        List.find?_some (p := fun d : so_default_dynlib => d.symbol == name) h1
      exact List.find?_eq_none.1 h2 x (List.mem_reverse.2 (List.mem_of_find?_eq_some h1)) hpx
    | some y =>
      have hx : (fun d : so_default_dynlib => d.symbol == name) x = true :=
        List.find?_some (p := fun d : so_default_dynlib => d.symbol == name) h1
      have hy : (fun d : so_default_dynlib => d.symbol == name) y = true :=
        List.find?_some (p := fun d : so_default_dynlib => d.symbol == name) h2
      simp only [beq_iff_eq] at hx hy
      have hxy := default_dynlib_same_name x y (List.mem_of_find?_eq_some h1)
        (List.mem_reverse.1 (List.mem_of_find?_eq_some h2)) (hx.trans hy.symm)
      rw [hxy]

set_option maxRecDepth 1000000 in
theorem default_dynlib_unambiguous_witness :
    so_default_dynlib.mk "iswdigit" "iswdigit" ∈ default_dynlib ∧
    default_dynlib[147]? = some (so_default_dynlib.mk "iswdigit" "iswdigit") ∧
    default_dynlib[148]? = some (so_default_dynlib.mk "iswdigit" "iswdigit") ∧
    dynlib_first default_dynlib "iswdigit" = dynlib_last default_dynlib "iswdigit" :=
  have hm : so_default_dynlib.mk "iswdigit" "iswdigit" ∈ default_dynlib :=
    List.getElem?_mem (show default_dynlib[147]? = some _ by decide)
  ⟨hm, by decide, by decide,
   (default_dynlib_unambiguous _ _ hm hm rfl).2 "iswdigit"⟩

end Thimbleweed
